import Mathlib

/-!
Verification of the desktop-entry format engine of rmenu-ng
(`src/desktop_entry.rs`) against its natural-language specification.

Modelling choices:
* Rust `String` values are modelled as `List Char` (`Str`); lexicographic
  order on the character sequence agrees with Rust's byte order on UTF-8.
* `BTreeMap<String, V>` is modelled as a sorted association list (`SMap V`):
  `insertSorted` keeps keys strictly ascending and overwrites an equal key,
  and iteration order is the list order, exactly like a `BTreeMap`.
* Fallible deserializers return `Except Err _`; the constructors of `Err`
  mirror the distinct serde error values produced by the source.
-/

set_option maxHeartbeats 1600000

namespace RMenu

/-- Character-sequence model of a Rust `String`. -/
abbrev Str := List Char

/-- Embed a Lean string literal into the `Str` model. -/
def str (s : String) : Str := s.data

/-- Lexicographic strict order on `Str`, matching the `Ord` instance used by
`BTreeMap<String, _>` in the source (byte order of UTF-8 equals code-point
order). -/
def strLt : Str → Str → Bool
  | [], [] => false
  | [], _ :: _ => true
  | _ :: _, [] => false
  | a :: s, b :: t => if a < b then true else if b < a then false else strLt s t

/-- Association list keyed by `Str`, modelling `BTreeMap<String, V>`; the
well-formed ones are sorted by `strLt` and iteration order is list order. -/
abbrev SMap (α : Type) := List (Str × α)

/-- Key lookup, modelling `BTreeMap::get`. -/
def lookupS {α : Type} : SMap α → Str → Option α
  | [], _ => none
  | (k, v) :: rest, q => if q = k then some v else lookupS rest q

/-- Ordered insert, modelling `BTreeMap::insert`: keeps keys ascending and
overwrites an equal key. -/
def insertSorted {α : Type} (k : Str) (v : α) : SMap α → SMap α
  | [] => [(k, v)]
  | (k', v') :: rest =>
    if strLt k k' then (k, v) :: (k', v') :: rest
    else if k = k' then (k, v) :: rest
    else (k', v') :: insertSorted k v rest

/-- Key removal, modelling `BTreeMap::remove`'s effect on the map. -/
def eraseKey {α : Type} (k : Str) (m : SMap α) : SMap α :=
  m.filter (fun kv => decide (kv.1 ≠ k))

/-- Build a `BTreeMap` from a sequence of `insert` calls, in call order. -/
def toMap (ps : List (Str × Str)) : SMap Str :=
  ps.foldl (fun m kv => insertSorted kv.1 kv.2 m) []

/-- Strictly-ascending-keys invariant of a `BTreeMap` model. -/
def SMapSorted {α : Type} (m : SMap α) : Prop :=
  List.Pairwise (fun a b => strLt a.1 b.1 = true) m

instance decSMapSorted {α : Type} (m : SMap α) : Decidable (SMapSorted m) :=
  inferInstanceAs (Decidable (List.Pairwise _ m))

/-- First-`some` fold over options, used to describe last-write-wins folds. -/
def oOr {α : Type} (a b : Option α) : Option α :=
  match a with
  | some v => some v
  | none => b

/-! ### Scalar codecs -/
/-- Splitting step of `SemicolonList::deserialize`: Rust `str::split(';')`,
which yields `[""]` on empty input and an empty fragment per doubled or
trailing delimiter. -/
def splitSemi (s : Str) : List Str :=
  s.foldr
    (fun c acc =>
      if c = ';' then [] :: acc
      else
        match acc with
        | h :: t => (c :: h) :: t
        | [] => [[c]])
    [[]]

/-- Translation of `SemicolonList::deserialize` (src/desktop_entry.rs 15-34):
split on ';' and drop every empty fragment. Total: decoding never fails. -/
def semicolonList_deserialize (s : Str) : List Str :=
  (splitSemi s).filter (fun part => !part.isEmpty)

/-- Rust `Vec::join(";")`: interleave ';' between the elements. -/
def joinSemi : List Str → Str
  | [] => []
  | [x] => x
  | x :: rest => x ++ ';' :: joinSemi rest

/-- Translation of `SemicolonList::serialize` (src/desktop_entry.rs 36-52):
empty list becomes the empty string; otherwise join with ';' and append a
trailing ';' when the joined text does not already end with one. -/
def semicolonList_serialize (l : List Str) : Str :=
  if l = [] then []
  else
    let joined := joinSemi l
    if joined.getLast? = some ';' then joined else joined ++ [';']

/-- Error values of the engine; constructors mirror the pairwise-distinct
serde error values built in the source (`missing_field`, the custom
"Missing action ID" error, and the custom "Invalid boolean string" error). -/
inductive Err : Type where
  | missingField (f : Str)
  | missingActionId
  | invalidBoolean (s : Str)
  deriving DecidableEq, Repr

deriving instance DecidableEq for Except

/-- Per-character lowercasing, modelling `str::to_lowercase` (which agrees
with ASCII per-character lowercasing on every ASCII input). -/
def lowerStr (s : Str) : Str := s.map Char.toLower

/-- Translation of `deserialize_opt_bool` (src/desktop_entry.rs 718-737):
lowercase the text, accept "true"/"1" and "false"/"0", otherwise fail with
the custom error carrying the lowercased text. -/
def deserialize_opt_bool (o : Option Str) : Except Err (Option Bool) :=
  match o with
  | none => Except.ok none
  | some s =>
    let s_lower := lowerStr s
    if s_lower = str "true" ∨ s_lower = str "1" then Except.ok (some true)
    else if s_lower = str "false" ∨ s_lower = str "0" then Except.ok (some false)
    else Except.error (Err.invalidBoolean s_lower)

/-- Rust `bool::to_string`, used by `serialize_desktop_entry` for every
boolean field. -/
def boolStr (b : Bool) : Str := if b then str "true" else str "false"

/-! ### Locale-key extraction -/
/-- Matching rule of `deserialize_localized` (src/desktop_entry.rs 112-119):
a key matches when it equals the field name exactly, or when it starts with
the field name followed by '[' and ends with ']'. -/
def localizedMatches (pre key : Str) : Bool :=
  decide (key = pre) ||
    ((pre ++ ['[']).isPrefixOf key && decide (key.getLast? = some ']'))

/-- Suffix of a key after its first '[', modelling `str::find('[')` together
with the slice `full_key[start + 1 ..]` taken at src/desktop_entry.rs 127-129
(the final step there also cuts the last character; see `localizedStep`). -/
def afterBracket : Str → Option Str
  | [] => none
  | c :: rest => if c = '[' then some rest else afterBracket rest

/-- One turn of the removal loop of `deserialize_localized`
(src/desktop_entry.rs 123-133): `map.remove` the key; file its value under
locale "" when the key equals the field name, otherwise under the text
strictly between the first '[' and the key's last character. -/
def localizedStep (pre : Str) (acc : SMap Str × SMap Str) (full_key : Str) :
    SMap Str × SMap Str :=
  match lookupS acc.2 full_key with
  | none => acc
  | some value =>
    let m := eraseKey full_key acc.2
    if full_key = pre then (insertSorted [] value acc.1, m)
    else
      match afterBracket full_key with
      | some rest => (insertSorted rest.dropLast value acc.1, m)
      | none => (acc.1, m)

/-- Translation of `deserialize_localized` (src/desktop_entry.rs 104-135):
collect the matching keys in map order; if none matched return `None` and
leave the map unchanged, otherwise remove every matching key and fold the
values into a locale map. -/
def deserialize_localized (pre : Str) (map : SMap Str) :
    Option (SMap Str) × SMap Str :=
  let to_remove := (map.filter (fun kv => localizedMatches pre kv.1)).map Prod.fst
  if to_remove = [] then (none, map)
  else
    let r := to_remove.foldl (localizedStep pre) ([], map)
    (some r.1, r.2)

/-- Value that one removal turn would file under locale `q`, reading the
key's value from `m0`; mirrors `localizedStep` exactly. -/
def insVal (m0 : SMap Str) (pre q k : Str) : Option Str :=
  match lookupS m0 k with
  | none => none
  | some v =>
    if k = pre then (if q = [] then some v else none)
    else
      match afterBracket k with
      | some rest => if q = rest.dropLast then some v else none
      | none => none

/-! ### Record layer: entry and action sections -/
/-- Rust `Vec<String>` content of a `SemicolonList`. -/
abbrev SemicolonList := List Str

/-- Locale-map content (`LocaleMap(BTreeMap<String, String>)`). -/
abbrev LocaleMap := SMap Str

/-- Translation of `deserialize_opt_semicolon_list` (src/desktop_entry.rs
739-754): an absent key stays absent, otherwise run the list codec; this
can never fail, since the list codec is total. -/
def deserialize_opt_semicolon_list (o : Option Str) : Option SemicolonList :=
  o.map semicolonList_deserialize

/-- The `[Desktop Entry]` record (src/desktop_entry.rs 140-289). -/
structure DesktopEntry : Type where
  entry_type : Str
  version : Option Str
  name : LocaleMap
  generic_name : Option LocaleMap
  no_display : Option Bool
  comment : Option LocaleMap
  icon : Option LocaleMap
  hidden : Option Bool
  only_show_in : Option SemicolonList
  not_show_in : Option SemicolonList
  dbus_activatable : Option Bool
  try_exec : Option Str
  exec : Option Str
  path : Option Str
  terminal : Option Bool
  actions : Option SemicolonList
  mime_type : Option SemicolonList
  categories : Option SemicolonList
  implements : Option SemicolonList
  keywords : Option LocaleMap
  startup_notify : Option Bool
  startup_wm_class : Option Str
  url : Option Str
  prefers_non_default_gpu : Option Bool
  other : SMap Str
  deriving DecidableEq, Repr

/-- The `[Desktop Action <ID>]` record (src/desktop_entry.rs 294-309). -/
structure DesktopAction : Type where
  name : LocaleMap
  icon : Option LocaleMap
  exec : Option Str
  other : SMap Str
  deriving DecidableEq, Repr

/-- Key names the `TempEntry` struct of `deserialize_desktop_entry`
declares (src/desktop_entry.rs 379-467); every key not in this list is
flattened into `other`. -/
def declaredEntryKeys : List Str :=
  [str "Type", str "Version", str "NoDisplay", str "Hidden",
   str "OnlyShowIn", str "NotShowIn", str "DBusActivatable", str "TryExec",
   str "Exec", str "Path", str "Terminal", str "Actions", str "MimeType",
   str "Categories", str "Implements", str "StartupNotify",
   str "StartupWMClass", str "URL", str "PrefersNonDefaultGPU"]

/-- Translation of `deserialize_desktop_entry` (src/desktop_entry.rs
363-498): extract the five localized fields in declaration order, each
mutating the raw map, then bind the declared scalar/boolean/list keys from
what remains, collecting every leftover key into `other`. Boolean decode
errors surface before the missing-`Type` check, mirroring serde's
value-before-missing-field order; no claim depends on which of two
simultaneously erroneous fields is reported first. -/
def deserialize_desktop_entry (raw0 : SMap Str) : Except Err DesktopEntry :=
  let r1 := deserialize_localized (str "Name") raw0
  match r1.1 with
  | none => Except.error (Err.missingField (str "Name"))
  | some name =>
    let r2 := deserialize_localized (str "GenericName") r1.2
    let r3 := deserialize_localized (str "Comment") r2.2
    let r4 := deserialize_localized (str "Icon") r3.2
    let r5 := deserialize_localized (str "Keywords") r4.2
    let raw := r5.2
    match deserialize_opt_bool (lookupS raw (str "NoDisplay")) with
    | Except.error e => Except.error e
    | Except.ok no_display =>
    match deserialize_opt_bool (lookupS raw (str "Hidden")) with
    | Except.error e => Except.error e
    | Except.ok hidden =>
    match deserialize_opt_bool (lookupS raw (str "DBusActivatable")) with
    | Except.error e => Except.error e
    | Except.ok dbus_activatable =>
    match deserialize_opt_bool (lookupS raw (str "Terminal")) with
    | Except.error e => Except.error e
    | Except.ok terminal =>
    match deserialize_opt_bool (lookupS raw (str "StartupNotify")) with
    | Except.error e => Except.error e
    | Except.ok startup_notify =>
    match deserialize_opt_bool (lookupS raw (str "PrefersNonDefaultGPU")) with
    | Except.error e => Except.error e
    | Except.ok prefers_non_default_gpu =>
    match lookupS raw (str "Type") with
    | none => Except.error (Err.missingField (str "Type"))
    | some entry_type =>
      Except.ok {
        entry_type := entry_type
        version := lookupS raw (str "Version")
        name := name
        generic_name := r2.1
        no_display := no_display
        comment := r3.1
        icon := r4.1
        hidden := hidden
        only_show_in :=
          deserialize_opt_semicolon_list (lookupS raw (str "OnlyShowIn"))
        not_show_in :=
          deserialize_opt_semicolon_list (lookupS raw (str "NotShowIn"))
        dbus_activatable := dbus_activatable
        try_exec := lookupS raw (str "TryExec")
        exec := lookupS raw (str "Exec")
        path := lookupS raw (str "Path")
        terminal := terminal
        actions := deserialize_opt_semicolon_list (lookupS raw (str "Actions"))
        mime_type :=
          deserialize_opt_semicolon_list (lookupS raw (str "MimeType"))
        categories :=
          deserialize_opt_semicolon_list (lookupS raw (str "Categories"))
        implements :=
          deserialize_opt_semicolon_list (lookupS raw (str "Implements"))
        keywords := r5.1
        startup_notify := startup_notify
        startup_wm_class := lookupS raw (str "StartupWMClass")
        url := lookupS raw (str "URL")
        prefers_non_default_gpu := prefers_non_default_gpu
        other := declaredEntryKeys.foldl (fun m k => eraseKey k m) raw }

/-- Sentinel key the upstream reader injects to carry the action ID
(src/desktop_entry.rs 652-659). -/
def actionIdKey : Str := str "__action_id"

/-- Translation of `deserialize_desktop_action` (src/desktop_entry.rs
636-673): pop the sentinel action-ID key, failing with the dedicated
"Missing action ID" error when absent; then extract localized `Name`
(mandatory, failing with the decorated field text
`"Desktop Action <id> → Name"`) and `Icon`, pop `Exec`, keep the rest. -/
def deserialize_desktop_action (raw0 : SMap Str) :
    Except Err (Str × DesktopAction) :=
  match lookupS raw0 actionIdKey with
  | none => Except.error Err.missingActionId
  | some action_id =>
    let raw1 := eraseKey actionIdKey raw0
    let r2 := deserialize_localized (str "Name") raw1
    match r2.1 with
    | none =>
      Except.error (Err.missingField
        (str "Desktop Action " ++ action_id ++ str " → Name"))
    | some name =>
      let r3 := deserialize_localized (str "Icon") r2.2
      Except.ok (action_id,
        { name := name
          icon := r3.1
          exec := lookupS r3.2 (str "Exec")
          other := eraseKey (str "Exec") r3.2 })

/-- serde_json's escaping of one character inside a JSON string literal;
`serialize_desktop_entry` renders list fields via `serde_json::to_string`
(src/desktop_entry.rs 555-600), so the escaping is part of the emitted
text. -/
def jsonEscapeChar (c : Char) : Str :=
  if c = '"' then ['\\', '"']
  else if c = '\\' then ['\\', '\\']
  else if c.toNat < 32 then
    if c.toNat = 8 then ['\\', 'b']
    else if c.toNat = 9 then ['\\', 't']
    else if c.toNat = 10 then ['\\', 'n']
    else if c.toNat = 12 then ['\\', 'f']
    else if c.toNat = 13 then ['\\', 'r']
    else ['\\', 'u', '0', '0',
      Nat.digitChar (c.toNat / 16), Nat.digitChar (c.toNat % 16)]
  else [c]

/-- `serde_json::to_string` applied to a string value: quote and escape. -/
def jsonStringText (s : Str) : Str :=
  '"' :: (s.map jsonEscapeChar).flatten ++ ['"']

/-- Rust `str::trim_matches('"')`: strip every leading and every trailing
'"' character. -/
def trimMatchesQuote (s : Str) : Str :=
  ((s.dropWhile (fun c => c = '"')).reverse.dropWhile (fun c => c = '"')).reverse

/-- Text stored for a list-valued field: `serde_json::to_string` of the
`SemicolonList` followed by `trim_matches('"')` (src/desktop_entry.rs
555-560 and the analogous blocks). -/
def listFieldText (l : SemicolonList) : Str :=
  trimMatchesQuote (jsonStringText (semicolonList_serialize l))

/-- The key emitted for one locale under a field name
(src/desktop_entry.rs 514-520 and analogues): locale "" yields the bare
field name, locale `loc` yields `name ++ "[" ++ loc ++ "]"`. -/
def lmKey (pre loc : Str) : Str :=
  if loc = [] then pre else pre ++ '[' :: (loc ++ [']'])

/-- Keys emitted for one locale map under a field name, in map order. -/
def lmPairs (pre : Str) (lm : LocaleMap) : List (Str × Str) :=
  lm.map (fun kv => (lmKey pre kv.1, kv.2))

def optLmPairs (pre : Str) : Option LocaleMap → List (Str × Str)
  | some lm => lmPairs pre lm
  | none => []

def optScalarPairs (k : Str) : Option Str → List (Str × Str)
  | some v => [(k, v)]
  | none => []

def optBoolPairs (k : Str) : Option Bool → List (Str × Str)
  | some b => [(k, boolStr b)]
  | none => []

def optListPairs (k : Str) : Option SemicolonList → List (Str × Str)
  | some l => [(k, listFieldText l)]
  | none => []

/-- The `map.insert` call sequence of `serialize_desktop_entry`
(src/desktop_entry.rs 506-626) in source order: `Type`, `Version`, the
localized fields at their positions, booleans/lists via their codecs, and
finally every `other` key. -/
def entryPairs (e : DesktopEntry) : List (Str × Str) :=
  [(str "Type", e.entry_type)]
  ++ optScalarPairs (str "Version") e.version
  ++ lmPairs (str "Name") e.name
  ++ optLmPairs (str "GenericName") e.generic_name
  ++ optBoolPairs (str "NoDisplay") e.no_display
  ++ optLmPairs (str "Comment") e.comment
  ++ optLmPairs (str "Icon") e.icon
  ++ optBoolPairs (str "Hidden") e.hidden
  ++ optListPairs (str "OnlyShowIn") e.only_show_in
  ++ optListPairs (str "NotShowIn") e.not_show_in
  ++ optBoolPairs (str "DBusActivatable") e.dbus_activatable
  ++ optScalarPairs (str "TryExec") e.try_exec
  ++ optScalarPairs (str "Exec") e.exec
  ++ optScalarPairs (str "Path") e.path
  ++ optBoolPairs (str "Terminal") e.terminal
  ++ optListPairs (str "Actions") e.actions
  ++ optListPairs (str "MimeType") e.mime_type
  ++ optListPairs (str "Categories") e.categories
  ++ optListPairs (str "Implements") e.implements
  ++ optLmPairs (str "Keywords") e.keywords
  ++ optBoolPairs (str "StartupNotify") e.startup_notify
  ++ optScalarPairs (str "StartupWMClass") e.startup_wm_class
  ++ optScalarPairs (str "URL") e.url
  ++ optBoolPairs (str "PrefersNonDefaultGPU") e.prefers_non_default_gpu
  ++ e.other

/-- Translation of `serialize_desktop_entry` (src/desktop_entry.rs
501-633): run the insert sequence on a fresh `BTreeMap` and wrap the map
under the "Desktop Entry" section header; the emitted key sequence is the
map's iteration order, i.e. ascending key order. -/
def serialize_desktop_entry (e : DesktopEntry) : Str × SMap Str :=
  (str "Desktop Entry", toMap (entryPairs e))

/-- The insert sequence of `serialize_desktop_action`
(src/desktop_entry.rs 686-710). -/
def actionPairs (a : DesktopAction) : List (Str × Str) :=
  lmPairs (str "Name") a.name
  ++ optLmPairs (str "Icon") a.icon
  ++ optScalarPairs (str "Exec") a.exec
  ++ a.other

/-- Translation of `serialize_desktop_action` (src/desktop_entry.rs
676-716): build the flat map and wrap it under the re-derived header
`"Desktop Action " ++ id`. -/
def serialize_desktop_action (action_id : Str) (a : DesktopAction) :
    Str × SMap Str :=
  (str "Desktop Action " ++ action_id, toMap (actionPairs a))

/-- Value kept by a `BTreeMap` built from an insert sequence: the last
pair carrying the key wins. -/
def lookupLast {α : Type} (ps : List (Str × α)) (q : Str) : Option α :=
  ps.foldl (fun o kv => oOr (if q = kv.1 then some kv.2 else none) o) none

/-! ### C3: key emission order of entry serialization -/
/-- Minimal entry record: `Type=Application`, `Name=A`, all other fields
absent. -/
def baseEntry : DesktopEntry where
  entry_type := str "Application"
  version := none
  name := [([], str "A")]
  generic_name := none
  no_display := none
  comment := none
  icon := none
  hidden := none
  only_show_in := none
  not_show_in := none
  dbus_activatable := none
  try_exec := none
  exec := none
  path := none
  terminal := none
  actions := none
  mime_type := none
  categories := none
  implements := none
  keywords := none
  startup_notify := none
  startup_wm_class := none
  url := none
  prefers_non_default_gpu := none
  other := []

/-! ### Document layer -/
/-- One section of a `DesktopFile` (src/desktop_entry.rs 316-335). -/
inductive Section : Type where
  | entry (desktop_entry : DesktopEntry)
  | action (action_id : Str) (action : DesktopAction)
  | other (raw : SMap Str)
  deriving DecidableEq, Repr

/-- A parsed `.desktop` file, `DesktopFile`: a `BTreeMap` from section
name to section (src/desktop_entry.rs 342-346). -/
abbrev Document := SMap Section

/-- Modelled from the spec: the classifier/reader glue that is not itself
in src (serde's untagged dispatch over `Section` and the upstream INI
reader assumed in the spec, which supplies the header and injects the
`__action_id` sentinel for action sections). A header equal to
"Desktop Entry" binds the main entry, a header starting with
"Desktop Action " binds an action whose ID is the remainder of the header,
anything else passes through opaquely; the entry/action bodies are parsed
by the src-translated deserializers above. -/
def parseSection (header : Str) (raw : SMap Str) : Except Err Section :=
  if header = str "Desktop Entry" then
    (deserialize_desktop_entry raw).map Section.entry
  else if (str "Desktop Action ").isPrefixOf header then
    (deserialize_desktop_action
        (insertSorted actionIdKey
          (header.drop (str "Desktop Action ").length) raw)).map
      (fun p => Section.action p.1 p.2)
  else Except.ok (Section.other raw)

/-- Fold of the section sequence into the document map, keyed by header. -/
def parse_document_aux : Document → List (Str × SMap Str) → Except Err Document
  | doc, [] => Except.ok doc
  | doc, hs :: rest =>
    match parseSection hs.1 hs.2 with
    | Except.error e => Except.error e
    | Except.ok sec => parse_document_aux (insertSorted hs.1 sec doc) rest

/-- Modelled from the spec: `parse_document` builds the `DesktopFile`'s
`BTreeMap<String, Section>` from the reader's ordered section sequence;
map insertion under the section header gives the standard last-write-wins
behavior on duplicate headers. -/
def parse_document (secs : List (Str × SMap Str)) : Except Err Document :=
  parse_document_aux [] secs

/-- Serialization of one section: entry/action serializers derive the
emitted header themselves (the source's wrapper maps); opaque sections
re-emit their stored name and raw map unchanged. -/
def serializeSection (name : Str) : Section → Str × SMap Str
  | Section.entry e => serialize_desktop_entry e
  | Section.action action_id a => serialize_desktop_action action_id a
  | Section.other raw => (name, raw)

/-- Modelled from the spec: `serialize_document` walks the document's
sections in map order and emits each one; it never fails. -/
def serialize_document (doc : Document) : List (Str × SMap Str) :=
  doc.map (fun ns => serializeSection ns.1 ns.2)

/-- Entry record parsed from `{Name=B, Type=Link}`. -/
def baseEntryLink : DesktopEntry :=
  { baseEntry with entry_type := str "Link", name := [([], str "B")] }

/-! ### Codec round-trip lemmas -/
/-- Characters the JSON string escaper leaves unchanged and that survive
`trim_matches('"')` without loss. -/
def jsonSafeChar (c : Char) : Prop := c ≠ '"' ∧ c ≠ '\\' ∧ 32 ≤ c.toNat

instance decJsonSafeChar (c : Char) : Decidable (jsonSafeChar c) :=
  inferInstanceAs (Decidable (_ ∧ _ ∧ _))

/-- Well-formed list element: non-empty, delimiter-free, JSON-transparent. -/
def listElemOk (x : Str) : Prop :=
  x ≠ [] ∧ ';' ∉ x ∧ ∀ c ∈ x, jsonSafeChar c

instance decListElemOk (x : Str) : Decidable (listElemOk x) :=
  inferInstanceAs (Decidable (_ ∧ _ ∧ _))

/-- Specification-side lookup of a locale map through an emitted key. -/
def locValue (pre : Str) (lm : LocaleMap) (q : Str) : Option Str :=
  if q = pre then lookupS lm []
  else
    match afterBracket q with
    | some rest =>
      if rest.dropLast = [] then none else lookupS lm rest.dropLast
    | none => none

def optLocValue (pre : Str) (o : Option LocaleMap) (q : Str) : Option Str :=
  match o with
  | some lm => locValue pre lm q
  | none => none

/-- A key that `deserialize_desktop_entry` leaves in `other`: not one of
the declared scalar keys, and matched by none of the five localized
field patterns. -/
def entryExtraKeyOk (k : Str) : Prop :=
  k ∉ declaredEntryKeys ∧
  localizedMatches (str "Name") k = false ∧
  localizedMatches (str "GenericName") k = false ∧
  localizedMatches (str "Comment") k = false ∧
  localizedMatches (str "Icon") k = false ∧
  localizedMatches (str "Keywords") k = false

instance decEntryExtraKeyOk (k : Str) : Decidable (entryExtraKeyOk k) :=
  inferInstanceAs (Decidable (_ ∧ _ ∧ _ ∧ _ ∧ _ ∧ _))

/-- Specification-side view of the map `serialize_desktop_entry` builds:
what a lookup of key `q` returns, described per field. -/
def mLook (e : DesktopEntry) (q : Str) : Option Str :=
  if localizedMatches (str "Name") q = true then locValue (str "Name") e.name q
  else if localizedMatches (str "GenericName") q = true then optLocValue (str "GenericName") e.generic_name q
  else if localizedMatches (str "Comment") q = true then optLocValue (str "Comment") e.comment q
  else if localizedMatches (str "Icon") q = true then optLocValue (str "Icon") e.icon q
  else if localizedMatches (str "Keywords") q = true then optLocValue (str "Keywords") e.keywords q
  else if q = str "Type" then some e.entry_type
  else if q = str "Version" then e.version
  else if q = str "NoDisplay" then e.no_display.map boolStr
  else if q = str "Hidden" then e.hidden.map boolStr
  else if q = str "OnlyShowIn" then e.only_show_in.map listFieldText
  else if q = str "NotShowIn" then e.not_show_in.map listFieldText
  else if q = str "DBusActivatable" then e.dbus_activatable.map boolStr
  else if q = str "TryExec" then e.try_exec
  else if q = str "Exec" then e.exec
  else if q = str "Path" then e.path
  else if q = str "Terminal" then e.terminal.map boolStr
  else if q = str "Actions" then e.actions.map listFieldText
  else if q = str "MimeType" then e.mime_type.map listFieldText
  else if q = str "Categories" then e.categories.map listFieldText
  else if q = str "Implements" then e.implements.map listFieldText
  else if q = str "StartupNotify" then e.startup_notify.map boolStr
  else if q = str "StartupWMClass" then e.startup_wm_class
  else if q = str "URL" then e.url
  else if q = str "PrefersNonDefaultGPU" then e.prefers_non_default_gpu.map boolStr
  else lookupS e.other q

/-! ### Well-formedness: the serializable records -/
/-- A localized optional field that survives the serialize/parse cycle:
when present, its locale map is sorted and nonempty (an empty map would
emit no key and parse back as absent). -/
def WFLm : Option LocaleMap → Prop
  | none => True
  | some lm => SMapSorted lm ∧ lm ≠ []

instance decWFLm : (o : Option LocaleMap) → Decidable (WFLm o)
  | none => isTrue trivial
  | some lm => inferInstanceAs (Decidable (_ ∧ _))

/-- A list field that survives the cycle: every element nonempty,
semicolon-free and JSON-safe. -/
def WFList : Option SemicolonList → Prop
  | none => True
  | some l => ∀ x ∈ l, listElemOk x

instance decWFList : (o : Option SemicolonList) → Decidable (WFList o)
  | none => isTrue trivial
  | some l => inferInstanceAs (Decidable (∀ x ∈ l, listElemOk x))

/-- An entry record whose serialization parses back to itself: the
localized maps are sorted (and nonempty when present), list elements are
codec-safe, and the catch-all holds only undeclared, unmatched keys. -/
def WFEntry (e : DesktopEntry) : Prop :=
  SMapSorted e.name ∧ e.name ≠ [] ∧
  WFLm e.generic_name ∧ WFLm e.comment ∧ WFLm e.icon ∧ WFLm e.keywords ∧
  WFList e.only_show_in ∧ WFList e.not_show_in ∧ WFList e.actions ∧
  WFList e.mime_type ∧ WFList e.categories ∧ WFList e.implements ∧
  SMapSorted e.other ∧ ∀ kv ∈ e.other, entryExtraKeyOk kv.1

instance decWFEntry (e : DesktopEntry) : Decidable (WFEntry e) := by
  unfold WFEntry
  infer_instance

/-- A key that `deserialize_desktop_action` leaves in the action's
catch-all. -/
def actionExtraKeyOk (k : Str) : Prop :=
  k ≠ str "Exec" ∧ k ≠ actionIdKey ∧
  localizedMatches (str "Name") k = false ∧
  localizedMatches (str "Icon") k = false

instance decActionExtraKeyOk (k : Str) : Decidable (actionExtraKeyOk k) :=
  inferInstanceAs (Decidable (_ ∧ _ ∧ _ ∧ _))

/-- An action record whose serialization parses back to itself. -/
def WFAction (a : DesktopAction) : Prop :=
  SMapSorted a.name ∧ a.name ≠ [] ∧ WFLm a.icon ∧
  SMapSorted a.other ∧ ∀ kv ∈ a.other, actionExtraKeyOk kv.1

instance decWFAction (a : DesktopAction) : Decidable (WFAction a) := by
  unfold WFAction
  infer_instance

/-! ### The action round-trip -/
/-- Specification-side view of the map `serialize_desktop_action` builds. -/
def mLookA (a : DesktopAction) (q : Str) : Option Str :=
  if localizedMatches (str "Name") q = true then locValue (str "Name") a.name q
  else if localizedMatches (str "Icon") q = true then
    optLocValue (str "Icon") a.icon q
  else if q = str "Exec" then a.exec
  else lookupS a.other q

/-! ### The document round-trip (C1) -/
/-- Consistency of a stored section with its map key, required for the
cycle: entry sections sit under "Desktop Entry", action sections under
"Desktop Action <ID>", opaque sections under any other name. -/
def sectionOk (n : Str) : Section → Prop
  | Section.entry e => n = str "Desktop Entry" ∧ WFEntry e
  | Section.action action_id a =>
      n = str "Desktop Action " ++ action_id ∧ WFAction a
  | Section.other _ => n ≠ str "Desktop Entry" ∧
      (str "Desktop Action ").isPrefixOf n = false

instance decSectionOk (n : Str) : (s : Section) → Decidable (sectionOk n s)
  | Section.entry _ => inferInstanceAs (Decidable (_ ∧ _))
  | Section.action _ _ => inferInstanceAs (Decidable (_ ∧ _))
  | Section.other _ => inferInstanceAs (Decidable (_ ∧ _))

/-- A document that survives the serialize/parse cycle: a sorted section
map whose every section is well-formed and consistent with its key. -/
def WFDocument (d : Document) : Prop :=
  SMapSorted d ∧ ∀ ns ∈ d, sectionOk ns.1 ns.2

instance decWFDocument (d : Document) : Decidable (WFDocument d) := by
  unfold WFDocument
  infer_instance

/-! ### Order and map toolkit -/
theorem strLt_irrefl (a : Str) : strLt a a = false := by
  induction a with
  | nil => rfl
  | cons c s ih => simp [strLt, lt_irrefl, ih]

theorem strLt_trans : ∀ {a b c : Str},
    strLt a b = true → strLt b c = true → strLt a c = true := by
  intro a
  induction a with
  | nil =>
    intro b c h₁ h₂
    cases b with
    | nil => simp [strLt] at h₁
    | cons y t =>
      cases c with
      | nil => simp [strLt] at h₂
      | cons z u => rfl
  | cons x s ih =>
    intro b c h₁ h₂
    cases b with
    | nil => simp [strLt] at h₁
    | cons y t =>
      cases c with
      | nil => simp [strLt] at h₂
      | cons z u =>
        simp only [strLt] at h₁ h₂ ⊢
        rcases lt_trichotomy x y with hxy | rfl | hyx
        · rcases lt_trichotomy y z with hyz | rfl | hzy
          · rw [if_pos (lt_trans hxy hyz)]
          · rw [if_pos hxy]
          · rw [if_neg (lt_asymm hzy), if_pos hzy] at h₂
            exact absurd h₂ (by simp)
        · rw [if_neg (lt_irrefl x), if_neg (lt_irrefl x)] at h₁
          rcases lt_trichotomy x z with hxz | rfl | hzx
          · rw [if_pos hxz]
          · rw [if_neg (lt_irrefl x), if_neg (lt_irrefl x)] at h₂ ⊢
            exact ih h₁ h₂
          · rw [if_neg (lt_asymm hzx), if_pos hzx] at h₂
            exact absurd h₂ (by simp)
        · rw [if_neg (lt_asymm hyx), if_pos hyx] at h₁
          exact absurd h₁ (by simp)

theorem strLt_asymm {a b : Str} (h : strLt a b = true) : strLt b a = false := by
  by_contra h'
  rw [Bool.not_eq_false] at h'
  have := strLt_trans h h'
  rw [strLt_irrefl] at this
  exact absurd this (by simp)

theorem strLt_connex (a b : Str) :
    a = b ∨ strLt a b = true ∨ strLt b a = true := by
  induction a generalizing b with
  | nil =>
    cases b with
    | nil => exact Or.inl rfl
    | cons y t => exact Or.inr (Or.inl rfl)
  | cons x s ih =>
    cases b with
    | nil => exact Or.inr (Or.inr rfl)
    | cons y t =>
      rcases lt_trichotomy x y with hxy | rfl | hyx
      · exact Or.inr (Or.inl (by simp [strLt, hxy]))
      · rcases ih t with rfl | h | h
        · exact Or.inl rfl
        · exact Or.inr (Or.inl (by simp [strLt, lt_irrefl, h]))
        · exact Or.inr (Or.inr (by simp [strLt, lt_irrefl, h]))
      · exact Or.inr (Or.inr (by simp [strLt, hyx]))

theorem strLt_ne {a b : Str} (h : strLt a b = true) : a ≠ b := by
  rintro rfl
  rw [strLt_irrefl] at h
  exact absurd h (by simp)

theorem lookupS_insertSorted {α : Type} (k : Str) (v : α) (m : SMap α) (q : Str) :
    lookupS (insertSorted k v m) q = if q = k then some v else lookupS m q := by
  induction m with
  | nil => simp [insertSorted, lookupS]
  | cons kv rest ih =>
    obtain ⟨k', v'⟩ := kv
    simp only [insertSorted]
    by_cases h1 : strLt k k' = true
    · rw [if_pos h1]
      simp [lookupS]
    · rw [if_neg h1]
      by_cases h2 : k = k'
      · subst h2
        by_cases hq : q = k <;> simp [lookupS, hq]
      · rw [if_neg h2]
        by_cases hq : q = k'
        · subst hq
          rw [if_neg (Ne.symm h2)]
          simp [lookupS]
        · simp [lookupS, hq, ih]

theorem mem_insertSorted {α : Type} {kv : Str × α} {k : Str} {v : α} :
    ∀ {m : SMap α}, kv ∈ insertSorted k v m → kv = (k, v) ∨ kv ∈ m := by
  intro m
  induction m with
  | nil =>
    intro h
    simp only [insertSorted] at h
    exact Or.inl (List.mem_singleton.mp h)
  | cons kv' rest ih =>
    intro h
    obtain ⟨k', v'⟩ := kv'
    simp only [insertSorted] at h
    by_cases h1 : strLt k k' = true
    · rw [if_pos h1] at h
      rcases List.mem_cons.mp h with h | h
      · exact Or.inl h
      · exact Or.inr h
    · rw [if_neg h1] at h
      by_cases h2 : k = k'
      · rw [if_pos h2] at h
        rcases List.mem_cons.mp h with h | h
        · exact Or.inl h
        · exact Or.inr (List.mem_cons_of_mem _ h)
      · rw [if_neg h2] at h
        rcases List.mem_cons.mp h with h | h
        · exact Or.inr (by rw [h]; exact List.mem_cons_self _ _)
        · rcases ih h with h' | h'
          · exact Or.inl h'
          · exact Or.inr (List.mem_cons_of_mem _ h')

theorem SMapSorted_insertSorted {α : Type} {m : SMap α} (h : SMapSorted m)
    (k : Str) (v : α) : SMapSorted (insertSorted k v m) := by
  induction m with
  | nil => simp [insertSorted, SMapSorted]
  | cons kv rest ih =>
    obtain ⟨k', v'⟩ := kv
    rcases h with - | ⟨hall, hrest⟩
    simp only [insertSorted]
    by_cases h1 : strLt k k' = true
    · rw [if_pos h1]
      refine List.Pairwise.cons ?_ (List.Pairwise.cons hall hrest)
      intro x hx
      rcases List.mem_cons.mp hx with rfl | hx
      · exact h1
      · exact strLt_trans h1 (hall x hx)
    · rw [if_neg h1]
      by_cases h2 : k = k'
      · rw [if_pos h2]
        subst h2
        exact List.Pairwise.cons hall hrest
      · rw [if_neg h2]
        refine List.Pairwise.cons ?_ (ih hrest)
        intro x hx
        rcases mem_insertSorted hx with rfl | hx
        · rcases strLt_connex k k' with hc | hc | hc
          · exact absurd hc h2
          · exact absurd hc (by simpa using h1)
          · exact hc
        · exact hall x hx

theorem lookupS_eraseKey {α : Type} (k : Str) (m : SMap α) (q : Str) :
    lookupS (eraseKey k m) q = if q = k then none else lookupS m q := by
  induction m with
  | nil => simp [eraseKey, lookupS]
  | cons kv rest ih =>
    obtain ⟨k', v'⟩ := kv
    by_cases h : k' = k
    · subst h
      have he : eraseKey k' ((k', v') :: rest) = eraseKey k' rest := by
        simp [eraseKey]
      rw [he, ih]
      by_cases hq : q = k' <;> simp [lookupS, hq]
    · have he : eraseKey k ((k', v') :: rest) = (k', v') :: eraseKey k rest := by
        simp [eraseKey, h]
      rw [he]
      by_cases hq : q = k'
      · subst hq
        rw [if_neg h]
        simp [lookupS]
      · simp [lookupS, hq, ih]

theorem lookupS_none_iff {α : Type} (m : SMap α) (k : Str) :
    lookupS m k = none ↔ ∀ kv ∈ m, kv.1 ≠ k := by
  induction m with
  | nil => simp [lookupS]
  | cons kv rest ih =>
    obtain ⟨k', v'⟩ := kv
    by_cases h : k = k'
    · subst h
      simp only [lookupS, if_pos rfl]
      constructor
      · intro hc
        exact Option.noConfusion hc
      · intro hall
        exact absurd rfl (hall (k, v') (List.mem_cons_self _ _))
    · simp only [lookupS, if_neg h]
      rw [ih]
      constructor
      · intro hall kv hm
        rcases List.mem_cons.mp hm with rfl | hm
        · exact Ne.symm h
        · exact hall kv hm
      · intro hall kv hm
        exact hall kv (List.mem_cons_of_mem _ hm)

theorem eraseKey_of_none {α : Type} {m : SMap α} {k : Str}
    (h : lookupS m k = none) : eraseKey k m = m := by
  rw [eraseKey, List.filter_eq_self]
  intro kv hkv
  simpa using (lookupS_none_iff m k).mp h kv hkv

theorem lookupS_mem {α : Type} : ∀ {m : SMap α} {q : Str} {v : α},
    lookupS m q = some v → (q, v) ∈ m := by
  intro m
  induction m with
  | nil =>
    intro q v h
    exact absurd h (by simp [lookupS])
  | cons kv rest ih =>
    intro q v h
    obtain ⟨k', v'⟩ := kv
    simp only [lookupS] at h
    by_cases hq : q = k'
    · rw [if_pos hq] at h
      injection h with h
      subst hq
      subst h
      exact List.mem_cons_self _ _
    · rw [if_neg hq] at h
      exact List.mem_cons_of_mem _ (ih h)

theorem SMapSorted_tail_none {α : Type} {k : Str} {v : α} {rest : SMap α}
    (h : SMapSorted ((k, v) :: rest)) : lookupS rest k = none := by
  rcases h with - | ⟨hall, -⟩
  rw [lookupS_none_iff]
  intro kv hkv
  exact fun hc => strLt_ne (hall kv hkv) (by rw [hc])

theorem SMap_ext {α : Type} : ∀ {m m' : SMap α}, SMapSorted m → SMapSorted m' →
    (∀ q, lookupS m q = lookupS m' q) → m = m' := by
  intro m
  induction m with
  | nil =>
    intro m' _ _ hl
    cases m' with
    | nil => rfl
    | cons kv rest =>
      have := hl kv.1
      simp [lookupS] at this
  | cons kv rest ih =>
    intro m' hs hs' hl
    cases m' with
    | nil =>
      have := hl kv.1
      simp [lookupS] at this
    | cons kv' rest' =>
      obtain ⟨k, v⟩ := kv
      obtain ⟨k', v'⟩ := kv'
      have hk : k = k' := by
        by_contra hne
        have h1 : lookupS ((k, v) :: rest) k = some v := by simp [lookupS]
        have h2 : lookupS ((k', v') :: rest') k' = some v' := by simp [lookupS]
        have m1 : (k, v) ∈ (k', v') :: rest' := lookupS_mem (by rw [← hl k]; exact h1)
        have m2 : (k', v') ∈ (k, v) :: rest := lookupS_mem (by rw [hl k']; exact h2)
        have hmem1 : (k, v) ∈ rest' := by
          rcases List.mem_cons.mp m1 with hc | hm
          · exact absurd (congrArg Prod.fst hc) hne
          · exact hm
        have hmem2 : (k', v') ∈ rest := by
          rcases List.mem_cons.mp m2 with hc | hm
          · exact absurd (congrArg Prod.fst hc).symm hne
          · exact hm
        rcases hs' with - | ⟨hall', -⟩
        rcases hs with - | ⟨hall, -⟩
        have l1 : strLt k' k = true := by simpa using hall' _ hmem1
        have l2 : strLt k k' = true := by simpa using hall _ hmem2
        rw [strLt_asymm l2] at l1
        exact absurd l1 (by simp)
      subst hk
      have hv : v = v' := by
        have := hl k
        simpa [lookupS] using this
      subst hv
      have htl : ∀ q, lookupS rest q = lookupS rest' q := by
        intro q
        by_cases hq : q = k
        · subst hq
          rw [SMapSorted_tail_none hs, SMapSorted_tail_none hs']
        · have := hl q
          simpa [lookupS, hq] using this
      rcases hs with - | ⟨-, hrest⟩
      rcases hs' with - | ⟨-, hrest'⟩
      rw [ih hrest hrest' htl]

/-! ### C7: the list codec -/
/-- C7: list decoding splits on ';', drops every empty fragment and never
fails (it is a total function, and no empty fragment survives), with
`decode "" = []`, `decode "a;b;" = ["a","b"]`, `decode "a;;b;" = ["a","b"]`;
list encoding yields `""` for `[]`, `"a;b;"` for `["a","b"]`, and every
non-empty list's encoding ends with ';'. -/
theorem c7_list_codec :
    semicolonList_deserialize (str "") = [] ∧
    semicolonList_deserialize (str "a;b;") = [str "a", str "b"] ∧
    semicolonList_deserialize (str "a;;b;") = [str "a", str "b"] ∧
    semicolonList_serialize [] = str "" ∧
    semicolonList_serialize [str "a", str "b"] = str "a;b;" ∧
    (∀ s : Str, [] ∉ semicolonList_deserialize s) ∧
    (∀ l : List Str, l ≠ [] → (semicolonList_serialize l).getLast? = some ';') := by
  refine ⟨by decide, by decide, by decide, by decide, by decide, ?_, ?_⟩
  · intro s hmem
    simp only [semicolonList_deserialize, List.mem_filter] at hmem
    exact absurd hmem.2 (by simp)
  · intro l hl
    simp only [semicolonList_serialize, if_neg hl]
    split
    · assumption
    · exact List.getLast?_concat _

/-- Witness for C7: the general trailing-semicolon clause at the concrete
list `["a"]`. -/
theorem c7_list_codec_witness :
    (semicolonList_serialize [str "a"]).getLast? = some ';' :=
  c7_list_codec.2.2.2.2.2.2 [str "a"] (by decide)

/-! ### C8: the boolean codec -/
/-- C8 counterexample: decoding `"YES"` fails, but the error carries the
lowercased text `"yes"`, not the input text `"YES"`, so the error does not
carry "the text" of the input as claimed. -/
theorem c8_boolean_codec_cex :
    deserialize_opt_bool (some (str "YES"))
      = Except.error (Err.invalidBoolean (str "yes")) ∧
    str "yes" ≠ str "YES" := by
  constructor
  · decide
  · decide

/-- C8 amended: decoding returns `true` exactly on case-insensitive
"true"/"1", `false` exactly on "false"/"0", and otherwise fails with an
invalid-boolean error carrying the lowercased input text; encoding yields
"true"/"false". -/
theorem c8_boolean_codec :
    (∀ s : Str,
      (deserialize_opt_bool (some s) = Except.ok (some true) ↔
        (lowerStr s = str "true" ∨ lowerStr s = str "1")) ∧
      (deserialize_opt_bool (some s) = Except.ok (some false) ↔
        (lowerStr s = str "false" ∨ lowerStr s = str "0")) ∧
      (¬(lowerStr s = str "true" ∨ lowerStr s = str "1") →
        ¬(lowerStr s = str "false" ∨ lowerStr s = str "0") →
        deserialize_opt_bool (some s)
          = Except.error (Err.invalidBoolean (lowerStr s)))) ∧
    boolStr true = str "true" ∧ boolStr false = str "false" := by
  refine ⟨?_, rfl, rfl⟩
  intro s
  by_cases h1 : lowerStr s = str "true" ∨ lowerStr s = str "1"
  · have hd : ¬(lowerStr s = str "false" ∨ lowerStr s = str "0") := by
      rcases h1 with h | h <;> rintro (h' | h') <;>
        exact absurd (h.symm.trans h') (by decide)
    simp only [deserialize_opt_bool, if_pos h1]
    refine ⟨⟨fun _ => h1, fun _ => trivial⟩, ?_, fun hc _ => absurd h1 hc⟩
    constructor
    · intro hc; simp at hc
    · intro hc; exact absurd hc hd
  · simp only [deserialize_opt_bool, if_neg h1]
    by_cases h2 : lowerStr s = str "false" ∨ lowerStr s = str "0"
    · simp only [if_pos h2]
      refine ⟨?_, ⟨fun _ => h2, fun _ => trivial⟩, fun _ hc => absurd h2 hc⟩
      constructor
      · intro hc; simp at hc
      · intro hc; exact absurd hc h1
    · simp only [if_neg h2]
      refine ⟨?_, ?_, fun _ _ => trivial⟩
      · constructor
        · intro hc; simp at hc
        · intro hc; exact absurd hc h1
      · constructor
        · intro hc; simp at hc
        · intro hc; exact absurd hc h2

/-- Witness for C8's amended theorem: the error clause applied at the
concrete input `"yes"`. -/
theorem c8_boolean_codec_witness :
    deserialize_opt_bool (some (str "yes"))
      = Except.error (Err.invalidBoolean (lowerStr (str "yes"))) :=
  (c8_boolean_codec.1 (str "yes")).2.2 (by decide) (by decide)

theorem localizedStep_snd (pre : Str) (acc : SMap Str × SMap Str) (k : Str) :
    (localizedStep pre acc k).2 = eraseKey k acc.2 := by
  simp only [localizedStep]
  cases h : lookupS acc.2 k with
  | none =>
    simp only [h]
    exact (eraseKey_of_none h).symm
  | some v =>
    simp only [h]
    by_cases hk : k = pre
    · rw [if_pos hk]
    · rw [if_neg hk]
      cases afterBracket k <;> rfl

theorem foldl_localizedStep_snd (pre : Str) :
    ∀ (ks : List Str) (acc : SMap Str × SMap Str),
      (ks.foldl (localizedStep pre) acc).2
        = ks.foldl (fun m' k => eraseKey k m') acc.2 := by
  intro ks
  induction ks with
  | nil => intro acc; rfl
  | cons k ks ih =>
    intro acc
    simp only [List.foldl_cons]
    rw [ih (localizedStep pre acc k), localizedStep_snd]

theorem foldl_eraseKey_filter {α : Type} :
    ∀ (ks : List Str) (m : SMap α),
      ks.foldl (fun m' k => eraseKey k m') m
        = m.filter (fun kv => decide (kv.1 ∉ ks)) := by
  intro ks
  induction ks with
  | nil =>
    intro m
    rw [List.foldl_nil, List.filter_eq_self.mpr]
    intro kv _
    simp
  | cons k ks ih =>
    intro m
    simp only [List.foldl_cons]
    rw [ih]
    simp only [eraseKey, List.filter_filter]
    apply List.filter_congr
    intro kv _
    by_cases h1 : kv.1 = k <;> by_cases h2 : kv.1 ∈ ks <;> simp [h1, h2]

/-- Characterization of the map component: exactly the matching keys are
removed; every other entry is untouched. -/
theorem deserialize_localized_snd (pre : Str) (m : SMap Str) :
    (deserialize_localized pre m).2
      = m.filter (fun kv => !(localizedMatches pre kv.1)) := by
  simp only [deserialize_localized]
  split
  · rename_i h
    have hf : m.filter (fun kv => localizedMatches pre kv.1) = [] :=
      List.map_eq_nil.mp h
    have hall : ∀ kv ∈ m, (!(localizedMatches pre kv.1)) = true := by
      intro kv hkv
      have := List.filter_eq_nil.mp hf kv hkv
      simpa using this
    exact (List.filter_eq_self.mpr hall).symm
  · rename_i h
    rw [foldl_localizedStep_snd, foldl_eraseKey_filter]
    apply List.filter_congr
    intro kv hkv
    by_cases hm : localizedMatches pre kv.1 = true
    · have hmem : kv.1 ∈ (m.filter
          (fun kv => localizedMatches pre kv.1)).map Prod.fst :=
        List.mem_map_of_mem _ (List.mem_filter.mpr ⟨hkv, hm⟩)
      simp [hmem, hm]
    · have hmem : kv.1 ∉ (m.filter
          (fun kv => localizedMatches pre kv.1)).map Prod.fst := by
        intro hc
        rcases List.mem_map.mp hc with ⟨kv', hkv', heq⟩
        have hm' := (List.mem_filter.mp hkv').2
        rw [heq] at hm'
        exact hm hm'
      simp [hmem, hm]

/-! ### C9: idempotence of the locale-key extractor -/
/-- C9: after one extraction of a prefix, a second extraction of the same
prefix on the resulting map returns "no value": every matching key was
consumed by the first pass. -/
theorem c9_locale_extract_idempotent (pre : Str) (m : SMap Str) :
    (deserialize_localized pre ((deserialize_localized pre m).2)).1 = none := by
  rw [deserialize_localized_snd]
  have hnil : ((m.filter (fun kv => !(localizedMatches pre kv.1))).filter
      (fun kv => localizedMatches pre kv.1)) = [] := by
    rw [List.filter_filter]
    apply List.filter_eq_nil.mpr
    intro kv _
    by_cases hm : localizedMatches pre kv.1 = true <;> simp [hm]
  simp only [deserialize_localized, hnil]
  rfl

/-! ### C4: what the locale-key extractor collects -/
/-- C4 counterexample: the key `"Name[]"` is neither equal to the prefix
`"Name"` nor of the form `"Name[" ++ locale ++ "]"` for a non-empty locale,
yet the extractor removes it and stores its value (under locale ""), instead
of leaving it untouched and returning "no value". -/
theorem c4_locale_extract_cex :
    deserialize_localized (str "Name") [(str "Name[]", str "v")]
        = (some [(str "", str "v")], []) ∧
    str "Name[]" ≠ str "Name" ∧
    (∀ loc : Str, loc ≠ [] →
      str "Name[]" ≠ str "Name" ++ '[' :: (loc ++ [']'])) := by
  refine ⟨by decide, by decide, ?_⟩
  intro loc hloc hc
  have hlen := congrArg List.length hc
  have h6 : (str "Name[]").length = 6 := by decide
  have h4 : (str "Name").length = 4 := by decide
  rw [h6] at hlen
  simp only [List.length_append, List.length_cons, h4] at hlen
  have : loc.length = 0 := by omega
  exact hloc (List.length_eq_zero.mp this)

/-! ### C10: empty-locale keys -/
theorem isPrefixOf_append_self (l t : Str) : l.isPrefixOf (l ++ t) = true := by
  rw [List.isPrefixOf_iff_prefix]
  exact List.prefix_append l t

theorem afterBracket_append {p : Str} (hp : '[' ∉ p) (rest : Str) :
    afterBracket (p ++ '[' :: rest) = some rest := by
  induction p with
  | nil => simp [afterBracket]
  | cons c p' ih =>
    have hc : ¬(c = '[') := by
      intro h
      exact hp (by rw [h]; exact List.mem_cons_self _ _)
    simp only [List.cons_append, afterBracket, if_neg hc]
    exact ih (fun h => hp (List.mem_cons_of_mem _ h))

theorem append_ne_self_of_ne_nil {p t : Str} (ht : t ≠ []) : p ++ t ≠ p := by
  intro hc
  have hlen := congrArg List.length hc
  simp only [List.length_append] at hlen
  have h0 : t.length = 0 := by omega
  exact ht (List.length_eq_zero.mp h0)

theorem strLt_append_right (p : Str) {t : Str} (ht : t ≠ []) :
    strLt p (p ++ t) = true := by
  induction p with
  | nil =>
    cases t with
    | nil => exact absurd rfl ht
    | cons c u => rfl
  | cons c p' ih =>
    simp only [List.cons_append, strLt]
    rw [if_neg (lt_irrefl c), if_neg (lt_irrefl c)]
    exact ih

/-- Behavior of one removal turn at a matched `p ++ "[]"` key. -/
theorem deserialize_localized_empty_bracket (pre v : Str) (hp : '[' ∉ pre) :
    deserialize_localized pre [(pre ++ str "[]", v)] = (some [([], v)], []) := by
  have hs : str "[]" = ['[', ']'] := by decide
  have h1 : pre ++ str "[]" = (pre ++ ['[']) ++ [']'] := by
    rw [hs]
    exact (List.append_assoc pre ['['] [']']).symm
  have hmatch : localizedMatches pre (pre ++ str "[]") = true := by
    simp only [localizedMatches, h1, isPrefixOf_append_self, List.getLast?_concat]
    simp
  have hne : pre ++ str "[]" ≠ pre :=
    append_ne_self_of_ne_nil (by rw [hs]; simp)
  have hab : afterBracket (pre ++ str "[]") = some [']'] := by
    rw [hs]
    exact afterBracket_append hp [']']
  have hlook : lookupS [(pre ++ str "[]", v)] (pre ++ str "[]") = some v := by
    simp [lookupS]
  have hstep : localizedStep pre ([], [(pre ++ str "[]", v)]) (pre ++ str "[]")
      = ([([], v)], []) := by
    simp only [localizedStep, hlook, if_neg hne, hab]
    simp [eraseKey, insertSorted]
  simp only [deserialize_localized]
  rw [show List.filter (fun kv => localizedMatches pre kv.1)
        [(pre ++ str "[]", v)] = [(pre ++ str "[]", v)] from by simp [hmatch]]
  simp only [List.map_cons, List.map_nil]
  rw [if_neg (by simp : ¬([pre ++ str "[]"] = ([] : List Str)))]
  simp only [List.foldl_cons, List.foldl_nil, hstep]

theorem oOr_none_right {α : Type} (a : Option α) : oOr a none = a := by
  cases a <;> rfl

theorem oOr_assoc {α : Type} (a b c : Option α) :
    oOr (oOr a b) c = oOr a (oOr b c) := by
  cases a <;> rfl

theorem foldl_oOr_shift {α β : Type} (f : β → Option α) :
    ∀ (ks : List β) (o1 : Option α),
      ks.foldl (fun o k => oOr (f k) o) o1
        = oOr (ks.foldl (fun o k => oOr (f k) o) none) o1 := by
  intro ks
  induction ks with
  | nil => intro o1; rfl
  | cons k ks ih =>
    intro o1
    simp only [List.foldl_cons]
    rw [ih (oOr (f k) o1), ih (oOr (f k) none), oOr_assoc, oOr_none_right]

theorem foldl_oOr_none {α β : Type} (f : β → Option α) :
    ∀ (t : List β) (o0 : Option α), (∀ k ∈ t, f k = none) →
      t.foldl (fun o k => oOr (f k) o) o0 = o0 := by
  intro t
  induction t with
  | nil => intro o0 _; rfl
  | cons k t ih =>
    intro o0 hall
    simp only [List.foldl_cons]
    rw [hall k (List.mem_cons_self _ _)]
    exact ih _ (fun k' hk' => hall k' (List.mem_cons_of_mem _ hk'))

theorem foldl_congr_mem {α β : Type} {f g : β → α → β} :
    ∀ {l : List α}, (∀ (b : β) (a : α), a ∈ l → f b a = g b a) →
      ∀ b, l.foldl f b = l.foldl g b := by
  intro l
  induction l with
  | nil => intro _ b; rfl
  | cons a l ih =>
    intro h b
    simp only [List.foldl_cons]
    rw [h b a (List.mem_cons_self _ _)]
    exact ih (fun b' a' ha' => h b' a' (List.mem_cons_of_mem _ ha')) _

/-- Lookup in the locale map built by the removal loop: the last key that
files a value under `q` wins, and an initial accumulator is the fallback. -/
theorem lookupS_foldl_localizedStep (pre q : Str) :
    ∀ (ks : List Str), ks.Nodup → ∀ (l0 m0 : SMap Str),
      lookupS ((ks.foldl (localizedStep pre) (l0, m0)).1) q
        = oOr (ks.foldl (fun o k => oOr (insVal m0 pre q k) o) none)
            (lookupS l0 q) := by
  intro ks
  induction ks with
  | nil => intro _ l0 m0; rfl
  | cons k ks ih =>
    intro hnd l0 m0
    obtain ⟨hknotin, hnd'⟩ := List.nodup_cons.mp hnd
    simp only [List.foldl_cons]
    cases hlk : lookupS m0 k with
    | none =>
      have hstep : localizedStep pre (l0, m0) k = (l0, m0) := by
        simp only [localizedStep, hlk]
      have hiv : insVal m0 pre q k = none := by
        simp only [insVal, hlk]
      rw [hstep, ih hnd' l0 m0, hiv]
      rfl
    | some v =>
      have hm1 : (localizedStep pre (l0, m0) k).2 = eraseKey k m0 :=
        localizedStep_snd pre (l0, m0) k
      rw [show localizedStep pre (l0, m0) k
            = ((localizedStep pre (l0, m0) k).1, eraseKey k m0) from by
          rw [← hm1]]
      rw [ih hnd' _ (eraseKey k m0)]
      have hcong : ks.foldl
            (fun o k' => oOr (insVal (eraseKey k m0) pre q k') o) none
          = ks.foldl (fun o k' => oOr (insVal m0 pre q k') o) none := by
        apply foldl_congr_mem
        intro o k' hk'
        have hek : lookupS (eraseKey k m0) k' = lookupS m0 k' := by
          rw [lookupS_eraseKey, if_neg]
          intro hc
          exact hknotin (hc ▸ hk')
        simp only [insVal, hek]
      rw [hcong]
      have hl1 : lookupS ((localizedStep pre (l0, m0) k).1) q
          = oOr (insVal m0 pre q k) (lookupS l0 q) := by
        simp only [localizedStep, hlk, insVal]
        by_cases hkp : k = pre
        · simp only [if_pos hkp, lookupS_insertSorted]
          by_cases hq : q = [] <;> simp [hq, oOr]
        · simp only [if_neg hkp]
          cases hab : afterBracket k with
          | none => simp only [hab]; rfl
          | some rest =>
            simp only [hab, lookupS_insertSorted]
            by_cases hq : q = rest.dropLast <;> simp [hq, oOr]
      rw [hl1, foldl_oOr_shift _ ks (oOr (insVal m0 pre q k) none),
        oOr_none_right, oOr_assoc]

/-- A matched key other than `p` and `p ++ "[]"` never files under locale "". -/
theorem insVal_empty_locale_none {pre k : Str} (hp : '[' ∉ pre) (m : SMap Str)
    (hmk : localizedMatches pre k = true) (hne1 : k ≠ pre)
    (hne2 : k ≠ pre ++ str "[]") : insVal m pre [] k = none := by
  have hs : str "[]" = ['[', ']'] := by decide
  cases hlk : lookupS m k with
  | none => simp only [insVal, hlk]
  | some v =>
    simp only [insVal, hlk]
    rw [if_neg hne1]
    simp only [localizedMatches, Bool.or_eq_true, Bool.and_eq_true,
      decide_eq_true_eq] at hmk
    rcases hmk with hmk | ⟨hpref, hlast⟩
    · exact absurd hmk hne1
    · obtain ⟨t, ht⟩ := List.isPrefixOf_iff_prefix.mp hpref
      have hk : k = pre ++ '[' :: t := by
        rw [← ht, List.append_assoc]
        rfl
      have hab : afterBracket k = some t := by
        rw [hk]
        exact afterBracket_append hp t
      simp only [hab]
      have htne : t ≠ [] := by
        rintro rfl
        rw [hk, List.getLast?_concat] at hlast
        exact absurd hlast (by decide)
      rw [if_neg]
      intro hdl
      apply hne2
      have hgl : t.getLast? = some ']' := by
        rw [hk, List.getLast?_append_of_ne_nil _ (by simp : '[' :: t ≠ [])] at hlast
        rw [show ('[' :: t) = ['['] ++ t from rfl,
          List.getLast?_append_of_ne_nil _ htne] at hlast
        exact hlast
      have hglv : t.getLast htne = ']' := by
        have := List.getLast?_eq_getLast t htne
        rw [this] at hgl
        injection hgl
      have ht1 : t = [']'] := by
        have hcat := List.dropLast_append_getLast htne
        rw [hglv, ← hdl] at hcat
        simpa using hcat.symm
      rw [hk, ht1, hs]

/-- C10 counterexample: for a prefix that itself contains '[', the key
`p ++ "[]"` is still matched, but its value is stored under the text after
the FIRST '[' of the whole key, not under the default locale "". -/
theorem c10_empty_locale_cex :
    deserialize_localized (str "a[b") [(str "a[b[]", str "v")]
      = (some [(str "b[", str "v")], []) ∧
    str "b[" ≠ str "" := by
  constructor
  · decide
  · decide

/-- C10 amended: for every prefix `p` that contains no '[' character, a key
of the exact form `p ++ "[]"` is matched and its value stored under the
default locale ""; and when the unsuffixed key `p` is also present in the
same (sorted) map, the value from `p ++ "[]"` wins at locale "". -/
theorem c10_empty_locale :
    (∀ (pre v : Str), '[' ∉ pre →
      deserialize_localized pre [(pre ++ str "[]", v)] = (some [([], v)], [])) ∧
    (∀ (pre : Str) (m : SMap Str) (v₁ v₂ : Str), '[' ∉ pre → SMapSorted m →
      lookupS m pre = some v₁ → lookupS m (pre ++ str "[]") = some v₂ →
      ∃ lm, (deserialize_localized pre m).1 = some lm ∧
        lookupS lm [] = some v₂) := by
  constructor
  · intro pre v hp
    exact deserialize_localized_empty_bracket pre v hp
  · intro pre m v₁ v₂ hp hs hl1 hl2
    have hsB : str "[]" = ['[', ']'] := by decide
    have hm2 : localizedMatches pre (pre ++ str "[]") = true := by
      have h1 : pre ++ str "[]" = (pre ++ ['[']) ++ [']'] := by
        rw [hsB]
        exact (List.append_assoc pre ['['] [']']).symm
      simp only [localizedMatches, h1, isPrefixOf_append_self,
        List.getLast?_concat]
      simp
    have hm1 : localizedMatches pre pre = true := by
      simp [localizedMatches]
    have hmem1 : (pre, v₁) ∈ m := lookupS_mem hl1
    have hmem2 : (pre ++ str "[]", v₂) ∈ m := lookupS_mem hl2
    set tr := (m.filter (fun kv => localizedMatches pre kv.1)).map Prod.fst
      with htr
    have hintr2 : pre ++ str "[]" ∈ tr := by
      rw [htr]
      exact List.mem_map_of_mem _ (List.mem_filter.mpr ⟨hmem2, hm2⟩)
    have htrne : tr ≠ [] := by
      intro hc
      rw [hc] at hintr2
      exact absurd hintr2 (by simp)
    have hnd : tr.Nodup := by
      have h1 : SMapSorted (m.filter (fun kv => localizedMatches pre kv.1)) :=
        List.Pairwise.sublist (List.filter_sublist _) hs
      exact h1.map Prod.fst (fun {a b} h => strLt_ne h)
    have hpw : List.Pairwise (fun a b => strLt a b = true) tr := by
      have h1 : SMapSorted (m.filter (fun kv => localizedMatches pre kv.1)) :=
        List.Pairwise.sublist (List.filter_sublist _) hs
      exact h1.map Prod.fst (fun {a b} h => h)
    have hmatched : ∀ k ∈ tr, localizedMatches pre k = true := by
      intro k hk
      rw [htr] at hk
      rcases List.mem_map.mp hk with ⟨kv, hkv, rfl⟩
      exact (List.mem_filter.mp hkv).2
    refine ⟨(tr.foldl (localizedStep pre) ([], m)).1, ?_, ?_⟩
    · simp only [deserialize_localized]
      rw [if_neg htrne]
    · rw [lookupS_foldl_localizedStep pre [] tr hnd [] m]
      rw [show lookupS ([] : SMap Str) [] = none from rfl, oOr_none_right]
      obtain ⟨s, t, hst⟩ := List.append_of_mem hintr2
      rw [hst, List.foldl_append]
      have htnone : ∀ k ∈ t, insVal m pre [] k = none := by
        intro k hk
        have hk_tr : k ∈ tr := by
          rw [hst]
          exact List.mem_append_right _ (List.mem_cons_of_mem _ hk)
        have hlt2 : strLt (pre ++ str "[]") k = true := by
          rw [hst] at hpw
          have := (List.pairwise_append.mp hpw).2.1
          rcases (List.pairwise_cons.mp this) with ⟨hall, -⟩
          exact hall k hk
        have hlt1 : strLt pre k = true :=
          strLt_trans (strLt_append_right pre (by rw [hsB]; simp)) hlt2
        exact insVal_empty_locale_none hp m (hmatched k hk_tr)
          (Ne.symm (strLt_ne hlt1)) (Ne.symm (strLt_ne hlt2))
      simp only [List.foldl_cons]
      rw [foldl_oOr_none _ t _ htnone]
      have hiv2 : insVal m pre [] (pre ++ str "[]") = some v₂ := by
        simp only [insVal, hl2]
        rw [if_neg (append_ne_self_of_ne_nil (by rw [hsB]; simp))]
        have hab : afterBracket (pre ++ str "[]") = some [']'] := by
          rw [hsB]
          exact afterBracket_append hp [']']
        simp only [hab]
        rfl
      rw [hiv2]
      rfl

/-- Witness for C10's amended theorem: both clauses at concrete inputs. -/
theorem c10_empty_locale_witness :
    deserialize_localized (str "Name") [(str "Name" ++ str "[]", str "v")]
        = (some [([], str "v")], []) ∧
    (∃ lm, (deserialize_localized (str "Name")
        [(str "Name", str "u"), (str "Name[]", str "v")]).1 = some lm ∧
      lookupS lm [] = some (str "v")) :=
  ⟨c10_empty_locale.1 (str "Name") (str "v") (by decide),
   by
    have h := c10_empty_locale.2 (str "Name")
      [(str "Name", str "u"), (str "Name[]", str "v")]
      (str "u") (str "v") (by decide) (by decide) (by decide) (by decide)
    simpa using h⟩

/-! ### Serialized-map structure -/
theorem SMapSorted_foldl_insert {α : Type} (ps : List (Str × α)) :
    ∀ {m : SMap α}, SMapSorted m →
      SMapSorted (ps.foldl (fun m kv => insertSorted kv.1 kv.2 m) m) := by
  induction ps with
  | nil => intro m h; exact h
  | cons p ps ih =>
    intro m h
    simp only [List.foldl_cons]
    exact ih (SMapSorted_insertSorted h p.1 p.2)

theorem SMapSorted_toMap (ps : List (Str × Str)) : SMapSorted (toMap ps) :=
  SMapSorted_foldl_insert ps List.Pairwise.nil

theorem lookupS_foldl_insert {α : Type} (ps : List (Str × α)) :
    ∀ (m : SMap α) (q : Str),
      lookupS (ps.foldl (fun m kv => insertSorted kv.1 kv.2 m) m) q
        = oOr (lookupLast ps q) (lookupS m q) := by
  induction ps with
  | nil => intro m q; rfl
  | cons p ps ih =>
    intro m q
    simp only [List.foldl_cons, lookupLast]
    rw [ih (insertSorted p.1 p.2 m) q, lookupS_insertSorted]
    rw [foldl_oOr_shift, oOr_none_right, oOr_assoc]
    by_cases hq : q = p.1 <;> simp [hq, oOr, lookupLast]

theorem lookupS_toMap (ps : List (Str × Str)) (q : Str) :
    lookupS (toMap ps) q = lookupLast ps q := by
  rw [toMap, lookupS_foldl_insert]
  simp only [lookupS]
  exact oOr_none_right _

theorem foldl_oOr_isSome {α β : Type} (f : β → Option α) :
    ∀ (ps : List β) (o0 : Option α), o0.isSome = true →
      (ps.foldl (fun o k => oOr (f k) o) o0).isSome = true := by
  intro ps
  induction ps with
  | nil => intro o0 h; exact h
  | cons k ps ih =>
    intro o0 h
    simp only [List.foldl_cons]
    apply ih
    cases hf : f k with
    | none => simpa [oOr] using h
    | some v => simp [oOr]

theorem lookupLast_head_isSome {α : Type} (p : Str × α) (ps : List (Str × α)) :
    (lookupLast (p :: ps) p.1).isSome = true := by
  simp only [lookupLast, List.foldl_cons, if_pos rfl]
  exact foldl_oOr_isSome _ ps _ (by simp [oOr])

theorem mem_keys_of_lookupS {α : Type} {m : SMap α} {q : Str}
    (h : (lookupS m q).isSome = true) : q ∈ m.map Prod.fst := by
  cases hl : lookupS m q with
  | none => rw [hl] at h; exact absurd h (by simp)
  | some v => exact List.mem_map_of_mem Prod.fst (lookupS_mem hl)

/-- C3 counterexample: the serialized section is a `BTreeMap`, so keys are
emitted in ascending lexicographic order; for an entry holding only `Type`
and `Name`, the first emitted key is "Name", not "Type". -/
theorem c3_serialize_order_cex :
    ((serialize_desktop_entry baseEntry).2.map Prod.fst).head?
        = some (str "Name") ∧
    str "Name" ≠ str "Type" := by
  constructor
  · decide
  · decide

/-- C3 amended: entry serialization emits the `Type` key, every present
declared field and every extra key merged into a single map whose emitted
key sequence is strictly ascending in lexicographic order — hence
deterministic across runs — rather than `Type` first followed by declared
order. -/
theorem c3_serialize_order (e : DesktopEntry) :
    SMapSorted (serialize_desktop_entry e).2 ∧
    str "Type" ∈ (serialize_desktop_entry e).2.map Prod.fst := by
  simp only [serialize_desktop_entry]
  constructor
  · exact SMapSorted_toMap (entryPairs e)
  · apply mem_keys_of_lookupS
    rw [lookupS_toMap]
    have he : entryPairs e
        = (str "Type", e.entry_type)
          :: (optScalarPairs (str "Version") e.version
            ++ lmPairs (str "Name") e.name
            ++ optLmPairs (str "GenericName") e.generic_name
            ++ optBoolPairs (str "NoDisplay") e.no_display
            ++ optLmPairs (str "Comment") e.comment
            ++ optLmPairs (str "Icon") e.icon
            ++ optBoolPairs (str "Hidden") e.hidden
            ++ optListPairs (str "OnlyShowIn") e.only_show_in
            ++ optListPairs (str "NotShowIn") e.not_show_in
            ++ optBoolPairs (str "DBusActivatable") e.dbus_activatable
            ++ optScalarPairs (str "TryExec") e.try_exec
            ++ optScalarPairs (str "Exec") e.exec
            ++ optScalarPairs (str "Path") e.path
            ++ optBoolPairs (str "Terminal") e.terminal
            ++ optListPairs (str "Actions") e.actions
            ++ optListPairs (str "MimeType") e.mime_type
            ++ optListPairs (str "Categories") e.categories
            ++ optListPairs (str "Implements") e.implements
            ++ optLmPairs (str "Keywords") e.keywords
            ++ optBoolPairs (str "StartupNotify") e.startup_notify
            ++ optScalarPairs (str "StartupWMClass") e.startup_wm_class
            ++ optScalarPairs (str "URL") e.url
            ++ optBoolPairs (str "PrefersNonDefaultGPU")
                 e.prefers_non_default_gpu
            ++ e.other) := by
      simp [entryPairs, List.append_assoc]
    rw [he]
    exact lookupLast_head_isSome (str "Type", e.entry_type) _

/-! ### C5: the action-ID contract -/
/-- C5: parsing an action section whose raw map lacks the caller-supplied
action ID fails with the dedicated missing-action-ID error, distinct from
every body parse failure (missing fields, invalid booleans); serializing a
pair re-derives the section header `"Desktop Action " ++ ID`. -/
theorem c5_action_id :
    (∀ raw : SMap Str, lookupS raw actionIdKey = none →
      deserialize_desktop_action raw = Except.error Err.missingActionId) ∧
    (∀ f : Str, Err.missingActionId ≠ Err.missingField f) ∧
    (∀ s : Str, Err.missingActionId ≠ Err.invalidBoolean s) ∧
    (∀ (action_id : Str) (a : DesktopAction),
      (serialize_desktop_action action_id a).1
        = str "Desktop Action " ++ action_id) := by
  refine ⟨?_, ?_, ?_, ?_⟩
  · intro raw h
    simp only [deserialize_desktop_action, h]
  · intro f h
    exact Err.noConfusion h
  · intro s h
    exact Err.noConfusion h
  · intro action_id a
    rfl

/-- Witness for C5: the missing-ID clause at a concrete raw map. -/
theorem c5_action_id_witness :
    deserialize_desktop_action [(str "Name", str "x")]
      = Except.error Err.missingActionId :=
  c5_action_id.1 [(str "Name", str "x")] (by decide)

/-! ### C6: the mandatory Name field -/
/-- The none-result characterization of the extractor, shared by several
proofs: "no value" exactly when no key matches. -/
theorem deserialize_localized_none_iff (pre : Str) (m : SMap Str) :
    (deserialize_localized pre m).1 = none ↔
      ∀ kv ∈ m, localizedMatches pre kv.1 = false := by
  simp only [deserialize_localized]
  split
  · rename_i h
    have hf : m.filter (fun kv => localizedMatches pre kv.1) = [] :=
      List.map_eq_nil.mp h
    constructor
    · intro _ kv hkv
      have := List.filter_eq_nil.mp hf kv hkv
      simpa using this
    · intro _
      rfl
  · rename_i h
    constructor
    · intro hc
      exact absurd hc (by simp)
    · intro hall
      exfalso
      apply h
      have hf : m.filter (fun kv => localizedMatches pre kv.1) = [] :=
        List.filter_eq_nil.mpr (fun kv hkv => by simp [hall kv hkv])
      rw [hf]
      rfl

/-- Every failure of the boolean codec is an invalid-boolean error. -/
theorem deserialize_opt_bool_error {o : Option Str} {e : Err}
    (h : deserialize_opt_bool o = Except.error e) :
    ∃ s, e = Err.invalidBoolean s := by
  cases o with
  | none => exact absurd h (by simp [deserialize_opt_bool])
  | some s =>
    simp only [deserialize_opt_bool] at h
    split at h
    · exact absurd h (by simp)
    · split at h
      · exact absurd h (by simp)
      · exact ⟨lowerStr s, by injection h with h; rw [← h]⟩

/-- The decorated action field text can never equal "Name". -/
theorem decorated_ne_name (action_id : Str) :
    str "Desktop Action " ++ action_id ++ str " → Name" ≠ str "Name" := by
  intro hc
  have hlen := congrArg List.length hc
  have hA : (str "Desktop Action ").length = 15 := by decide
  have hB : (str " → Name").length = 7 := by decide
  have hN : (str "Name").length = 4 := by decide
  simp only [List.length_append, hA, hB, hN] at hlen
  omega

/-- C6 counterexample: an action section carrying an ID but no Name key
fails with a missing-field error whose field text is
"Desktop Action G → Name", not the claimed "Name". -/
theorem c6_missing_name_cex :
    deserialize_desktop_action
        [(str "Exec", str "x"), (str "__action_id", str "G")]
      = Except.error (Err.missingField (str "Desktop Action G → Name")) ∧
    str "Desktop Action G → Name" ≠ str "Name" := by
  constructor
  · decide
  · decide

/-- C6 amended: an entry raw map with no Name-matching key fails with
`MissingRequiredField("Name")`; an action section (with its ID present)
and no Name-matching key fails with a missing-required-field error naming
`"Desktop Action <ID> → Name"`; when a Name key is present the entry
parser cannot fail with the missing-Name error, and the action parser can
never fail with a missing-field error naming exactly "Name". -/
theorem c6_missing_name :
    (∀ raw : SMap Str,
      (∀ kv ∈ raw, localizedMatches (str "Name") kv.1 = false) →
      deserialize_desktop_entry raw
        = Except.error (Err.missingField (str "Name"))) ∧
    (∀ (raw : SMap Str) (action_id : Str),
      lookupS raw actionIdKey = some action_id →
      (∀ kv ∈ eraseKey actionIdKey raw,
        localizedMatches (str "Name") kv.1 = false) →
      deserialize_desktop_action raw
        = Except.error (Err.missingField
            (str "Desktop Action " ++ action_id ++ str " → Name"))) ∧
    (∀ raw : SMap Str,
      (∃ kv ∈ raw, localizedMatches (str "Name") kv.1 = true) →
      deserialize_desktop_entry raw
        ≠ Except.error (Err.missingField (str "Name"))) ∧
    (∀ raw : SMap Str,
      deserialize_desktop_action raw
        ≠ Except.error (Err.missingField (str "Name"))) := by
  refine ⟨?_, ?_, ?_, ?_⟩
  · intro raw hall
    have hnone : (deserialize_localized (str "Name") raw).1 = none :=
      (deserialize_localized_none_iff _ _).mpr hall
    simp only [deserialize_desktop_entry, hnone]
  · intro raw action_id hid hall
    have hnone : (deserialize_localized (str "Name")
        (eraseKey actionIdKey raw)).1 = none :=
      (deserialize_localized_none_iff _ _).mpr hall
    simp only [deserialize_desktop_action, hid, hnone]
  · intro raw hex
    cases hno : (deserialize_localized (str "Name") raw).1 with
    | none =>
      exfalso
      obtain ⟨kv, hkv, hm⟩ := hex
      have := (deserialize_localized_none_iff _ _).mp hno kv hkv
      rw [hm] at this
      exact absurd this (by simp)
    | some nm =>
      simp only [deserialize_desktop_entry, hno]
      split
      · rename_i e heq
        obtain ⟨s, rfl⟩ := deserialize_opt_bool_error heq
        simp
      · split
        · rename_i e heq
          obtain ⟨s, rfl⟩ := deserialize_opt_bool_error heq
          simp
        · split
          · rename_i e heq
            obtain ⟨s, rfl⟩ := deserialize_opt_bool_error heq
            simp
          · split
            · rename_i e heq
              obtain ⟨s, rfl⟩ := deserialize_opt_bool_error heq
              simp
            · split
              · rename_i e heq
                obtain ⟨s, rfl⟩ := deserialize_opt_bool_error heq
                simp
              · split
                · rename_i e heq
                  obtain ⟨s, rfl⟩ := deserialize_opt_bool_error heq
                  simp
                · split
                  · simp only [ne_eq, Except.error.injEq,
                      Err.missingField.injEq]
                    decide
                  · simp
  · intro raw
    simp only [deserialize_desktop_action]
    split
    · simp
    · split
      · intro hc
        injection hc with hc
        injection hc with hc
        exact decorated_ne_name _ hc
      · simp

/-- Witness for C6's amended theorem: all four clauses at concrete
inputs. -/
theorem c6_missing_name_witness :
    deserialize_desktop_entry [(str "Type", str "Application")]
        = Except.error (Err.missingField (str "Name")) ∧
    deserialize_desktop_action [(str "__action_id", str "G")]
        = Except.error (Err.missingField
            (str "Desktop Action " ++ str "G" ++ str " → Name")) ∧
    deserialize_desktop_entry
        [(str "Name", str "A"), (str "Type", str "Application")]
        ≠ Except.error (Err.missingField (str "Name")) ∧
    deserialize_desktop_action []
        ≠ Except.error (Err.missingField (str "Name")) :=
  ⟨c6_missing_name.1 _ (by decide),
   c6_missing_name.2.1 _ (str "G") (by decide) (by decide),
   c6_missing_name.2.2.1 _ ⟨(str "Name", str "A"), by decide, by decide⟩,
   c6_missing_name.2.2.2 []⟩

theorem jsonEscapeChar_safe {c : Char} (h : jsonSafeChar c) :
    jsonEscapeChar c = [c] := by
  obtain ⟨h1, h2, h3⟩ := h
  simp only [jsonEscapeChar, if_neg h1, if_neg h2]
  rw [if_neg]
  omega

theorem join_escape_safe : ∀ {s : Str}, (∀ c ∈ s, jsonSafeChar c) →
    (s.map jsonEscapeChar).flatten = s := by
  intro s
  induction s with
  | nil => intro _; rfl
  | cons c t ih =>
    intro h
    simp only [List.map_cons, List.flatten_cons]
    rw [jsonEscapeChar_safe (h c (List.mem_cons_self _ _)),
      ih (fun c' hc' => h c' (List.mem_cons_of_mem _ hc'))]
    rfl

theorem dropWhile_all_false {p : Char → Bool} :
    ∀ {l : Str}, (∀ x ∈ l, p x = false) → l.dropWhile p = l := by
  intro l
  induction l with
  | nil => intro _; rfl
  | cons c t _ =>
    intro h
    rw [List.dropWhile_cons, if_neg]
    simp [h c (List.mem_cons_self _ _)]

theorem trimMatchesQuote_wrap {s : Str} (h : '"' ∉ s) :
    trimMatchesQuote ('"' :: (s ++ ['"'])) = s := by
  cases s with
  | nil => decide
  | cons c t =>
    have hall : ∀ x ∈ c :: t, decide (x = '"') = false := by
      intro x hx
      simp only [decide_eq_false_iff_not]
      intro hc
      exact h (hc ▸ hx)
    have h1 : List.dropWhile (fun x => decide (x = '"'))
        ('"' :: ((c :: t) ++ ['"'])) = (c :: t) ++ ['"'] := by
      rw [List.dropWhile_cons, if_pos (by decide), List.cons_append,
        List.dropWhile_cons,
        if_neg (show ¬decide (c = '"') = true by
          simp [hall c (List.mem_cons_self _ _)])]
    have h2 : ((c :: t) ++ ['"']).reverse = '"' :: (c :: t).reverse := by
      rw [List.reverse_append]
      rfl
    simp only [trimMatchesQuote]
    rw [h1, h2, List.dropWhile_cons, if_pos (by decide)]
    rw [dropWhile_all_false (fun x hx => hall x (List.mem_reverse.mp hx))]
    exact List.reverse_reverse _

theorem splitSemi_append (x r : Str) (hx : ';' ∉ x) :
    splitSemi (x ++ ';' :: r) = x :: splitSemi r := by
  induction x with
  | nil => simp [splitSemi]
  | cons c t ih =>
    have hc : ¬(c = ';') := fun hcc => hx (hcc ▸ List.mem_cons_self _ _)
    have ih' := ih (fun hm => hx (List.mem_cons_of_mem _ hm))
    simp only [List.cons_append, splitSemi, List.foldr_cons] at ih' ⊢
    rw [ih']
    simp [hc]

theorem joinSemi_ne_nil : ∀ {l : List Str}, l ≠ [] →
    (∀ x ∈ l, x ≠ []) → joinSemi l ≠ [] := by
  intro l
  match l with
  | [] => intro h _; exact absurd rfl h
  | [x] =>
    intro _ h
    simpa [joinSemi] using h x (List.mem_cons_self _ _)
  | x :: y :: rest =>
    intro _ h
    simp only [joinSemi]
    intro hc
    rcases List.append_eq_nil.mp hc with ⟨-, hc2⟩
    exact List.cons_ne_nil _ _ hc2

theorem joinSemi_getLast_ne : ∀ {l : List Str}, l ≠ [] →
    (∀ x ∈ l, x ≠ [] ∧ ';' ∉ x) →
    (joinSemi l).getLast? ≠ some ';' := by
  intro l
  match l with
  | [] => intro h _; exact absurd rfl h
  | [x] =>
    intro _ h
    obtain ⟨hxne, hxs⟩ := h x (List.mem_cons_self _ _)
    simp only [joinSemi]
    rw [List.getLast?_eq_getLast x hxne]
    intro hc
    injection hc with hc
    exact hxs (hc ▸ List.getLast_mem hxne)
  | x :: y :: rest =>
    intro _ h
    have htail : ∀ z ∈ y :: rest, z ≠ [] ∧ ';' ∉ z :=
      fun z hz => h z (List.mem_cons_of_mem _ hz)
    have hjne : joinSemi (y :: rest) ≠ [] :=
      joinSemi_ne_nil (List.cons_ne_nil _ _) (fun z hz => (htail z hz).1)
    simp only [joinSemi]
    rw [List.getLast?_append_of_ne_nil _ (List.cons_ne_nil ';' _),
      show (';' :: joinSemi (y :: rest)) = [';'] ++ joinSemi (y :: rest)
        from rfl,
      List.getLast?_append_of_ne_nil _ hjne]
    exact joinSemi_getLast_ne (List.cons_ne_nil _ _) htail

theorem splitSemi_joinSemi : ∀ {l : List Str}, l ≠ [] →
    (∀ x ∈ l, ';' ∉ x) →
    splitSemi (joinSemi l ++ [';']) = l ++ [[]] := by
  intro l
  match l with
  | [] => intro h _; exact absurd rfl h
  | [x] =>
    intro _ h
    simp only [joinSemi]
    rw [show x ++ [';'] = x ++ ';' :: [] from rfl,
      splitSemi_append x [] (h x (List.mem_cons_self _ _))]
    rfl
  | x :: y :: rest =>
    intro _ h
    simp only [joinSemi]
    rw [show (x ++ ';' :: joinSemi (y :: rest)) ++ [';']
          = x ++ ';' :: (joinSemi (y :: rest) ++ [';']) from by
        simp [List.append_assoc]]
    rw [splitSemi_append x _ (h x (List.mem_cons_self _ _))]
    rw [splitSemi_joinSemi (List.cons_ne_nil _ _)
      (fun z hz => h z (List.mem_cons_of_mem _ hz))]
    rfl

theorem decode_encode {l : List Str} (h : ∀ x ∈ l, x ≠ [] ∧ ';' ∉ x) :
    semicolonList_deserialize (semicolonList_serialize l) = l := by
  cases hl : l with
  | nil => rfl
  | cons x rest =>
    subst hl
    have hlast := joinSemi_getLast_ne (List.cons_ne_nil x rest) h
    simp only [semicolonList_serialize, if_neg (List.cons_ne_nil x rest),
      if_neg hlast]
    simp only [semicolonList_deserialize]
    rw [splitSemi_joinSemi (List.cons_ne_nil x rest)
      (fun z hz => (h z hz).2)]
    rw [List.filter_append]
    rw [List.filter_eq_self.mpr (fun z hz => by
      simpa using (h z hz).1)]
    simp

theorem mem_joinSemi : ∀ {l : List Str} {c : Char}, c ∈ joinSemi l →
    c = ';' ∨ ∃ x ∈ l, c ∈ x := by
  intro l
  match l with
  | [] => intro c hc; exact absurd hc (by simp [joinSemi])
  | [x] =>
    intro c hc
    exact Or.inr ⟨x, List.mem_cons_self _ _, by simpa [joinSemi] using hc⟩
  | x :: y :: rest =>
    intro c hc
    simp only [joinSemi, List.mem_append, List.mem_cons] at hc
    rcases hc with hc | hc | hc
    · exact Or.inr ⟨x, List.mem_cons_self _ _, hc⟩
    · exact Or.inl hc
    · rcases mem_joinSemi hc with hc' | ⟨z, hz, hcz⟩
      · exact Or.inl hc'
      · exact Or.inr ⟨z, List.mem_cons_of_mem _ hz, hcz⟩

theorem encode_safe {l : List Str} (h : ∀ x ∈ l, listElemOk x) :
    ∀ c ∈ semicolonList_serialize l, jsonSafeChar c := by
  intro c hc
  simp only [semicolonList_serialize] at hc
  split at hc
  · exact absurd hc (by simp)
  · have hj : ∀ c' ∈ joinSemi l, jsonSafeChar c' := by
      intro c' hc'
      rcases mem_joinSemi hc' with rfl | ⟨x, hx, hcx⟩
      · decide
      · exact (h x hx).2.2 c' hcx
    split at hc
    · exact hj c hc
    · rcases List.mem_append.mp hc with hc | hc
      · exact hj c hc
      · rw [List.mem_singleton.mp hc]
        decide

/-- The JSON detour of list-field serialization is transparent for
well-formed elements. -/
theorem listFieldText_eq {l : List Str} (h : ∀ x ∈ l, listElemOk x) :
    listFieldText l = semicolonList_serialize l := by
  have hsafe := encode_safe h
  simp only [listFieldText, jsonStringText]
  rw [join_escape_safe hsafe]
  exact trimMatchesQuote_wrap (fun hq => (hsafe '"' hq).1 rfl)

theorem listFieldText_roundtrip {l : List Str} (h : ∀ x ∈ l, listElemOk x) :
    semicolonList_deserialize (listFieldText l) = l := by
  rw [listFieldText_eq h]
  exact decode_encode (fun x hx => ⟨(h x hx).1, (h x hx).2.1⟩)

theorem deserialize_opt_bool_boolStr (o : Option Bool) :
    deserialize_opt_bool (o.map boolStr) = Except.ok o := by
  cases o with
  | none => rfl
  | some b => cases b <;> decide

theorem deserialize_opt_semicolon_list_roundtrip
    {o : Option SemicolonList} (h : ∀ l, o = some l → ∀ x ∈ l, listElemOk x) :
    deserialize_opt_semicolon_list (o.map listFieldText) = o := by
  cases o with
  | none => rfl
  | some l =>
    simp [deserialize_opt_semicolon_list, listFieldText_roundtrip (h l rfl)]

/-! ### C2: duplicate main-entry sections -/
/-- C2 counterexample: a section sequence with two "Desktop Entry" headers
parses successfully — there is no `DuplicateMainEntry` error anywhere in
the engine's error type — and the resulting document silently keeps only
the second section's entry. -/
theorem c2_duplicate_main_cex :
    parse_document
        [(str "Desktop Entry",
            [(str "Name", str "A"), (str "Type", str "Application")]),
         (str "Desktop Entry",
            [(str "Name", str "B"), (str "Type", str "Link")])]
      = Except.ok [(str "Desktop Entry", Section.entry baseEntryLink)] := by
  decide

/-- C2 amended: a section sequence with two main-entry headers does not
fail; the later section overwrites the earlier in the document map
(last-write-wins), so the parser silently keeps the second and drops the
first. -/
theorem c2_duplicate_main (m₁ m₂ : SMap Str) (e₁ e₂ : DesktopEntry)
    (h₁ : deserialize_desktop_entry m₁ = Except.ok e₁)
    (h₂ : deserialize_desktop_entry m₂ = Except.ok e₂) :
    parse_document [(str "Desktop Entry", m₁), (str "Desktop Entry", m₂)]
      = Except.ok [(str "Desktop Entry", Section.entry e₂)] := by
  have hps : ∀ (m : SMap Str) (e : DesktopEntry),
      deserialize_desktop_entry m = Except.ok e →
      parseSection (str "Desktop Entry") m = Except.ok (Section.entry e) := by
    intro m e h
    simp [parseSection, h, Except.map]
  simp only [parse_document, parse_document_aux, hps _ _ h₁, hps _ _ h₂,
    insertSorted]
  simp [strLt_irrefl]

/-- Witness for C2's amended theorem at a concrete duplicated section. -/
theorem c2_duplicate_main_witness :
    parse_document
        [(str "Desktop Entry",
            [(str "Name", str "A"), (str "Type", str "Application")]),
         (str "Desktop Entry",
            [(str "Name", str "A"), (str "Type", str "Application")])]
      = Except.ok [(str "Desktop Entry", Section.entry baseEntry)] :=
  c2_duplicate_main _ _ baseEntry baseEntry (by decide) (by decide)

/-! ### Locale-key algebra -/
theorem matched_decompose {pre q : Str} (hp : '[' ∉ pre)
    (hm : localizedMatches pre q = true) :
    q = pre ∨ ∃ loc, q = pre ++ '[' :: (loc ++ [']']) := by
  simp only [localizedMatches, Bool.or_eq_true, Bool.and_eq_true,
    decide_eq_true_eq] at hm
  rcases hm with hm | ⟨hpref, hlast⟩
  · exact Or.inl hm
  · obtain ⟨t, ht⟩ := List.isPrefixOf_iff_prefix.mp hpref
    have hq : q = pre ++ '[' :: t := by
      rw [← ht, List.append_assoc]
      rfl
    have htne : t ≠ [] := by
      rintro rfl
      rw [hq, List.getLast?_concat] at hlast
      exact absurd hlast (by decide)
    have hgl : t.getLast? = some ']' := by
      rw [hq] at hlast
      rw [List.getLast?_append_of_ne_nil _ (List.cons_ne_nil '[' t),
        show ('[' :: t) = ['['] ++ t from rfl,
        List.getLast?_append_of_ne_nil _ htne] at hlast
      exact hlast
    have hglv : t.getLast htne = ']' := by
      have h := List.getLast?_eq_getLast t htne
      rw [h] at hgl
      injection hgl
    have ht2 : t = t.dropLast ++ [']'] := by
      rw [← hglv]
      exact (List.dropLast_append_getLast htne).symm
    refine Or.inr ⟨t.dropLast, ?_⟩
    rw [hq]
    conv_lhs => rw [ht2]

theorem localizedMatches_lmKey (pre loc : Str) :
    localizedMatches pre (lmKey pre loc) = true := by
  simp only [lmKey]
  split
  · simp [localizedMatches]
  · simp only [localizedMatches, Bool.or_eq_true, Bool.and_eq_true]
    refine Or.inr ⟨?_, ?_⟩
    · rw [show pre ++ '[' :: (loc ++ [']'])
            = (pre ++ ['[']) ++ (loc ++ [']']) from by
          rw [List.append_assoc]
          rfl]
      exact isPrefixOf_append_self _ _
    · rw [show pre ++ '[' :: (loc ++ [']'])
            = (pre ++ '[' :: loc) ++ [']'] from by
          simp]
      rw [List.getLast?_concat]
      decide

theorem lmKey_ne_pre {pre loc : Str} (h : loc ≠ []) : lmKey pre loc ≠ pre := by
  simp only [lmKey, if_neg h]
  exact append_ne_self_of_ne_nil (by simp)

theorem afterBracket_lmKey {pre : Str} (hp : '[' ∉ pre) {loc : Str}
    (h : loc ≠ []) : afterBracket (lmKey pre loc) = some (loc ++ [']']) := by
  simp only [lmKey, if_neg h]
  exact afterBracket_append hp _

theorem locValue_nil (pre q : Str) : locValue pre [] q = none := by
  by_cases hq : q = pre
  · simp [locValue, hq, lookupS]
  · simp only [locValue, if_neg hq]
    cases afterBracket q with
    | none => rfl
    | some rest =>
      show (if rest.dropLast = [] then none
        else lookupS [] rest.dropLast) = none
      split
      · rfl
      · rfl

theorem locValue_bracket (pre : Str) (hp : '[' ∉ pre) (lm : LocaleMap)
    (loc : Str) :
    locValue pre lm (pre ++ '[' :: (loc ++ [']']))
      = if loc = [] then none else lookupS lm loc := by
  have hne : pre ++ '[' :: (loc ++ [']']) ≠ pre :=
    append_ne_self_of_ne_nil (by simp)
  simp only [locValue, if_neg hne, afterBracket_append hp]
  rw [List.dropLast_concat]

theorem locValue_lmKey (pre : Str) (hp : '[' ∉ pre) (lm : LocaleMap)
    (loc : Str) : locValue pre lm (lmKey pre loc) = lookupS lm loc := by
  by_cases h : loc = []
  · subst h
    simp [lmKey, locValue]
  · rw [show lmKey pre loc = pre ++ '[' :: (loc ++ [']']) from by
      simp [lmKey, h]]
    rw [locValue_bracket pre hp lm loc, if_neg h]

/-! ### lookupLast segment lemmas -/
theorem lookupLast_cons {α : Type} (p : Str × α) (ps : List (Str × α))
    (q : Str) :
    lookupLast (p :: ps) q
      = oOr (lookupLast ps q) (if q = p.1 then some p.2 else none) := by
  simp only [lookupLast, List.foldl_cons]
  rw [foldl_oOr_shift, oOr_none_right]

theorem lookupLast_append {α : Type} (A B : List (Str × α)) (q : Str) :
    lookupLast (A ++ B) q = oOr (lookupLast B q) (lookupLast A q) := by
  simp only [lookupLast, List.foldl_append]
  rw [foldl_oOr_shift]

theorem lookupLast_none {α : Type} {ps : List (Str × α)} {q : Str}
    (h : ∀ kv ∈ ps, kv.1 ≠ q) : lookupLast ps q = none := by
  simp only [lookupLast]
  exact foldl_oOr_none _ ps none
    (fun kv hkv => if_neg (fun hc => h kv hkv hc.symm))

theorem lookupLast_sorted {α : Type} : ∀ {m : SMap α}, SMapSorted m →
    ∀ q, lookupLast m q = lookupS m q := by
  intro m
  induction m with
  | nil => intro _ q; rfl
  | cons kv rest ih =>
    intro hs q
    obtain ⟨k, v⟩ := kv
    rcases hs with - | ⟨hall, htl⟩
    rw [lookupLast_cons]
    by_cases hq : q = k
    · subst hq
      rw [if_pos rfl]
      rw [lookupLast_none (fun kv' hkv' hc =>
        strLt_ne (hall kv' hkv') (by rw [hc]))]
      simp [lookupS, oOr]
    · rw [if_neg hq, oOr_none_right, ih htl q]
      simp [lookupS, hq]

theorem lookupLast_optScalarPairs (k : Str) (o : Option Str) (q : Str) :
    lookupLast (optScalarPairs k o) q = if q = k then o else none := by
  cases o with
  | none =>
    rw [show optScalarPairs k none = [] from rfl]
    rw [show lookupLast ([] : List (Str × Str)) q = none from rfl]
    simp
  | some v =>
    rw [show optScalarPairs k (some v) = [(k, v)] from rfl, lookupLast_cons]
    by_cases hq : q = k <;> simp [hq, oOr, lookupLast]

theorem lookupLast_optBoolPairs (k : Str) (o : Option Bool) (q : Str) :
    lookupLast (optBoolPairs k o) q
      = if q = k then o.map boolStr else none := by
  cases o with
  | none =>
    rw [show optBoolPairs k none = [] from rfl]
    rw [show lookupLast ([] : List (Str × Str)) q = none from rfl]
    simp
  | some b =>
    rw [show optBoolPairs k (some b) = [(k, boolStr b)] from rfl,
      lookupLast_cons]
    by_cases hq : q = k <;> simp [hq, oOr, lookupLast]

theorem lookupLast_optListPairs (k : Str) (o : Option SemicolonList)
    (q : Str) :
    lookupLast (optListPairs k o) q
      = if q = k then o.map listFieldText else none := by
  cases o with
  | none =>
    rw [show optListPairs k none = [] from rfl]
    rw [show lookupLast ([] : List (Str × Str)) q = none from rfl]
    simp
  | some l =>
    rw [show optListPairs k (some l) = [(k, listFieldText l)] from rfl,
      lookupLast_cons]
    by_cases hq : q = k <;> simp [hq, oOr, lookupLast]

theorem lookupLast_lmPairs (pre : Str) (hp : '[' ∉ pre) :
    ∀ {lm : LocaleMap}, SMapSorted lm → ∀ q,
      lookupLast (lmPairs pre lm) q
        = if localizedMatches pre q = true then locValue pre lm q
          else none := by
  intro lm
  induction lm with
  | nil =>
    intro _ q
    rw [show lmPairs pre [] = [] from rfl]
    rw [show lookupLast ([] : List (Str × Str)) q = none from rfl,
      locValue_nil]
    simp
  | cons kv tl ih =>
    intro hs q
    obtain ⟨loc, v⟩ := kv
    rcases hs with - | ⟨hall, htl⟩
    rw [show lmPairs pre ((loc, v) :: tl)
          = (lmKey pre loc, v) :: lmPairs pre tl from rfl]
    rw [lookupLast_cons, ih htl q]
    by_cases hq : q = lmKey pre loc
    · subst hq
      rw [if_pos rfl, if_pos (localizedMatches_lmKey pre loc),
        if_pos (localizedMatches_lmKey pre loc)]
      rw [locValue_lmKey pre hp tl loc, locValue_lmKey pre hp _ loc]
      rw [show lookupS tl loc = none from by
        rw [lookupS_none_iff]
        exact fun kv' hkv' hc => strLt_ne (hall kv' hkv') (by rw [hc])]
      rw [show lookupS ((loc, v) :: tl) loc = some v from by
        simp [lookupS]]
      rfl
    · rw [if_neg hq, oOr_none_right]
      by_cases hm : localizedMatches pre q = true
      · rw [if_pos hm, if_pos hm]
        rcases matched_decompose hp hm with hqp | ⟨loc', hqb⟩
        · subst q
          have hlocne : loc ≠ [] := by
            rintro rfl
            exact hq (by simp [lmKey])
          rw [show locValue pre tl pre = lookupS tl [] from by
            simp [locValue]]
          rw [show locValue pre ((loc, v) :: tl) pre
                = lookupS ((loc, v) :: tl) [] from by
            simp [locValue]]
          have h1 : ¬(([] : Str) = loc) := fun hc => hlocne hc.symm
          rw [show lookupS ((loc, v) :: tl) [] = lookupS tl [] from by
            simp only [lookupS, if_neg h1]]
        · subst hqb
          rw [locValue_bracket pre hp tl loc',
            locValue_bracket pre hp ((loc, v) :: tl) loc']
          by_cases hl' : loc' = []
          · rw [if_pos hl', if_pos hl']
          · rw [if_neg hl', if_neg hl']
            have hne : loc' ≠ loc := by
              rintro rfl
              exact hq (by simp [lmKey, hl'])
            rw [show lookupS ((loc, v) :: tl) loc' = lookupS tl loc' from by
              simp only [lookupS, if_neg hne]]
      · rw [if_neg hm, if_neg hm]

theorem lookupLast_optLmPairs (pre : Str) (hp : '[' ∉ pre)
    {o : Option LocaleMap} (ho : ∀ lm, o = some lm → SMapSorted lm)
    (q : Str) :
    lookupLast (optLmPairs pre o) q
      = if localizedMatches pre q = true then optLocValue pre o q
        else none := by
  cases o with
  | none =>
    rw [show optLmPairs pre none = [] from rfl]
    rw [show lookupLast ([] : List (Str × Str)) q = none from rfl]
    rw [show optLocValue pre none q = none from rfl]
    simp
  | some lm =>
    rw [show optLmPairs pre (some lm) = lmPairs pre lm from rfl,
      lookupLast_lmPairs pre hp (ho lm rfl) q]
    rfl

/-! ### Characterizing the serialized entry map -/
theorem oOr_none_left {α : Type} (b : Option α) : oOr none b = b := rfl

theorem lookupLast_single {α : Type} (k : Str) (v : α) (q : Str) :
    lookupLast [(k, v)] q = if q = k then some v else none := by
  rw [show ([(k, v)] : List (Str × α)) = (k, v) :: [] from rfl,
    lookupLast_cons]
  rfl

theorem bfalse_not_true {b : Bool} (h : b = false) : ¬ b = true := by
  simp [h]

theorem matched_head {pre q : Str} (hm : localizedMatches pre q = true)
    (hpre : pre ≠ []) : q.head? = pre.head? := by
  simp only [localizedMatches, Bool.or_eq_true, Bool.and_eq_true,
    decide_eq_true_eq] at hm
  rcases hm with hm | ⟨hpref, -⟩
  · rw [hm]
  · obtain ⟨t, ht⟩ := List.isPrefixOf_iff_prefix.mp hpref
    cases pre with
    | nil => exact absurd rfl hpre
    | cons p0 pr =>
      rw [← ht]
      rfl

theorem ne_of_matched {pre q : Str} (hm : localizedMatches pre q = true)
    (k : Str) (hk : localizedMatches pre k = false) : q ≠ k := by
  intro hc
  rw [hc, hk] at hm
  exact Bool.false_ne_true hm

theorem not_matched_of_matched {p q : Str} (hm : localizedMatches p q = true)
    (hp : p ≠ []) (p' : Str) (hp' : p' ≠ [])
    (hh : p.head? ≠ p'.head?) : localizedMatches p' q = false := by
  cases h : localizedMatches p' q with
  | false => rfl
  | true => exact absurd ((matched_head hm hp).symm.trans (matched_head h hp')) hh

theorem lookupS_none_of_all {α : Type} {m : SMap α} {P : Str → Prop}
    (hkeys : ∀ kv ∈ m, P kv.1) {q : Str} (hq : ¬ P q) :
    lookupS m q = none := by
  cases ho : lookupS m q with
  | none => rfl
  | some v => exact absurd (hkeys _ (lookupS_mem ho)) hq

theorem lookupS_filter_key {α : Type} (p : Str → Bool) :
    ∀ (m : SMap α) (q : Str),
      lookupS (m.filter (fun kv => p kv.1)) q
        = if p q = true then lookupS m q else none := by
  intro m
  induction m with
  | nil =>
    intro q
    rw [List.filter_nil]
    split <;> rfl
  | cons kv rest ih =>
    intro q
    obtain ⟨k, v⟩ := kv
    rw [List.filter_cons]
    by_cases hq : q = k
    · subst hq
      cases hp : p q with
      | true =>
        rw [if_pos (by simp [hp])]
        simp [lookupS, hp]
      | false =>
        rw [if_neg (by simp [hp]), ih q, if_neg (by simp [hp]),
          if_neg (by simp [hp])]
    · have hL : lookupS (if (fun kv => p kv.1) (k, v) = true
          then (k, v) :: rest.filter (fun kv => p kv.1)
          else rest.filter (fun kv => p kv.1)) q
          = lookupS (rest.filter (fun kv => p kv.1)) q := by
        split
        · simp only [lookupS, if_neg hq]
        · rfl
      rw [hL, ih q]
      by_cases hpq : p q = true
      · rw [if_pos hpq, if_pos hpq]
        simp only [lookupS, if_neg hq]
      · rw [if_neg hpq, if_neg hpq]

/-- Master lemma: a lookup in the insert sequence of
`serialize_desktop_entry` (last write wins) is exactly the per-field view
`mLook`. -/
theorem lookupLast_entryPairs (e : DesktopEntry)
    (hname : SMapSorted e.name)
    (hgn : ∀ lm, e.generic_name = some lm → SMapSorted lm)
    (hcm : ∀ lm, e.comment = some lm → SMapSorted lm)
    (hic : ∀ lm, e.icon = some lm → SMapSorted lm)
    (hkw : ∀ lm, e.keywords = some lm → SMapSorted lm)
    (hoth : SMapSorted e.other)
    (hkeys : ∀ kv ∈ e.other, entryExtraKeyOk kv.1)
    (q : Str) :
    lookupLast (entryPairs e) q = mLook e q := by
  simp only [entryPairs]
  simp only [lookupLast_append]
  rw [lookupLast_lmPairs (str "Name") (by decide) hname q,
    lookupLast_optLmPairs (str "GenericName") (by decide) hgn q,
    lookupLast_optLmPairs (str "Comment") (by decide) hcm q,
    lookupLast_optLmPairs (str "Icon") (by decide) hic q,
    lookupLast_optLmPairs (str "Keywords") (by decide) hkw q,
    lookupLast_sorted hoth q]
  simp only [lookupLast_single, lookupLast_optScalarPairs,
    lookupLast_optBoolPairs, lookupLast_optListPairs]
  simp only [mLook]
  by_cases hm1 : localizedMatches (str "Name") q = true
  · simp only [if_pos hm1]
    simp only [if_neg (bfalse_not_true (not_matched_of_matched hm1 (by decide) (str "GenericName") (by decide) (by decide)))]
    simp only [if_neg (bfalse_not_true (not_matched_of_matched hm1 (by decide) (str "Comment") (by decide) (by decide)))]
    simp only [if_neg (bfalse_not_true (not_matched_of_matched hm1 (by decide) (str "Icon") (by decide) (by decide)))]
    simp only [if_neg (bfalse_not_true (not_matched_of_matched hm1 (by decide) (str "Keywords") (by decide) (by decide)))]
    simp only [if_neg (ne_of_matched hm1 (str "Type") (by decide))]
    simp only [if_neg (ne_of_matched hm1 (str "Version") (by decide))]
    simp only [if_neg (ne_of_matched hm1 (str "NoDisplay") (by decide))]
    simp only [if_neg (ne_of_matched hm1 (str "Hidden") (by decide))]
    simp only [if_neg (ne_of_matched hm1 (str "OnlyShowIn") (by decide))]
    simp only [if_neg (ne_of_matched hm1 (str "NotShowIn") (by decide))]
    simp only [if_neg (ne_of_matched hm1 (str "DBusActivatable") (by decide))]
    simp only [if_neg (ne_of_matched hm1 (str "TryExec") (by decide))]
    simp only [if_neg (ne_of_matched hm1 (str "Exec") (by decide))]
    simp only [if_neg (ne_of_matched hm1 (str "Path") (by decide))]
    simp only [if_neg (ne_of_matched hm1 (str "Terminal") (by decide))]
    simp only [if_neg (ne_of_matched hm1 (str "Actions") (by decide))]
    simp only [if_neg (ne_of_matched hm1 (str "MimeType") (by decide))]
    simp only [if_neg (ne_of_matched hm1 (str "Categories") (by decide))]
    simp only [if_neg (ne_of_matched hm1 (str "Implements") (by decide))]
    simp only [if_neg (ne_of_matched hm1 (str "StartupNotify") (by decide))]
    simp only [if_neg (ne_of_matched hm1 (str "StartupWMClass") (by decide))]
    simp only [if_neg (ne_of_matched hm1 (str "URL") (by decide))]
    simp only [if_neg (ne_of_matched hm1 (str "PrefersNonDefaultGPU") (by decide))]
    rw [lookupS_none_of_all hkeys (fun h => bfalse_not_true h.2.1 hm1)]
    simp only [oOr_none_left, oOr_none_right]
  simp only [if_neg hm1]
  by_cases hm2 : localizedMatches (str "GenericName") q = true
  · simp only [if_pos hm2]
    simp only [if_neg (bfalse_not_true (not_matched_of_matched hm2 (by decide) (str "Comment") (by decide) (by decide)))]
    simp only [if_neg (bfalse_not_true (not_matched_of_matched hm2 (by decide) (str "Icon") (by decide) (by decide)))]
    simp only [if_neg (bfalse_not_true (not_matched_of_matched hm2 (by decide) (str "Keywords") (by decide) (by decide)))]
    simp only [if_neg (ne_of_matched hm2 (str "Type") (by decide))]
    simp only [if_neg (ne_of_matched hm2 (str "Version") (by decide))]
    simp only [if_neg (ne_of_matched hm2 (str "NoDisplay") (by decide))]
    simp only [if_neg (ne_of_matched hm2 (str "Hidden") (by decide))]
    simp only [if_neg (ne_of_matched hm2 (str "OnlyShowIn") (by decide))]
    simp only [if_neg (ne_of_matched hm2 (str "NotShowIn") (by decide))]
    simp only [if_neg (ne_of_matched hm2 (str "DBusActivatable") (by decide))]
    simp only [if_neg (ne_of_matched hm2 (str "TryExec") (by decide))]
    simp only [if_neg (ne_of_matched hm2 (str "Exec") (by decide))]
    simp only [if_neg (ne_of_matched hm2 (str "Path") (by decide))]
    simp only [if_neg (ne_of_matched hm2 (str "Terminal") (by decide))]
    simp only [if_neg (ne_of_matched hm2 (str "Actions") (by decide))]
    simp only [if_neg (ne_of_matched hm2 (str "MimeType") (by decide))]
    simp only [if_neg (ne_of_matched hm2 (str "Categories") (by decide))]
    simp only [if_neg (ne_of_matched hm2 (str "Implements") (by decide))]
    simp only [if_neg (ne_of_matched hm2 (str "StartupNotify") (by decide))]
    simp only [if_neg (ne_of_matched hm2 (str "StartupWMClass") (by decide))]
    simp only [if_neg (ne_of_matched hm2 (str "URL") (by decide))]
    simp only [if_neg (ne_of_matched hm2 (str "PrefersNonDefaultGPU") (by decide))]
    rw [lookupS_none_of_all hkeys (fun h => bfalse_not_true h.2.2.1 hm2)]
    simp only [oOr_none_left, oOr_none_right]
  simp only [if_neg hm2]
  by_cases hm3 : localizedMatches (str "Comment") q = true
  · simp only [if_pos hm3]
    simp only [if_neg (bfalse_not_true (not_matched_of_matched hm3 (by decide) (str "Icon") (by decide) (by decide)))]
    simp only [if_neg (bfalse_not_true (not_matched_of_matched hm3 (by decide) (str "Keywords") (by decide) (by decide)))]
    simp only [if_neg (ne_of_matched hm3 (str "Type") (by decide))]
    simp only [if_neg (ne_of_matched hm3 (str "Version") (by decide))]
    simp only [if_neg (ne_of_matched hm3 (str "NoDisplay") (by decide))]
    simp only [if_neg (ne_of_matched hm3 (str "Hidden") (by decide))]
    simp only [if_neg (ne_of_matched hm3 (str "OnlyShowIn") (by decide))]
    simp only [if_neg (ne_of_matched hm3 (str "NotShowIn") (by decide))]
    simp only [if_neg (ne_of_matched hm3 (str "DBusActivatable") (by decide))]
    simp only [if_neg (ne_of_matched hm3 (str "TryExec") (by decide))]
    simp only [if_neg (ne_of_matched hm3 (str "Exec") (by decide))]
    simp only [if_neg (ne_of_matched hm3 (str "Path") (by decide))]
    simp only [if_neg (ne_of_matched hm3 (str "Terminal") (by decide))]
    simp only [if_neg (ne_of_matched hm3 (str "Actions") (by decide))]
    simp only [if_neg (ne_of_matched hm3 (str "MimeType") (by decide))]
    simp only [if_neg (ne_of_matched hm3 (str "Categories") (by decide))]
    simp only [if_neg (ne_of_matched hm3 (str "Implements") (by decide))]
    simp only [if_neg (ne_of_matched hm3 (str "StartupNotify") (by decide))]
    simp only [if_neg (ne_of_matched hm3 (str "StartupWMClass") (by decide))]
    simp only [if_neg (ne_of_matched hm3 (str "URL") (by decide))]
    simp only [if_neg (ne_of_matched hm3 (str "PrefersNonDefaultGPU") (by decide))]
    rw [lookupS_none_of_all hkeys (fun h => bfalse_not_true h.2.2.2.1 hm3)]
    simp only [oOr_none_left, oOr_none_right]
  simp only [if_neg hm3]
  by_cases hm4 : localizedMatches (str "Icon") q = true
  · simp only [if_pos hm4]
    simp only [if_neg (bfalse_not_true (not_matched_of_matched hm4 (by decide) (str "Keywords") (by decide) (by decide)))]
    simp only [if_neg (ne_of_matched hm4 (str "Type") (by decide))]
    simp only [if_neg (ne_of_matched hm4 (str "Version") (by decide))]
    simp only [if_neg (ne_of_matched hm4 (str "NoDisplay") (by decide))]
    simp only [if_neg (ne_of_matched hm4 (str "Hidden") (by decide))]
    simp only [if_neg (ne_of_matched hm4 (str "OnlyShowIn") (by decide))]
    simp only [if_neg (ne_of_matched hm4 (str "NotShowIn") (by decide))]
    simp only [if_neg (ne_of_matched hm4 (str "DBusActivatable") (by decide))]
    simp only [if_neg (ne_of_matched hm4 (str "TryExec") (by decide))]
    simp only [if_neg (ne_of_matched hm4 (str "Exec") (by decide))]
    simp only [if_neg (ne_of_matched hm4 (str "Path") (by decide))]
    simp only [if_neg (ne_of_matched hm4 (str "Terminal") (by decide))]
    simp only [if_neg (ne_of_matched hm4 (str "Actions") (by decide))]
    simp only [if_neg (ne_of_matched hm4 (str "MimeType") (by decide))]
    simp only [if_neg (ne_of_matched hm4 (str "Categories") (by decide))]
    simp only [if_neg (ne_of_matched hm4 (str "Implements") (by decide))]
    simp only [if_neg (ne_of_matched hm4 (str "StartupNotify") (by decide))]
    simp only [if_neg (ne_of_matched hm4 (str "StartupWMClass") (by decide))]
    simp only [if_neg (ne_of_matched hm4 (str "URL") (by decide))]
    simp only [if_neg (ne_of_matched hm4 (str "PrefersNonDefaultGPU") (by decide))]
    rw [lookupS_none_of_all hkeys (fun h => bfalse_not_true h.2.2.2.2.1 hm4)]
    simp only [oOr_none_left, oOr_none_right]
  simp only [if_neg hm4]
  by_cases hm5 : localizedMatches (str "Keywords") q = true
  · simp only [if_pos hm5]
    simp only [if_neg (ne_of_matched hm5 (str "Type") (by decide))]
    simp only [if_neg (ne_of_matched hm5 (str "Version") (by decide))]
    simp only [if_neg (ne_of_matched hm5 (str "NoDisplay") (by decide))]
    simp only [if_neg (ne_of_matched hm5 (str "Hidden") (by decide))]
    simp only [if_neg (ne_of_matched hm5 (str "OnlyShowIn") (by decide))]
    simp only [if_neg (ne_of_matched hm5 (str "NotShowIn") (by decide))]
    simp only [if_neg (ne_of_matched hm5 (str "DBusActivatable") (by decide))]
    simp only [if_neg (ne_of_matched hm5 (str "TryExec") (by decide))]
    simp only [if_neg (ne_of_matched hm5 (str "Exec") (by decide))]
    simp only [if_neg (ne_of_matched hm5 (str "Path") (by decide))]
    simp only [if_neg (ne_of_matched hm5 (str "Terminal") (by decide))]
    simp only [if_neg (ne_of_matched hm5 (str "Actions") (by decide))]
    simp only [if_neg (ne_of_matched hm5 (str "MimeType") (by decide))]
    simp only [if_neg (ne_of_matched hm5 (str "Categories") (by decide))]
    simp only [if_neg (ne_of_matched hm5 (str "Implements") (by decide))]
    simp only [if_neg (ne_of_matched hm5 (str "StartupNotify") (by decide))]
    simp only [if_neg (ne_of_matched hm5 (str "StartupWMClass") (by decide))]
    simp only [if_neg (ne_of_matched hm5 (str "URL") (by decide))]
    simp only [if_neg (ne_of_matched hm5 (str "PrefersNonDefaultGPU") (by decide))]
    rw [lookupS_none_of_all hkeys (fun h => bfalse_not_true h.2.2.2.2.2 hm5)]
    simp only [oOr_none_left, oOr_none_right]
  simp only [if_neg hm5]
  by_cases hd1 : q = str "Type"
  · simp only [if_pos hd1]
    simp only [if_neg (show ¬ q = str "Version" from fun hc => by rw [hd1] at hc; exact absurd hc (by decide))]
    simp only [if_neg (show ¬ q = str "NoDisplay" from fun hc => by rw [hd1] at hc; exact absurd hc (by decide))]
    simp only [if_neg (show ¬ q = str "Hidden" from fun hc => by rw [hd1] at hc; exact absurd hc (by decide))]
    simp only [if_neg (show ¬ q = str "OnlyShowIn" from fun hc => by rw [hd1] at hc; exact absurd hc (by decide))]
    simp only [if_neg (show ¬ q = str "NotShowIn" from fun hc => by rw [hd1] at hc; exact absurd hc (by decide))]
    simp only [if_neg (show ¬ q = str "DBusActivatable" from fun hc => by rw [hd1] at hc; exact absurd hc (by decide))]
    simp only [if_neg (show ¬ q = str "TryExec" from fun hc => by rw [hd1] at hc; exact absurd hc (by decide))]
    simp only [if_neg (show ¬ q = str "Exec" from fun hc => by rw [hd1] at hc; exact absurd hc (by decide))]
    simp only [if_neg (show ¬ q = str "Path" from fun hc => by rw [hd1] at hc; exact absurd hc (by decide))]
    simp only [if_neg (show ¬ q = str "Terminal" from fun hc => by rw [hd1] at hc; exact absurd hc (by decide))]
    simp only [if_neg (show ¬ q = str "Actions" from fun hc => by rw [hd1] at hc; exact absurd hc (by decide))]
    simp only [if_neg (show ¬ q = str "MimeType" from fun hc => by rw [hd1] at hc; exact absurd hc (by decide))]
    simp only [if_neg (show ¬ q = str "Categories" from fun hc => by rw [hd1] at hc; exact absurd hc (by decide))]
    simp only [if_neg (show ¬ q = str "Implements" from fun hc => by rw [hd1] at hc; exact absurd hc (by decide))]
    simp only [if_neg (show ¬ q = str "StartupNotify" from fun hc => by rw [hd1] at hc; exact absurd hc (by decide))]
    simp only [if_neg (show ¬ q = str "StartupWMClass" from fun hc => by rw [hd1] at hc; exact absurd hc (by decide))]
    simp only [if_neg (show ¬ q = str "URL" from fun hc => by rw [hd1] at hc; exact absurd hc (by decide))]
    simp only [if_neg (show ¬ q = str "PrefersNonDefaultGPU" from fun hc => by rw [hd1] at hc; exact absurd hc (by decide))]
    rw [lookupS_none_of_all hkeys (fun h => h.1 (by rw [hd1]; decide))]
    simp only [oOr_none_left, oOr_none_right]
  simp only [if_neg hd1]
  by_cases hd2 : q = str "Version"
  · simp only [if_pos hd2]
    simp only [if_neg (show ¬ q = str "NoDisplay" from fun hc => by rw [hd2] at hc; exact absurd hc (by decide))]
    simp only [if_neg (show ¬ q = str "Hidden" from fun hc => by rw [hd2] at hc; exact absurd hc (by decide))]
    simp only [if_neg (show ¬ q = str "OnlyShowIn" from fun hc => by rw [hd2] at hc; exact absurd hc (by decide))]
    simp only [if_neg (show ¬ q = str "NotShowIn" from fun hc => by rw [hd2] at hc; exact absurd hc (by decide))]
    simp only [if_neg (show ¬ q = str "DBusActivatable" from fun hc => by rw [hd2] at hc; exact absurd hc (by decide))]
    simp only [if_neg (show ¬ q = str "TryExec" from fun hc => by rw [hd2] at hc; exact absurd hc (by decide))]
    simp only [if_neg (show ¬ q = str "Exec" from fun hc => by rw [hd2] at hc; exact absurd hc (by decide))]
    simp only [if_neg (show ¬ q = str "Path" from fun hc => by rw [hd2] at hc; exact absurd hc (by decide))]
    simp only [if_neg (show ¬ q = str "Terminal" from fun hc => by rw [hd2] at hc; exact absurd hc (by decide))]
    simp only [if_neg (show ¬ q = str "Actions" from fun hc => by rw [hd2] at hc; exact absurd hc (by decide))]
    simp only [if_neg (show ¬ q = str "MimeType" from fun hc => by rw [hd2] at hc; exact absurd hc (by decide))]
    simp only [if_neg (show ¬ q = str "Categories" from fun hc => by rw [hd2] at hc; exact absurd hc (by decide))]
    simp only [if_neg (show ¬ q = str "Implements" from fun hc => by rw [hd2] at hc; exact absurd hc (by decide))]
    simp only [if_neg (show ¬ q = str "StartupNotify" from fun hc => by rw [hd2] at hc; exact absurd hc (by decide))]
    simp only [if_neg (show ¬ q = str "StartupWMClass" from fun hc => by rw [hd2] at hc; exact absurd hc (by decide))]
    simp only [if_neg (show ¬ q = str "URL" from fun hc => by rw [hd2] at hc; exact absurd hc (by decide))]
    simp only [if_neg (show ¬ q = str "PrefersNonDefaultGPU" from fun hc => by rw [hd2] at hc; exact absurd hc (by decide))]
    rw [lookupS_none_of_all hkeys (fun h => h.1 (by rw [hd2]; decide))]
    simp only [oOr_none_left, oOr_none_right]
  simp only [if_neg hd2]
  by_cases hd3 : q = str "NoDisplay"
  · simp only [if_pos hd3]
    simp only [if_neg (show ¬ q = str "Hidden" from fun hc => by rw [hd3] at hc; exact absurd hc (by decide))]
    simp only [if_neg (show ¬ q = str "OnlyShowIn" from fun hc => by rw [hd3] at hc; exact absurd hc (by decide))]
    simp only [if_neg (show ¬ q = str "NotShowIn" from fun hc => by rw [hd3] at hc; exact absurd hc (by decide))]
    simp only [if_neg (show ¬ q = str "DBusActivatable" from fun hc => by rw [hd3] at hc; exact absurd hc (by decide))]
    simp only [if_neg (show ¬ q = str "TryExec" from fun hc => by rw [hd3] at hc; exact absurd hc (by decide))]
    simp only [if_neg (show ¬ q = str "Exec" from fun hc => by rw [hd3] at hc; exact absurd hc (by decide))]
    simp only [if_neg (show ¬ q = str "Path" from fun hc => by rw [hd3] at hc; exact absurd hc (by decide))]
    simp only [if_neg (show ¬ q = str "Terminal" from fun hc => by rw [hd3] at hc; exact absurd hc (by decide))]
    simp only [if_neg (show ¬ q = str "Actions" from fun hc => by rw [hd3] at hc; exact absurd hc (by decide))]
    simp only [if_neg (show ¬ q = str "MimeType" from fun hc => by rw [hd3] at hc; exact absurd hc (by decide))]
    simp only [if_neg (show ¬ q = str "Categories" from fun hc => by rw [hd3] at hc; exact absurd hc (by decide))]
    simp only [if_neg (show ¬ q = str "Implements" from fun hc => by rw [hd3] at hc; exact absurd hc (by decide))]
    simp only [if_neg (show ¬ q = str "StartupNotify" from fun hc => by rw [hd3] at hc; exact absurd hc (by decide))]
    simp only [if_neg (show ¬ q = str "StartupWMClass" from fun hc => by rw [hd3] at hc; exact absurd hc (by decide))]
    simp only [if_neg (show ¬ q = str "URL" from fun hc => by rw [hd3] at hc; exact absurd hc (by decide))]
    simp only [if_neg (show ¬ q = str "PrefersNonDefaultGPU" from fun hc => by rw [hd3] at hc; exact absurd hc (by decide))]
    rw [lookupS_none_of_all hkeys (fun h => h.1 (by rw [hd3]; decide))]
    simp only [oOr_none_left, oOr_none_right]
  simp only [if_neg hd3]
  by_cases hd4 : q = str "Hidden"
  · simp only [if_pos hd4]
    simp only [if_neg (show ¬ q = str "OnlyShowIn" from fun hc => by rw [hd4] at hc; exact absurd hc (by decide))]
    simp only [if_neg (show ¬ q = str "NotShowIn" from fun hc => by rw [hd4] at hc; exact absurd hc (by decide))]
    simp only [if_neg (show ¬ q = str "DBusActivatable" from fun hc => by rw [hd4] at hc; exact absurd hc (by decide))]
    simp only [if_neg (show ¬ q = str "TryExec" from fun hc => by rw [hd4] at hc; exact absurd hc (by decide))]
    simp only [if_neg (show ¬ q = str "Exec" from fun hc => by rw [hd4] at hc; exact absurd hc (by decide))]
    simp only [if_neg (show ¬ q = str "Path" from fun hc => by rw [hd4] at hc; exact absurd hc (by decide))]
    simp only [if_neg (show ¬ q = str "Terminal" from fun hc => by rw [hd4] at hc; exact absurd hc (by decide))]
    simp only [if_neg (show ¬ q = str "Actions" from fun hc => by rw [hd4] at hc; exact absurd hc (by decide))]
    simp only [if_neg (show ¬ q = str "MimeType" from fun hc => by rw [hd4] at hc; exact absurd hc (by decide))]
    simp only [if_neg (show ¬ q = str "Categories" from fun hc => by rw [hd4] at hc; exact absurd hc (by decide))]
    simp only [if_neg (show ¬ q = str "Implements" from fun hc => by rw [hd4] at hc; exact absurd hc (by decide))]
    simp only [if_neg (show ¬ q = str "StartupNotify" from fun hc => by rw [hd4] at hc; exact absurd hc (by decide))]
    simp only [if_neg (show ¬ q = str "StartupWMClass" from fun hc => by rw [hd4] at hc; exact absurd hc (by decide))]
    simp only [if_neg (show ¬ q = str "URL" from fun hc => by rw [hd4] at hc; exact absurd hc (by decide))]
    simp only [if_neg (show ¬ q = str "PrefersNonDefaultGPU" from fun hc => by rw [hd4] at hc; exact absurd hc (by decide))]
    rw [lookupS_none_of_all hkeys (fun h => h.1 (by rw [hd4]; decide))]
    simp only [oOr_none_left, oOr_none_right]
  simp only [if_neg hd4]
  by_cases hd5 : q = str "OnlyShowIn"
  · simp only [if_pos hd5]
    simp only [if_neg (show ¬ q = str "NotShowIn" from fun hc => by rw [hd5] at hc; exact absurd hc (by decide))]
    simp only [if_neg (show ¬ q = str "DBusActivatable" from fun hc => by rw [hd5] at hc; exact absurd hc (by decide))]
    simp only [if_neg (show ¬ q = str "TryExec" from fun hc => by rw [hd5] at hc; exact absurd hc (by decide))]
    simp only [if_neg (show ¬ q = str "Exec" from fun hc => by rw [hd5] at hc; exact absurd hc (by decide))]
    simp only [if_neg (show ¬ q = str "Path" from fun hc => by rw [hd5] at hc; exact absurd hc (by decide))]
    simp only [if_neg (show ¬ q = str "Terminal" from fun hc => by rw [hd5] at hc; exact absurd hc (by decide))]
    simp only [if_neg (show ¬ q = str "Actions" from fun hc => by rw [hd5] at hc; exact absurd hc (by decide))]
    simp only [if_neg (show ¬ q = str "MimeType" from fun hc => by rw [hd5] at hc; exact absurd hc (by decide))]
    simp only [if_neg (show ¬ q = str "Categories" from fun hc => by rw [hd5] at hc; exact absurd hc (by decide))]
    simp only [if_neg (show ¬ q = str "Implements" from fun hc => by rw [hd5] at hc; exact absurd hc (by decide))]
    simp only [if_neg (show ¬ q = str "StartupNotify" from fun hc => by rw [hd5] at hc; exact absurd hc (by decide))]
    simp only [if_neg (show ¬ q = str "StartupWMClass" from fun hc => by rw [hd5] at hc; exact absurd hc (by decide))]
    simp only [if_neg (show ¬ q = str "URL" from fun hc => by rw [hd5] at hc; exact absurd hc (by decide))]
    simp only [if_neg (show ¬ q = str "PrefersNonDefaultGPU" from fun hc => by rw [hd5] at hc; exact absurd hc (by decide))]
    rw [lookupS_none_of_all hkeys (fun h => h.1 (by rw [hd5]; decide))]
    simp only [oOr_none_left, oOr_none_right]
  simp only [if_neg hd5]
  by_cases hd6 : q = str "NotShowIn"
  · simp only [if_pos hd6]
    simp only [if_neg (show ¬ q = str "DBusActivatable" from fun hc => by rw [hd6] at hc; exact absurd hc (by decide))]
    simp only [if_neg (show ¬ q = str "TryExec" from fun hc => by rw [hd6] at hc; exact absurd hc (by decide))]
    simp only [if_neg (show ¬ q = str "Exec" from fun hc => by rw [hd6] at hc; exact absurd hc (by decide))]
    simp only [if_neg (show ¬ q = str "Path" from fun hc => by rw [hd6] at hc; exact absurd hc (by decide))]
    simp only [if_neg (show ¬ q = str "Terminal" from fun hc => by rw [hd6] at hc; exact absurd hc (by decide))]
    simp only [if_neg (show ¬ q = str "Actions" from fun hc => by rw [hd6] at hc; exact absurd hc (by decide))]
    simp only [if_neg (show ¬ q = str "MimeType" from fun hc => by rw [hd6] at hc; exact absurd hc (by decide))]
    simp only [if_neg (show ¬ q = str "Categories" from fun hc => by rw [hd6] at hc; exact absurd hc (by decide))]
    simp only [if_neg (show ¬ q = str "Implements" from fun hc => by rw [hd6] at hc; exact absurd hc (by decide))]
    simp only [if_neg (show ¬ q = str "StartupNotify" from fun hc => by rw [hd6] at hc; exact absurd hc (by decide))]
    simp only [if_neg (show ¬ q = str "StartupWMClass" from fun hc => by rw [hd6] at hc; exact absurd hc (by decide))]
    simp only [if_neg (show ¬ q = str "URL" from fun hc => by rw [hd6] at hc; exact absurd hc (by decide))]
    simp only [if_neg (show ¬ q = str "PrefersNonDefaultGPU" from fun hc => by rw [hd6] at hc; exact absurd hc (by decide))]
    rw [lookupS_none_of_all hkeys (fun h => h.1 (by rw [hd6]; decide))]
    simp only [oOr_none_left, oOr_none_right]
  simp only [if_neg hd6]
  by_cases hd7 : q = str "DBusActivatable"
  · simp only [if_pos hd7]
    simp only [if_neg (show ¬ q = str "TryExec" from fun hc => by rw [hd7] at hc; exact absurd hc (by decide))]
    simp only [if_neg (show ¬ q = str "Exec" from fun hc => by rw [hd7] at hc; exact absurd hc (by decide))]
    simp only [if_neg (show ¬ q = str "Path" from fun hc => by rw [hd7] at hc; exact absurd hc (by decide))]
    simp only [if_neg (show ¬ q = str "Terminal" from fun hc => by rw [hd7] at hc; exact absurd hc (by decide))]
    simp only [if_neg (show ¬ q = str "Actions" from fun hc => by rw [hd7] at hc; exact absurd hc (by decide))]
    simp only [if_neg (show ¬ q = str "MimeType" from fun hc => by rw [hd7] at hc; exact absurd hc (by decide))]
    simp only [if_neg (show ¬ q = str "Categories" from fun hc => by rw [hd7] at hc; exact absurd hc (by decide))]
    simp only [if_neg (show ¬ q = str "Implements" from fun hc => by rw [hd7] at hc; exact absurd hc (by decide))]
    simp only [if_neg (show ¬ q = str "StartupNotify" from fun hc => by rw [hd7] at hc; exact absurd hc (by decide))]
    simp only [if_neg (show ¬ q = str "StartupWMClass" from fun hc => by rw [hd7] at hc; exact absurd hc (by decide))]
    simp only [if_neg (show ¬ q = str "URL" from fun hc => by rw [hd7] at hc; exact absurd hc (by decide))]
    simp only [if_neg (show ¬ q = str "PrefersNonDefaultGPU" from fun hc => by rw [hd7] at hc; exact absurd hc (by decide))]
    rw [lookupS_none_of_all hkeys (fun h => h.1 (by rw [hd7]; decide))]
    simp only [oOr_none_left, oOr_none_right]
  simp only [if_neg hd7]
  by_cases hd8 : q = str "TryExec"
  · simp only [if_pos hd8]
    simp only [if_neg (show ¬ q = str "Exec" from fun hc => by rw [hd8] at hc; exact absurd hc (by decide))]
    simp only [if_neg (show ¬ q = str "Path" from fun hc => by rw [hd8] at hc; exact absurd hc (by decide))]
    simp only [if_neg (show ¬ q = str "Terminal" from fun hc => by rw [hd8] at hc; exact absurd hc (by decide))]
    simp only [if_neg (show ¬ q = str "Actions" from fun hc => by rw [hd8] at hc; exact absurd hc (by decide))]
    simp only [if_neg (show ¬ q = str "MimeType" from fun hc => by rw [hd8] at hc; exact absurd hc (by decide))]
    simp only [if_neg (show ¬ q = str "Categories" from fun hc => by rw [hd8] at hc; exact absurd hc (by decide))]
    simp only [if_neg (show ¬ q = str "Implements" from fun hc => by rw [hd8] at hc; exact absurd hc (by decide))]
    simp only [if_neg (show ¬ q = str "StartupNotify" from fun hc => by rw [hd8] at hc; exact absurd hc (by decide))]
    simp only [if_neg (show ¬ q = str "StartupWMClass" from fun hc => by rw [hd8] at hc; exact absurd hc (by decide))]
    simp only [if_neg (show ¬ q = str "URL" from fun hc => by rw [hd8] at hc; exact absurd hc (by decide))]
    simp only [if_neg (show ¬ q = str "PrefersNonDefaultGPU" from fun hc => by rw [hd8] at hc; exact absurd hc (by decide))]
    rw [lookupS_none_of_all hkeys (fun h => h.1 (by rw [hd8]; decide))]
    simp only [oOr_none_left, oOr_none_right]
  simp only [if_neg hd8]
  by_cases hd9 : q = str "Exec"
  · simp only [if_pos hd9]
    simp only [if_neg (show ¬ q = str "Path" from fun hc => by rw [hd9] at hc; exact absurd hc (by decide))]
    simp only [if_neg (show ¬ q = str "Terminal" from fun hc => by rw [hd9] at hc; exact absurd hc (by decide))]
    simp only [if_neg (show ¬ q = str "Actions" from fun hc => by rw [hd9] at hc; exact absurd hc (by decide))]
    simp only [if_neg (show ¬ q = str "MimeType" from fun hc => by rw [hd9] at hc; exact absurd hc (by decide))]
    simp only [if_neg (show ¬ q = str "Categories" from fun hc => by rw [hd9] at hc; exact absurd hc (by decide))]
    simp only [if_neg (show ¬ q = str "Implements" from fun hc => by rw [hd9] at hc; exact absurd hc (by decide))]
    simp only [if_neg (show ¬ q = str "StartupNotify" from fun hc => by rw [hd9] at hc; exact absurd hc (by decide))]
    simp only [if_neg (show ¬ q = str "StartupWMClass" from fun hc => by rw [hd9] at hc; exact absurd hc (by decide))]
    simp only [if_neg (show ¬ q = str "URL" from fun hc => by rw [hd9] at hc; exact absurd hc (by decide))]
    simp only [if_neg (show ¬ q = str "PrefersNonDefaultGPU" from fun hc => by rw [hd9] at hc; exact absurd hc (by decide))]
    rw [lookupS_none_of_all hkeys (fun h => h.1 (by rw [hd9]; decide))]
    simp only [oOr_none_left, oOr_none_right]
  simp only [if_neg hd9]
  by_cases hd10 : q = str "Path"
  · simp only [if_pos hd10]
    simp only [if_neg (show ¬ q = str "Terminal" from fun hc => by rw [hd10] at hc; exact absurd hc (by decide))]
    simp only [if_neg (show ¬ q = str "Actions" from fun hc => by rw [hd10] at hc; exact absurd hc (by decide))]
    simp only [if_neg (show ¬ q = str "MimeType" from fun hc => by rw [hd10] at hc; exact absurd hc (by decide))]
    simp only [if_neg (show ¬ q = str "Categories" from fun hc => by rw [hd10] at hc; exact absurd hc (by decide))]
    simp only [if_neg (show ¬ q = str "Implements" from fun hc => by rw [hd10] at hc; exact absurd hc (by decide))]
    simp only [if_neg (show ¬ q = str "StartupNotify" from fun hc => by rw [hd10] at hc; exact absurd hc (by decide))]
    simp only [if_neg (show ¬ q = str "StartupWMClass" from fun hc => by rw [hd10] at hc; exact absurd hc (by decide))]
    simp only [if_neg (show ¬ q = str "URL" from fun hc => by rw [hd10] at hc; exact absurd hc (by decide))]
    simp only [if_neg (show ¬ q = str "PrefersNonDefaultGPU" from fun hc => by rw [hd10] at hc; exact absurd hc (by decide))]
    rw [lookupS_none_of_all hkeys (fun h => h.1 (by rw [hd10]; decide))]
    simp only [oOr_none_left, oOr_none_right]
  simp only [if_neg hd10]
  by_cases hd11 : q = str "Terminal"
  · simp only [if_pos hd11]
    simp only [if_neg (show ¬ q = str "Actions" from fun hc => by rw [hd11] at hc; exact absurd hc (by decide))]
    simp only [if_neg (show ¬ q = str "MimeType" from fun hc => by rw [hd11] at hc; exact absurd hc (by decide))]
    simp only [if_neg (show ¬ q = str "Categories" from fun hc => by rw [hd11] at hc; exact absurd hc (by decide))]
    simp only [if_neg (show ¬ q = str "Implements" from fun hc => by rw [hd11] at hc; exact absurd hc (by decide))]
    simp only [if_neg (show ¬ q = str "StartupNotify" from fun hc => by rw [hd11] at hc; exact absurd hc (by decide))]
    simp only [if_neg (show ¬ q = str "StartupWMClass" from fun hc => by rw [hd11] at hc; exact absurd hc (by decide))]
    simp only [if_neg (show ¬ q = str "URL" from fun hc => by rw [hd11] at hc; exact absurd hc (by decide))]
    simp only [if_neg (show ¬ q = str "PrefersNonDefaultGPU" from fun hc => by rw [hd11] at hc; exact absurd hc (by decide))]
    rw [lookupS_none_of_all hkeys (fun h => h.1 (by rw [hd11]; decide))]
    simp only [oOr_none_left, oOr_none_right]
  simp only [if_neg hd11]
  by_cases hd12 : q = str "Actions"
  · simp only [if_pos hd12]
    simp only [if_neg (show ¬ q = str "MimeType" from fun hc => by rw [hd12] at hc; exact absurd hc (by decide))]
    simp only [if_neg (show ¬ q = str "Categories" from fun hc => by rw [hd12] at hc; exact absurd hc (by decide))]
    simp only [if_neg (show ¬ q = str "Implements" from fun hc => by rw [hd12] at hc; exact absurd hc (by decide))]
    simp only [if_neg (show ¬ q = str "StartupNotify" from fun hc => by rw [hd12] at hc; exact absurd hc (by decide))]
    simp only [if_neg (show ¬ q = str "StartupWMClass" from fun hc => by rw [hd12] at hc; exact absurd hc (by decide))]
    simp only [if_neg (show ¬ q = str "URL" from fun hc => by rw [hd12] at hc; exact absurd hc (by decide))]
    simp only [if_neg (show ¬ q = str "PrefersNonDefaultGPU" from fun hc => by rw [hd12] at hc; exact absurd hc (by decide))]
    rw [lookupS_none_of_all hkeys (fun h => h.1 (by rw [hd12]; decide))]
    simp only [oOr_none_left, oOr_none_right]
  simp only [if_neg hd12]
  by_cases hd13 : q = str "MimeType"
  · simp only [if_pos hd13]
    simp only [if_neg (show ¬ q = str "Categories" from fun hc => by rw [hd13] at hc; exact absurd hc (by decide))]
    simp only [if_neg (show ¬ q = str "Implements" from fun hc => by rw [hd13] at hc; exact absurd hc (by decide))]
    simp only [if_neg (show ¬ q = str "StartupNotify" from fun hc => by rw [hd13] at hc; exact absurd hc (by decide))]
    simp only [if_neg (show ¬ q = str "StartupWMClass" from fun hc => by rw [hd13] at hc; exact absurd hc (by decide))]
    simp only [if_neg (show ¬ q = str "URL" from fun hc => by rw [hd13] at hc; exact absurd hc (by decide))]
    simp only [if_neg (show ¬ q = str "PrefersNonDefaultGPU" from fun hc => by rw [hd13] at hc; exact absurd hc (by decide))]
    rw [lookupS_none_of_all hkeys (fun h => h.1 (by rw [hd13]; decide))]
    simp only [oOr_none_left, oOr_none_right]
  simp only [if_neg hd13]
  by_cases hd14 : q = str "Categories"
  · simp only [if_pos hd14]
    simp only [if_neg (show ¬ q = str "Implements" from fun hc => by rw [hd14] at hc; exact absurd hc (by decide))]
    simp only [if_neg (show ¬ q = str "StartupNotify" from fun hc => by rw [hd14] at hc; exact absurd hc (by decide))]
    simp only [if_neg (show ¬ q = str "StartupWMClass" from fun hc => by rw [hd14] at hc; exact absurd hc (by decide))]
    simp only [if_neg (show ¬ q = str "URL" from fun hc => by rw [hd14] at hc; exact absurd hc (by decide))]
    simp only [if_neg (show ¬ q = str "PrefersNonDefaultGPU" from fun hc => by rw [hd14] at hc; exact absurd hc (by decide))]
    rw [lookupS_none_of_all hkeys (fun h => h.1 (by rw [hd14]; decide))]
    simp only [oOr_none_left, oOr_none_right]
  simp only [if_neg hd14]
  by_cases hd15 : q = str "Implements"
  · simp only [if_pos hd15]
    simp only [if_neg (show ¬ q = str "StartupNotify" from fun hc => by rw [hd15] at hc; exact absurd hc (by decide))]
    simp only [if_neg (show ¬ q = str "StartupWMClass" from fun hc => by rw [hd15] at hc; exact absurd hc (by decide))]
    simp only [if_neg (show ¬ q = str "URL" from fun hc => by rw [hd15] at hc; exact absurd hc (by decide))]
    simp only [if_neg (show ¬ q = str "PrefersNonDefaultGPU" from fun hc => by rw [hd15] at hc; exact absurd hc (by decide))]
    rw [lookupS_none_of_all hkeys (fun h => h.1 (by rw [hd15]; decide))]
    simp only [oOr_none_left, oOr_none_right]
  simp only [if_neg hd15]
  by_cases hd16 : q = str "StartupNotify"
  · simp only [if_pos hd16]
    simp only [if_neg (show ¬ q = str "StartupWMClass" from fun hc => by rw [hd16] at hc; exact absurd hc (by decide))]
    simp only [if_neg (show ¬ q = str "URL" from fun hc => by rw [hd16] at hc; exact absurd hc (by decide))]
    simp only [if_neg (show ¬ q = str "PrefersNonDefaultGPU" from fun hc => by rw [hd16] at hc; exact absurd hc (by decide))]
    rw [lookupS_none_of_all hkeys (fun h => h.1 (by rw [hd16]; decide))]
    simp only [oOr_none_left, oOr_none_right]
  simp only [if_neg hd16]
  by_cases hd17 : q = str "StartupWMClass"
  · simp only [if_pos hd17]
    simp only [if_neg (show ¬ q = str "URL" from fun hc => by rw [hd17] at hc; exact absurd hc (by decide))]
    simp only [if_neg (show ¬ q = str "PrefersNonDefaultGPU" from fun hc => by rw [hd17] at hc; exact absurd hc (by decide))]
    rw [lookupS_none_of_all hkeys (fun h => h.1 (by rw [hd17]; decide))]
    simp only [oOr_none_left, oOr_none_right]
  simp only [if_neg hd17]
  by_cases hd18 : q = str "URL"
  · simp only [if_pos hd18]
    simp only [if_neg (show ¬ q = str "PrefersNonDefaultGPU" from fun hc => by rw [hd18] at hc; exact absurd hc (by decide))]
    rw [lookupS_none_of_all hkeys (fun h => h.1 (by rw [hd18]; decide))]
    simp only [oOr_none_left, oOr_none_right]
  simp only [if_neg hd18]
  by_cases hd19 : q = str "PrefersNonDefaultGPU"
  · simp only [if_pos hd19]
    rw [lookupS_none_of_all hkeys (fun h => h.1 (by rw [hd19]; decide))]
    simp only [oOr_none_left, oOr_none_right]
  simp only [if_neg hd19]
  simp only [oOr_none_left, oOr_none_right]

/-! ### Extraction lemmas for the roundtrip -/
theorem SMapSorted_filter {α : Type} (p : Str × α → Bool) {m : SMap α}
    (h : SMapSorted m) : SMapSorted (m.filter p) :=
  List.Pairwise.sublist (List.filter_sublist m) h

theorem keys_nodup_of_sorted {α : Type} {m : SMap α} (h : SMapSorted m) :
    (m.map Prod.fst).Nodup :=
  List.pairwise_map.mpr (h.imp (fun hab => strLt_ne hab))

theorem lookupS_of_mem_sorted {α : Type} : ∀ {m : SMap α}, SMapSorted m →
    ∀ {k : Str} {v : α}, (k, v) ∈ m → lookupS m k = some v := by
  intro m
  induction m with
  | nil =>
    intro _ k v h
    exact absurd h (by simp)
  | cons kv rest ih =>
    intro hs k v h
    obtain ⟨k', v'⟩ := kv
    rcases hs with - | ⟨hall, htl⟩
    rcases List.mem_cons.mp h with heq | hmem
    · rw [show k = k' from congrArg Prod.fst heq,
        show v = v' from congrArg Prod.snd heq]
      simp [lookupS]
    · have hlt := hall _ hmem
      have hne : k ≠ k' := (strLt_ne hlt).symm
      simp only [lookupS, if_neg hne]
      exact ih htl hmem

theorem SMapSorted_foldl_localizedStep (pre : Str) :
    ∀ (ks : List Str) (acc : SMap Str × SMap Str), SMapSorted acc.1 →
      SMapSorted (ks.foldl (localizedStep pre) acc).1 := by
  intro ks
  induction ks with
  | nil => intro acc h; exact h
  | cons k ks ih =>
    intro acc h
    simp only [List.foldl_cons]
    apply ih
    simp only [localizedStep]
    cases hlk : lookupS acc.2 k with
    | none => exact h
    | some v =>
      by_cases hk : k = pre
      · simp only [if_pos hk]
        exact SMapSorted_insertSorted h _ _
      · simp only [if_neg hk]
        cases afterBracket k with
        | none => exact h
        | some rest => exact SMapSorted_insertSorted h _ _

theorem foldl_oOr_const {α β : Type} (f : β → Option α) (v : α) :
    ∀ (ks : List β), (∀ k ∈ ks, f k = none ∨ f k = some v) →
      (∃ k ∈ ks, f k = some v) →
      ks.foldl (fun o k => oOr (f k) o) none = some v := by
  intro ks
  induction ks with
  | nil =>
    rintro _ ⟨k, hk, -⟩
    exact absurd hk (by simp)
  | cons k ks ih =>
    intro hall hex
    simp only [List.foldl_cons]
    rw [foldl_oOr_shift]
    by_cases hks : ∃ k' ∈ ks, f k' = some v
    · rw [ih (fun k' h => hall k' (List.mem_cons_of_mem _ h)) hks]
      rfl
    · have hnone : ∀ k' ∈ ks, f k' = none := by
        intro k' hk'
        rcases hall k' (List.mem_cons_of_mem _ hk') with h | h
        · exact h
        · exact absurd ⟨k', hk', h⟩ hks
      rw [foldl_oOr_none _ _ _ hnone]
      rcases hex with ⟨k', hk', hfk'⟩
      rcases List.mem_cons.mp hk' with heq | hmem
      · rw [heq] at hfk'
        rw [hfk']
        rfl
      · exact absurd ⟨k', hmem, hfk'⟩ hks

theorem insVal_char {pre : Str} (hp : '[' ∉ pre) {m : SMap Str}
    {lm : LocaleMap}
    (hchar : ∀ q, localizedMatches pre q = true →
      lookupS m q = locValue pre lm q)
    {k : Str} (hmk : localizedMatches pre k = true) (loc : Str) :
    insVal m pre loc k = none ∨ insVal m pre loc k = lookupS lm loc := by
  cases hlk : lookupS m k with
  | none =>
    left
    simp only [insVal, hlk]
  | some w =>
    have hw : locValue pre lm k = some w := by
      rw [← hchar k hmk, hlk]
    rcases matched_decompose hp hmk with hkp | ⟨t, hkt⟩
    · subst k
      rw [show locValue pre lm pre = lookupS lm [] from by
        simp [locValue]] at hw
      by_cases hl : loc = []
      · right
        subst hl
        simp [insVal, hlk, hw]
      · left
        simp [insVal, hlk, hl]
    · subst k
      have hne : pre ++ '[' :: (t ++ [']']) ≠ pre :=
        append_ne_self_of_ne_nil (by simp)
      rw [locValue_bracket pre hp lm t] at hw
      simp only [insVal, hlk, if_neg hne, afterBracket_append hp,
        List.dropLast_concat]
      by_cases hl : loc = t
      · right
        rw [if_pos hl, hl]
        by_cases ht : t = []
        · rw [if_pos ht] at hw
          exact absurd hw (by simp)
        · rw [if_neg ht] at hw
          rw [hw]
      · left
        rw [if_neg hl]

theorem insVal_lmKey {pre : Str} (hp : '[' ∉ pre) {m : SMap Str}
    {lm : LocaleMap}
    (hchar : ∀ q, localizedMatches pre q = true →
      lookupS m q = locValue pre lm q)
    (loc : Str) :
    insVal m pre loc (lmKey pre loc) = lookupS lm loc := by
  have hm := localizedMatches_lmKey pre loc
  have h1 : lookupS m (lmKey pre loc) = lookupS lm loc := by
    rw [hchar _ hm, locValue_lmKey pre hp lm loc]
  by_cases hl : loc = []
  · subst hl
    rw [show lmKey pre [] = pre from by simp [lmKey]] at h1 ⊢
    cases hv : lookupS lm [] with
    | none =>
      rw [hv] at h1
      simp [insVal, h1]
    | some v =>
      rw [hv] at h1
      simp [insVal, h1]
  · rw [show lmKey pre loc = pre ++ '[' :: (loc ++ [']']) from by
      simp [lmKey, hl]] at h1 ⊢
    have hne : pre ++ '[' :: (loc ++ [']']) ≠ pre :=
      append_ne_self_of_ne_nil (by simp)
    cases hv : lookupS lm loc with
    | none =>
      rw [hv] at h1
      simp [insVal, h1, hne, afterBracket_append hp, List.dropLast_concat]
    | some v =>
      rw [hv] at h1
      simp [insVal, h1, hne, afterBracket_append hp, List.dropLast_concat]

theorem mem_removeList_matched {pre : Str} {m : SMap Str} {k : Str}
    (hk : k ∈ (m.filter (fun kv => localizedMatches pre kv.1)).map Prod.fst) :
    localizedMatches pre k = true := by
  rcases List.mem_map.mp hk with ⟨kv, hkv, hfst⟩
  rw [← hfst]
  exact (List.mem_filter.mp hkv).2

theorem mem_removeList_of_lookup {pre : Str} {m : SMap Str} {k : Str} {v : Str}
    (h : lookupS m k = some v) (hm : localizedMatches pre k = true) :
    k ∈ (m.filter (fun kv => localizedMatches pre kv.1)).map Prod.fst :=
  List.mem_map_of_mem _ (List.mem_filter.mpr ⟨lookupS_mem h, hm⟩)

/-- Exact extraction: when every matching key of a sorted map carries the
value the locale map `lm` prescribes (`locValue`), and `lm` is sorted and
nonempty, `deserialize_localized` returns exactly `lm`. -/
theorem deserialize_localized_exact {pre : Str} (hp : '[' ∉ pre)
    {m : SMap Str} (hms : SMapSorted m) {lm : LocaleMap}
    (hlms : SMapSorted lm) (hne : lm ≠ [])
    (hchar : ∀ q, localizedMatches pre q = true →
      lookupS m q = locValue pre lm q) :
    (deserialize_localized pre m).1 = some lm := by
  have hnd : ((m.filter (fun kv => localizedMatches pre kv.1)).map
      Prod.fst).Nodup :=
    keys_nodup_of_sorted (SMapSorted_filter _ hms)
  have htrne : (m.filter (fun kv => localizedMatches pre kv.1)).map
      Prod.fst ≠ [] := by
    obtain ⟨⟨loc0, v0⟩, lmtl, rfl⟩ := List.exists_cons_of_ne_nil hne
    have hl0 : lookupS ((loc0, v0) :: lmtl) loc0 = some v0 := by
      simp [lookupS]
    have hk0 : lookupS m (lmKey pre loc0) = some v0 := by
      rw [hchar _ (localizedMatches_lmKey pre loc0),
        locValue_lmKey pre hp _ loc0, hl0]
    intro hc
    have := mem_removeList_of_lookup hk0 (localizedMatches_lmKey pre loc0)
    rw [hc] at this
    exact absurd this (by simp)
  simp only [deserialize_localized, if_neg htrne]
  have hr1s : SMapSorted (((m.filter
      (fun kv => localizedMatches pre kv.1)).map Prod.fst).foldl
      (localizedStep pre) ([], m)).1 :=
    SMapSorted_foldl_localizedStep pre _ _ (by simp [SMapSorted])
  congr 1
  apply SMap_ext hr1s hlms
  intro q
  rw [lookupS_foldl_localizedStep pre q _ hnd [] m]
  rw [show lookupS ([] : SMap Str) q = none from rfl, oOr_none_right]
  cases hv : lookupS lm q with
  | none =>
    apply foldl_oOr_none
    intro k hk
    rcases insVal_char hp hchar (mem_removeList_matched hk) q with h | h
    · exact h
    · rw [h, hv]
  | some v =>
    apply foldl_oOr_const _ v
    · intro k hk
      rcases insVal_char hp hchar (mem_removeList_matched hk) q with h | h
      · exact Or.inl h
      · rw [h, hv]
        exact Or.inr rfl
    · refine ⟨lmKey pre q, ?_, ?_⟩
      · apply mem_removeList_of_lookup (v := v) _
          (localizedMatches_lmKey pre q)
        rw [hchar _ (localizedMatches_lmKey pre q),
          locValue_lmKey pre hp lm q, hv]
      · rw [insVal_lmKey hp hchar q, hv]

/-- Trivial extraction: when no key of a sorted map matches the prefix,
`deserialize_localized` returns nothing and leaves the map unchanged. -/
theorem deserialize_localized_nomatch {pre : Str} {m : SMap Str}
    (hms : SMapSorted m)
    (hchar : ∀ q, localizedMatches pre q = true → lookupS m q = none) :
    deserialize_localized pre m = (none, m) := by
  have htr : m.filter (fun kv => localizedMatches pre kv.1) = [] := by
    apply List.filter_eq_nil.mpr
    intro kv hkv
    intro hmk
    have h1 : lookupS m kv.1 = none := hchar _ (by simpa using hmk)
    have h2 : lookupS m kv.1 = some kv.2 := lookupS_of_mem_sorted hms
      (by rw [show (kv.1, kv.2) = kv from rfl]; exact hkv)
    rw [h1] at h2
    exact Option.noConfusion h2
  simp only [deserialize_localized, htr]
  rfl

theorem WFLm_sorted {o : Option LocaleMap} (h : WFLm o) :
    ∀ lm, o = some lm → SMapSorted lm := by
  intro lm hlm
  cases o with
  | none => exact absurd hlm (by simp)
  | some lm2 =>
    injection hlm with h2
    subst h2
    exact h.1

theorem WFList_elems {o : Option SemicolonList} (h : WFList o) :
    ∀ l, o = some l → ∀ x ∈ l, listElemOk x := by
  intro l hl
  cases o with
  | none => exact absurd hl (by simp)
  | some l2 =>
    injection hl with h2
    subst h2
    exact h

/-! ### Stage peeling -/
theorem lookupS_filter_notMatched (pre : Str) (m : SMap Str) (q : Str) :
    lookupS (m.filter (fun kv => !(localizedMatches pre kv.1))) q
      = if localizedMatches pre q = true then none else lookupS m q := by
  refine Eq.trans
    (lookupS_filter_key (fun k => !(localizedMatches pre k)) m q) ?_
  cases hm : localizedMatches pre q <;> simp [hm]

theorem deserialize_localized_opt {pre : Str} (hp : '[' ∉ pre)
    {m : SMap Str} (hms : SMapSorted m) {o : Option LocaleMap}
    (ho : WFLm o)
    (hchar : ∀ q, localizedMatches pre q = true →
      lookupS m q = optLocValue pre o q) :
    (deserialize_localized pre m).1 = o := by
  cases o with
  | none =>
    rw [deserialize_localized_nomatch hms (fun q hq => by
      rw [hchar q hq]; rfl)]
  | some lm =>
    exact deserialize_localized_exact hp hms ho.1 ho.2
      (fun q hq => hchar q hq)

/-! ### Evaluating `mLook` at the declared keys -/
theorem mLook_at_Type (e : DesktopEntry) : mLook e (str "Type") = some e.entry_type := by
  simp only [mLook,
    show (localizedMatches (str "Name") (str "Type") = true) = False from eq_false (by decide),
    show (localizedMatches (str "GenericName") (str "Type") = true) = False from eq_false (by decide),
    show (localizedMatches (str "Comment") (str "Type") = true) = False from eq_false (by decide),
    show (localizedMatches (str "Icon") (str "Type") = true) = False from eq_false (by decide),
    show (localizedMatches (str "Keywords") (str "Type") = true) = False from eq_false (by decide),
    show (str "Type" = str "Type") = True from eq_true rfl,
    if_false, if_true]

theorem mLook_at_Version (e : DesktopEntry) : mLook e (str "Version") = e.version := by
  simp only [mLook,
    show (localizedMatches (str "Name") (str "Version") = true) = False from eq_false (by decide),
    show (localizedMatches (str "GenericName") (str "Version") = true) = False from eq_false (by decide),
    show (localizedMatches (str "Comment") (str "Version") = true) = False from eq_false (by decide),
    show (localizedMatches (str "Icon") (str "Version") = true) = False from eq_false (by decide),
    show (localizedMatches (str "Keywords") (str "Version") = true) = False from eq_false (by decide),
    show (str "Version" = str "Type") = False from eq_false (by decide),
    show (str "Version" = str "Version") = True from eq_true rfl,
    if_false, if_true]

theorem mLook_at_NoDisplay (e : DesktopEntry) : mLook e (str "NoDisplay") = e.no_display.map boolStr := by
  simp only [mLook,
    show (localizedMatches (str "Name") (str "NoDisplay") = true) = False from eq_false (by decide),
    show (localizedMatches (str "GenericName") (str "NoDisplay") = true) = False from eq_false (by decide),
    show (localizedMatches (str "Comment") (str "NoDisplay") = true) = False from eq_false (by decide),
    show (localizedMatches (str "Icon") (str "NoDisplay") = true) = False from eq_false (by decide),
    show (localizedMatches (str "Keywords") (str "NoDisplay") = true) = False from eq_false (by decide),
    show (str "NoDisplay" = str "Type") = False from eq_false (by decide),
    show (str "NoDisplay" = str "Version") = False from eq_false (by decide),
    show (str "NoDisplay" = str "NoDisplay") = True from eq_true rfl,
    if_false, if_true]

theorem mLook_at_Hidden (e : DesktopEntry) : mLook e (str "Hidden") = e.hidden.map boolStr := by
  simp only [mLook,
    show (localizedMatches (str "Name") (str "Hidden") = true) = False from eq_false (by decide),
    show (localizedMatches (str "GenericName") (str "Hidden") = true) = False from eq_false (by decide),
    show (localizedMatches (str "Comment") (str "Hidden") = true) = False from eq_false (by decide),
    show (localizedMatches (str "Icon") (str "Hidden") = true) = False from eq_false (by decide),
    show (localizedMatches (str "Keywords") (str "Hidden") = true) = False from eq_false (by decide),
    show (str "Hidden" = str "Type") = False from eq_false (by decide),
    show (str "Hidden" = str "Version") = False from eq_false (by decide),
    show (str "Hidden" = str "NoDisplay") = False from eq_false (by decide),
    show (str "Hidden" = str "Hidden") = True from eq_true rfl,
    if_false, if_true]

theorem mLook_at_OnlyShowIn (e : DesktopEntry) : mLook e (str "OnlyShowIn") = e.only_show_in.map listFieldText := by
  simp only [mLook,
    show (localizedMatches (str "Name") (str "OnlyShowIn") = true) = False from eq_false (by decide),
    show (localizedMatches (str "GenericName") (str "OnlyShowIn") = true) = False from eq_false (by decide),
    show (localizedMatches (str "Comment") (str "OnlyShowIn") = true) = False from eq_false (by decide),
    show (localizedMatches (str "Icon") (str "OnlyShowIn") = true) = False from eq_false (by decide),
    show (localizedMatches (str "Keywords") (str "OnlyShowIn") = true) = False from eq_false (by decide),
    show (str "OnlyShowIn" = str "Type") = False from eq_false (by decide),
    show (str "OnlyShowIn" = str "Version") = False from eq_false (by decide),
    show (str "OnlyShowIn" = str "NoDisplay") = False from eq_false (by decide),
    show (str "OnlyShowIn" = str "Hidden") = False from eq_false (by decide),
    show (str "OnlyShowIn" = str "OnlyShowIn") = True from eq_true rfl,
    if_false, if_true]

theorem mLook_at_NotShowIn (e : DesktopEntry) : mLook e (str "NotShowIn") = e.not_show_in.map listFieldText := by
  simp only [mLook,
    show (localizedMatches (str "Name") (str "NotShowIn") = true) = False from eq_false (by decide),
    show (localizedMatches (str "GenericName") (str "NotShowIn") = true) = False from eq_false (by decide),
    show (localizedMatches (str "Comment") (str "NotShowIn") = true) = False from eq_false (by decide),
    show (localizedMatches (str "Icon") (str "NotShowIn") = true) = False from eq_false (by decide),
    show (localizedMatches (str "Keywords") (str "NotShowIn") = true) = False from eq_false (by decide),
    show (str "NotShowIn" = str "Type") = False from eq_false (by decide),
    show (str "NotShowIn" = str "Version") = False from eq_false (by decide),
    show (str "NotShowIn" = str "NoDisplay") = False from eq_false (by decide),
    show (str "NotShowIn" = str "Hidden") = False from eq_false (by decide),
    show (str "NotShowIn" = str "OnlyShowIn") = False from eq_false (by decide),
    show (str "NotShowIn" = str "NotShowIn") = True from eq_true rfl,
    if_false, if_true]

theorem mLook_at_DBusActivatable (e : DesktopEntry) : mLook e (str "DBusActivatable") = e.dbus_activatable.map boolStr := by
  simp only [mLook,
    show (localizedMatches (str "Name") (str "DBusActivatable") = true) = False from eq_false (by decide),
    show (localizedMatches (str "GenericName") (str "DBusActivatable") = true) = False from eq_false (by decide),
    show (localizedMatches (str "Comment") (str "DBusActivatable") = true) = False from eq_false (by decide),
    show (localizedMatches (str "Icon") (str "DBusActivatable") = true) = False from eq_false (by decide),
    show (localizedMatches (str "Keywords") (str "DBusActivatable") = true) = False from eq_false (by decide),
    show (str "DBusActivatable" = str "Type") = False from eq_false (by decide),
    show (str "DBusActivatable" = str "Version") = False from eq_false (by decide),
    show (str "DBusActivatable" = str "NoDisplay") = False from eq_false (by decide),
    show (str "DBusActivatable" = str "Hidden") = False from eq_false (by decide),
    show (str "DBusActivatable" = str "OnlyShowIn") = False from eq_false (by decide),
    show (str "DBusActivatable" = str "NotShowIn") = False from eq_false (by decide),
    show (str "DBusActivatable" = str "DBusActivatable") = True from eq_true rfl,
    if_false, if_true]

theorem mLook_at_TryExec (e : DesktopEntry) : mLook e (str "TryExec") = e.try_exec := by
  simp only [mLook,
    show (localizedMatches (str "Name") (str "TryExec") = true) = False from eq_false (by decide),
    show (localizedMatches (str "GenericName") (str "TryExec") = true) = False from eq_false (by decide),
    show (localizedMatches (str "Comment") (str "TryExec") = true) = False from eq_false (by decide),
    show (localizedMatches (str "Icon") (str "TryExec") = true) = False from eq_false (by decide),
    show (localizedMatches (str "Keywords") (str "TryExec") = true) = False from eq_false (by decide),
    show (str "TryExec" = str "Type") = False from eq_false (by decide),
    show (str "TryExec" = str "Version") = False from eq_false (by decide),
    show (str "TryExec" = str "NoDisplay") = False from eq_false (by decide),
    show (str "TryExec" = str "Hidden") = False from eq_false (by decide),
    show (str "TryExec" = str "OnlyShowIn") = False from eq_false (by decide),
    show (str "TryExec" = str "NotShowIn") = False from eq_false (by decide),
    show (str "TryExec" = str "DBusActivatable") = False from eq_false (by decide),
    show (str "TryExec" = str "TryExec") = True from eq_true rfl,
    if_false, if_true]

theorem mLook_at_Exec (e : DesktopEntry) : mLook e (str "Exec") = e.exec := by
  simp only [mLook,
    show (localizedMatches (str "Name") (str "Exec") = true) = False from eq_false (by decide),
    show (localizedMatches (str "GenericName") (str "Exec") = true) = False from eq_false (by decide),
    show (localizedMatches (str "Comment") (str "Exec") = true) = False from eq_false (by decide),
    show (localizedMatches (str "Icon") (str "Exec") = true) = False from eq_false (by decide),
    show (localizedMatches (str "Keywords") (str "Exec") = true) = False from eq_false (by decide),
    show (str "Exec" = str "Type") = False from eq_false (by decide),
    show (str "Exec" = str "Version") = False from eq_false (by decide),
    show (str "Exec" = str "NoDisplay") = False from eq_false (by decide),
    show (str "Exec" = str "Hidden") = False from eq_false (by decide),
    show (str "Exec" = str "OnlyShowIn") = False from eq_false (by decide),
    show (str "Exec" = str "NotShowIn") = False from eq_false (by decide),
    show (str "Exec" = str "DBusActivatable") = False from eq_false (by decide),
    show (str "Exec" = str "TryExec") = False from eq_false (by decide),
    show (str "Exec" = str "Exec") = True from eq_true rfl,
    if_false, if_true]

theorem mLook_at_Path (e : DesktopEntry) : mLook e (str "Path") = e.path := by
  simp only [mLook,
    show (localizedMatches (str "Name") (str "Path") = true) = False from eq_false (by decide),
    show (localizedMatches (str "GenericName") (str "Path") = true) = False from eq_false (by decide),
    show (localizedMatches (str "Comment") (str "Path") = true) = False from eq_false (by decide),
    show (localizedMatches (str "Icon") (str "Path") = true) = False from eq_false (by decide),
    show (localizedMatches (str "Keywords") (str "Path") = true) = False from eq_false (by decide),
    show (str "Path" = str "Type") = False from eq_false (by decide),
    show (str "Path" = str "Version") = False from eq_false (by decide),
    show (str "Path" = str "NoDisplay") = False from eq_false (by decide),
    show (str "Path" = str "Hidden") = False from eq_false (by decide),
    show (str "Path" = str "OnlyShowIn") = False from eq_false (by decide),
    show (str "Path" = str "NotShowIn") = False from eq_false (by decide),
    show (str "Path" = str "DBusActivatable") = False from eq_false (by decide),
    show (str "Path" = str "TryExec") = False from eq_false (by decide),
    show (str "Path" = str "Exec") = False from eq_false (by decide),
    show (str "Path" = str "Path") = True from eq_true rfl,
    if_false, if_true]

theorem mLook_at_Terminal (e : DesktopEntry) : mLook e (str "Terminal") = e.terminal.map boolStr := by
  simp only [mLook,
    show (localizedMatches (str "Name") (str "Terminal") = true) = False from eq_false (by decide),
    show (localizedMatches (str "GenericName") (str "Terminal") = true) = False from eq_false (by decide),
    show (localizedMatches (str "Comment") (str "Terminal") = true) = False from eq_false (by decide),
    show (localizedMatches (str "Icon") (str "Terminal") = true) = False from eq_false (by decide),
    show (localizedMatches (str "Keywords") (str "Terminal") = true) = False from eq_false (by decide),
    show (str "Terminal" = str "Type") = False from eq_false (by decide),
    show (str "Terminal" = str "Version") = False from eq_false (by decide),
    show (str "Terminal" = str "NoDisplay") = False from eq_false (by decide),
    show (str "Terminal" = str "Hidden") = False from eq_false (by decide),
    show (str "Terminal" = str "OnlyShowIn") = False from eq_false (by decide),
    show (str "Terminal" = str "NotShowIn") = False from eq_false (by decide),
    show (str "Terminal" = str "DBusActivatable") = False from eq_false (by decide),
    show (str "Terminal" = str "TryExec") = False from eq_false (by decide),
    show (str "Terminal" = str "Exec") = False from eq_false (by decide),
    show (str "Terminal" = str "Path") = False from eq_false (by decide),
    show (str "Terminal" = str "Terminal") = True from eq_true rfl,
    if_false, if_true]

theorem mLook_at_Actions (e : DesktopEntry) : mLook e (str "Actions") = e.actions.map listFieldText := by
  simp only [mLook,
    show (localizedMatches (str "Name") (str "Actions") = true) = False from eq_false (by decide),
    show (localizedMatches (str "GenericName") (str "Actions") = true) = False from eq_false (by decide),
    show (localizedMatches (str "Comment") (str "Actions") = true) = False from eq_false (by decide),
    show (localizedMatches (str "Icon") (str "Actions") = true) = False from eq_false (by decide),
    show (localizedMatches (str "Keywords") (str "Actions") = true) = False from eq_false (by decide),
    show (str "Actions" = str "Type") = False from eq_false (by decide),
    show (str "Actions" = str "Version") = False from eq_false (by decide),
    show (str "Actions" = str "NoDisplay") = False from eq_false (by decide),
    show (str "Actions" = str "Hidden") = False from eq_false (by decide),
    show (str "Actions" = str "OnlyShowIn") = False from eq_false (by decide),
    show (str "Actions" = str "NotShowIn") = False from eq_false (by decide),
    show (str "Actions" = str "DBusActivatable") = False from eq_false (by decide),
    show (str "Actions" = str "TryExec") = False from eq_false (by decide),
    show (str "Actions" = str "Exec") = False from eq_false (by decide),
    show (str "Actions" = str "Path") = False from eq_false (by decide),
    show (str "Actions" = str "Terminal") = False from eq_false (by decide),
    show (str "Actions" = str "Actions") = True from eq_true rfl,
    if_false, if_true]

theorem mLook_at_MimeType (e : DesktopEntry) : mLook e (str "MimeType") = e.mime_type.map listFieldText := by
  simp only [mLook,
    show (localizedMatches (str "Name") (str "MimeType") = true) = False from eq_false (by decide),
    show (localizedMatches (str "GenericName") (str "MimeType") = true) = False from eq_false (by decide),
    show (localizedMatches (str "Comment") (str "MimeType") = true) = False from eq_false (by decide),
    show (localizedMatches (str "Icon") (str "MimeType") = true) = False from eq_false (by decide),
    show (localizedMatches (str "Keywords") (str "MimeType") = true) = False from eq_false (by decide),
    show (str "MimeType" = str "Type") = False from eq_false (by decide),
    show (str "MimeType" = str "Version") = False from eq_false (by decide),
    show (str "MimeType" = str "NoDisplay") = False from eq_false (by decide),
    show (str "MimeType" = str "Hidden") = False from eq_false (by decide),
    show (str "MimeType" = str "OnlyShowIn") = False from eq_false (by decide),
    show (str "MimeType" = str "NotShowIn") = False from eq_false (by decide),
    show (str "MimeType" = str "DBusActivatable") = False from eq_false (by decide),
    show (str "MimeType" = str "TryExec") = False from eq_false (by decide),
    show (str "MimeType" = str "Exec") = False from eq_false (by decide),
    show (str "MimeType" = str "Path") = False from eq_false (by decide),
    show (str "MimeType" = str "Terminal") = False from eq_false (by decide),
    show (str "MimeType" = str "Actions") = False from eq_false (by decide),
    show (str "MimeType" = str "MimeType") = True from eq_true rfl,
    if_false, if_true]

theorem mLook_at_Categories (e : DesktopEntry) : mLook e (str "Categories") = e.categories.map listFieldText := by
  simp only [mLook,
    show (localizedMatches (str "Name") (str "Categories") = true) = False from eq_false (by decide),
    show (localizedMatches (str "GenericName") (str "Categories") = true) = False from eq_false (by decide),
    show (localizedMatches (str "Comment") (str "Categories") = true) = False from eq_false (by decide),
    show (localizedMatches (str "Icon") (str "Categories") = true) = False from eq_false (by decide),
    show (localizedMatches (str "Keywords") (str "Categories") = true) = False from eq_false (by decide),
    show (str "Categories" = str "Type") = False from eq_false (by decide),
    show (str "Categories" = str "Version") = False from eq_false (by decide),
    show (str "Categories" = str "NoDisplay") = False from eq_false (by decide),
    show (str "Categories" = str "Hidden") = False from eq_false (by decide),
    show (str "Categories" = str "OnlyShowIn") = False from eq_false (by decide),
    show (str "Categories" = str "NotShowIn") = False from eq_false (by decide),
    show (str "Categories" = str "DBusActivatable") = False from eq_false (by decide),
    show (str "Categories" = str "TryExec") = False from eq_false (by decide),
    show (str "Categories" = str "Exec") = False from eq_false (by decide),
    show (str "Categories" = str "Path") = False from eq_false (by decide),
    show (str "Categories" = str "Terminal") = False from eq_false (by decide),
    show (str "Categories" = str "Actions") = False from eq_false (by decide),
    show (str "Categories" = str "MimeType") = False from eq_false (by decide),
    show (str "Categories" = str "Categories") = True from eq_true rfl,
    if_false, if_true]

theorem mLook_at_Implements (e : DesktopEntry) : mLook e (str "Implements") = e.implements.map listFieldText := by
  simp only [mLook,
    show (localizedMatches (str "Name") (str "Implements") = true) = False from eq_false (by decide),
    show (localizedMatches (str "GenericName") (str "Implements") = true) = False from eq_false (by decide),
    show (localizedMatches (str "Comment") (str "Implements") = true) = False from eq_false (by decide),
    show (localizedMatches (str "Icon") (str "Implements") = true) = False from eq_false (by decide),
    show (localizedMatches (str "Keywords") (str "Implements") = true) = False from eq_false (by decide),
    show (str "Implements" = str "Type") = False from eq_false (by decide),
    show (str "Implements" = str "Version") = False from eq_false (by decide),
    show (str "Implements" = str "NoDisplay") = False from eq_false (by decide),
    show (str "Implements" = str "Hidden") = False from eq_false (by decide),
    show (str "Implements" = str "OnlyShowIn") = False from eq_false (by decide),
    show (str "Implements" = str "NotShowIn") = False from eq_false (by decide),
    show (str "Implements" = str "DBusActivatable") = False from eq_false (by decide),
    show (str "Implements" = str "TryExec") = False from eq_false (by decide),
    show (str "Implements" = str "Exec") = False from eq_false (by decide),
    show (str "Implements" = str "Path") = False from eq_false (by decide),
    show (str "Implements" = str "Terminal") = False from eq_false (by decide),
    show (str "Implements" = str "Actions") = False from eq_false (by decide),
    show (str "Implements" = str "MimeType") = False from eq_false (by decide),
    show (str "Implements" = str "Categories") = False from eq_false (by decide),
    show (str "Implements" = str "Implements") = True from eq_true rfl,
    if_false, if_true]

theorem mLook_at_StartupNotify (e : DesktopEntry) : mLook e (str "StartupNotify") = e.startup_notify.map boolStr := by
  simp only [mLook,
    show (localizedMatches (str "Name") (str "StartupNotify") = true) = False from eq_false (by decide),
    show (localizedMatches (str "GenericName") (str "StartupNotify") = true) = False from eq_false (by decide),
    show (localizedMatches (str "Comment") (str "StartupNotify") = true) = False from eq_false (by decide),
    show (localizedMatches (str "Icon") (str "StartupNotify") = true) = False from eq_false (by decide),
    show (localizedMatches (str "Keywords") (str "StartupNotify") = true) = False from eq_false (by decide),
    show (str "StartupNotify" = str "Type") = False from eq_false (by decide),
    show (str "StartupNotify" = str "Version") = False from eq_false (by decide),
    show (str "StartupNotify" = str "NoDisplay") = False from eq_false (by decide),
    show (str "StartupNotify" = str "Hidden") = False from eq_false (by decide),
    show (str "StartupNotify" = str "OnlyShowIn") = False from eq_false (by decide),
    show (str "StartupNotify" = str "NotShowIn") = False from eq_false (by decide),
    show (str "StartupNotify" = str "DBusActivatable") = False from eq_false (by decide),
    show (str "StartupNotify" = str "TryExec") = False from eq_false (by decide),
    show (str "StartupNotify" = str "Exec") = False from eq_false (by decide),
    show (str "StartupNotify" = str "Path") = False from eq_false (by decide),
    show (str "StartupNotify" = str "Terminal") = False from eq_false (by decide),
    show (str "StartupNotify" = str "Actions") = False from eq_false (by decide),
    show (str "StartupNotify" = str "MimeType") = False from eq_false (by decide),
    show (str "StartupNotify" = str "Categories") = False from eq_false (by decide),
    show (str "StartupNotify" = str "Implements") = False from eq_false (by decide),
    show (str "StartupNotify" = str "StartupNotify") = True from eq_true rfl,
    if_false, if_true]

theorem mLook_at_StartupWMClass (e : DesktopEntry) : mLook e (str "StartupWMClass") = e.startup_wm_class := by
  simp only [mLook,
    show (localizedMatches (str "Name") (str "StartupWMClass") = true) = False from eq_false (by decide),
    show (localizedMatches (str "GenericName") (str "StartupWMClass") = true) = False from eq_false (by decide),
    show (localizedMatches (str "Comment") (str "StartupWMClass") = true) = False from eq_false (by decide),
    show (localizedMatches (str "Icon") (str "StartupWMClass") = true) = False from eq_false (by decide),
    show (localizedMatches (str "Keywords") (str "StartupWMClass") = true) = False from eq_false (by decide),
    show (str "StartupWMClass" = str "Type") = False from eq_false (by decide),
    show (str "StartupWMClass" = str "Version") = False from eq_false (by decide),
    show (str "StartupWMClass" = str "NoDisplay") = False from eq_false (by decide),
    show (str "StartupWMClass" = str "Hidden") = False from eq_false (by decide),
    show (str "StartupWMClass" = str "OnlyShowIn") = False from eq_false (by decide),
    show (str "StartupWMClass" = str "NotShowIn") = False from eq_false (by decide),
    show (str "StartupWMClass" = str "DBusActivatable") = False from eq_false (by decide),
    show (str "StartupWMClass" = str "TryExec") = False from eq_false (by decide),
    show (str "StartupWMClass" = str "Exec") = False from eq_false (by decide),
    show (str "StartupWMClass" = str "Path") = False from eq_false (by decide),
    show (str "StartupWMClass" = str "Terminal") = False from eq_false (by decide),
    show (str "StartupWMClass" = str "Actions") = False from eq_false (by decide),
    show (str "StartupWMClass" = str "MimeType") = False from eq_false (by decide),
    show (str "StartupWMClass" = str "Categories") = False from eq_false (by decide),
    show (str "StartupWMClass" = str "Implements") = False from eq_false (by decide),
    show (str "StartupWMClass" = str "StartupNotify") = False from eq_false (by decide),
    show (str "StartupWMClass" = str "StartupWMClass") = True from eq_true rfl,
    if_false, if_true]

theorem mLook_at_URL (e : DesktopEntry) : mLook e (str "URL") = e.url := by
  simp only [mLook,
    show (localizedMatches (str "Name") (str "URL") = true) = False from eq_false (by decide),
    show (localizedMatches (str "GenericName") (str "URL") = true) = False from eq_false (by decide),
    show (localizedMatches (str "Comment") (str "URL") = true) = False from eq_false (by decide),
    show (localizedMatches (str "Icon") (str "URL") = true) = False from eq_false (by decide),
    show (localizedMatches (str "Keywords") (str "URL") = true) = False from eq_false (by decide),
    show (str "URL" = str "Type") = False from eq_false (by decide),
    show (str "URL" = str "Version") = False from eq_false (by decide),
    show (str "URL" = str "NoDisplay") = False from eq_false (by decide),
    show (str "URL" = str "Hidden") = False from eq_false (by decide),
    show (str "URL" = str "OnlyShowIn") = False from eq_false (by decide),
    show (str "URL" = str "NotShowIn") = False from eq_false (by decide),
    show (str "URL" = str "DBusActivatable") = False from eq_false (by decide),
    show (str "URL" = str "TryExec") = False from eq_false (by decide),
    show (str "URL" = str "Exec") = False from eq_false (by decide),
    show (str "URL" = str "Path") = False from eq_false (by decide),
    show (str "URL" = str "Terminal") = False from eq_false (by decide),
    show (str "URL" = str "Actions") = False from eq_false (by decide),
    show (str "URL" = str "MimeType") = False from eq_false (by decide),
    show (str "URL" = str "Categories") = False from eq_false (by decide),
    show (str "URL" = str "Implements") = False from eq_false (by decide),
    show (str "URL" = str "StartupNotify") = False from eq_false (by decide),
    show (str "URL" = str "StartupWMClass") = False from eq_false (by decide),
    show (str "URL" = str "URL") = True from eq_true rfl,
    if_false, if_true]

theorem mLook_at_PrefersNonDefaultGPU (e : DesktopEntry) : mLook e (str "PrefersNonDefaultGPU") = e.prefers_non_default_gpu.map boolStr := by
  simp only [mLook,
    show (localizedMatches (str "Name") (str "PrefersNonDefaultGPU") = true) = False from eq_false (by decide),
    show (localizedMatches (str "GenericName") (str "PrefersNonDefaultGPU") = true) = False from eq_false (by decide),
    show (localizedMatches (str "Comment") (str "PrefersNonDefaultGPU") = true) = False from eq_false (by decide),
    show (localizedMatches (str "Icon") (str "PrefersNonDefaultGPU") = true) = False from eq_false (by decide),
    show (localizedMatches (str "Keywords") (str "PrefersNonDefaultGPU") = true) = False from eq_false (by decide),
    show (str "PrefersNonDefaultGPU" = str "Type") = False from eq_false (by decide),
    show (str "PrefersNonDefaultGPU" = str "Version") = False from eq_false (by decide),
    show (str "PrefersNonDefaultGPU" = str "NoDisplay") = False from eq_false (by decide),
    show (str "PrefersNonDefaultGPU" = str "Hidden") = False from eq_false (by decide),
    show (str "PrefersNonDefaultGPU" = str "OnlyShowIn") = False from eq_false (by decide),
    show (str "PrefersNonDefaultGPU" = str "NotShowIn") = False from eq_false (by decide),
    show (str "PrefersNonDefaultGPU" = str "DBusActivatable") = False from eq_false (by decide),
    show (str "PrefersNonDefaultGPU" = str "TryExec") = False from eq_false (by decide),
    show (str "PrefersNonDefaultGPU" = str "Exec") = False from eq_false (by decide),
    show (str "PrefersNonDefaultGPU" = str "Path") = False from eq_false (by decide),
    show (str "PrefersNonDefaultGPU" = str "Terminal") = False from eq_false (by decide),
    show (str "PrefersNonDefaultGPU" = str "Actions") = False from eq_false (by decide),
    show (str "PrefersNonDefaultGPU" = str "MimeType") = False from eq_false (by decide),
    show (str "PrefersNonDefaultGPU" = str "Categories") = False from eq_false (by decide),
    show (str "PrefersNonDefaultGPU" = str "Implements") = False from eq_false (by decide),
    show (str "PrefersNonDefaultGPU" = str "StartupNotify") = False from eq_false (by decide),
    show (str "PrefersNonDefaultGPU" = str "StartupWMClass") = False from eq_false (by decide),
    show (str "PrefersNonDefaultGPU" = str "URL") = False from eq_false (by decide),
    show (str "PrefersNonDefaultGPU" = str "PrefersNonDefaultGPU") = True from eq_true rfl,
    if_false, if_true]

theorem insertSorted_of_all_lt {α : Type} {m : SMap α} {k : Str}
    (h : ∀ kv ∈ m, strLt kv.1 k = true) (v : α) :
    insertSorted k v m = m ++ [(k, v)] := by
  induction m with
  | nil => rfl
  | cons kv rest ih =>
    obtain ⟨k2, v2⟩ := kv
    have h1 := h _ (List.mem_cons_self _ _)
    simp only [insertSorted]
    rw [if_neg (bfalse_not_true (strLt_asymm h1)),
      if_neg (Ne.symm (strLt_ne h1)),
      ih (fun kv hkv => h _ (List.mem_cons_of_mem _ hkv))]
    rfl

/-! ### The entry round-trip -/
/-- Any sorted map whose lookups agree pointwise with the field view
`mLook e` parses to exactly `e`. -/
theorem deserialize_entry_of_char (e : DesktopEntry) (hWF : WFEntry e)
    {m : SMap Str} (hms : SMapSorted m)
    (hchar : ∀ q, lookupS m q = mLook e q) :
    deserialize_desktop_entry m = Except.ok e := by
  obtain ⟨hnS, hnNe, hgn, hcm, hic, hkw, hosi, hnsi, hact, hmt, hcat,
    himp, hothS, hothK⟩ := hWF
  have hfst1 : (deserialize_localized (str "Name") m).1 = some e.name := by
    apply deserialize_localized_exact (by decide) hms hnS hnNe
    intro q hq
    rw [hchar q]
    simp only [mLook, if_pos hq]
  have hsnd1 : (deserialize_localized (str "Name") m).2 = (m.filter (fun kv => !(localizedMatches (str "Name") kv.1))) :=
    deserialize_localized_snd _ _
  have hfst2 : (deserialize_localized (str "GenericName") (m.filter (fun kv => !(localizedMatches (str "Name") kv.1)))).1 = e.generic_name := by
    apply deserialize_localized_opt (by decide) (SMapSorted_filter _ hms) hgn
    intro q hq
    rw [lookupS_filter_notMatched (str "Name") m q,
      if_neg (bfalse_not_true (not_matched_of_matched hq (by decide) (str "Name") (by decide) (by decide)))]
    rw [hchar q]
    simp only [mLook,
      if_neg (bfalse_not_true (not_matched_of_matched hq (by decide) (str "Name") (by decide) (by decide))),
      if_pos hq]
  have hsnd2 : (deserialize_localized (str "GenericName") (m.filter (fun kv => !(localizedMatches (str "Name") kv.1)))).2 = ((m.filter (fun kv => !(localizedMatches (str "Name") kv.1))).filter (fun kv => !(localizedMatches (str "GenericName") kv.1))) :=
    deserialize_localized_snd _ _
  have hfst3 : (deserialize_localized (str "Comment") ((m.filter (fun kv => !(localizedMatches (str "Name") kv.1))).filter (fun kv => !(localizedMatches (str "GenericName") kv.1)))).1 = e.comment := by
    apply deserialize_localized_opt (by decide) (SMapSorted_filter _ (SMapSorted_filter _ hms)) hcm
    intro q hq
    rw [lookupS_filter_notMatched (str "GenericName") (m.filter (fun kv => !(localizedMatches (str "Name") kv.1))) q,
      if_neg (bfalse_not_true (not_matched_of_matched hq (by decide) (str "GenericName") (by decide) (by decide)))]
    rw [lookupS_filter_notMatched (str "Name") m q,
      if_neg (bfalse_not_true (not_matched_of_matched hq (by decide) (str "Name") (by decide) (by decide)))]
    rw [hchar q]
    simp only [mLook,
      if_neg (bfalse_not_true (not_matched_of_matched hq (by decide) (str "Name") (by decide) (by decide))),
      if_neg (bfalse_not_true (not_matched_of_matched hq (by decide) (str "GenericName") (by decide) (by decide))),
      if_pos hq]
  have hsnd3 : (deserialize_localized (str "Comment") ((m.filter (fun kv => !(localizedMatches (str "Name") kv.1))).filter (fun kv => !(localizedMatches (str "GenericName") kv.1)))).2 = (((m.filter (fun kv => !(localizedMatches (str "Name") kv.1))).filter (fun kv => !(localizedMatches (str "GenericName") kv.1))).filter (fun kv => !(localizedMatches (str "Comment") kv.1))) :=
    deserialize_localized_snd _ _
  have hfst4 : (deserialize_localized (str "Icon") (((m.filter (fun kv => !(localizedMatches (str "Name") kv.1))).filter (fun kv => !(localizedMatches (str "GenericName") kv.1))).filter (fun kv => !(localizedMatches (str "Comment") kv.1)))).1 = e.icon := by
    apply deserialize_localized_opt (by decide) (SMapSorted_filter _ (SMapSorted_filter _ (SMapSorted_filter _ hms))) hic
    intro q hq
    rw [lookupS_filter_notMatched (str "Comment") ((m.filter (fun kv => !(localizedMatches (str "Name") kv.1))).filter (fun kv => !(localizedMatches (str "GenericName") kv.1))) q,
      if_neg (bfalse_not_true (not_matched_of_matched hq (by decide) (str "Comment") (by decide) (by decide)))]
    rw [lookupS_filter_notMatched (str "GenericName") (m.filter (fun kv => !(localizedMatches (str "Name") kv.1))) q,
      if_neg (bfalse_not_true (not_matched_of_matched hq (by decide) (str "GenericName") (by decide) (by decide)))]
    rw [lookupS_filter_notMatched (str "Name") m q,
      if_neg (bfalse_not_true (not_matched_of_matched hq (by decide) (str "Name") (by decide) (by decide)))]
    rw [hchar q]
    simp only [mLook,
      if_neg (bfalse_not_true (not_matched_of_matched hq (by decide) (str "Name") (by decide) (by decide))),
      if_neg (bfalse_not_true (not_matched_of_matched hq (by decide) (str "GenericName") (by decide) (by decide))),
      if_neg (bfalse_not_true (not_matched_of_matched hq (by decide) (str "Comment") (by decide) (by decide))),
      if_pos hq]
  have hsnd4 : (deserialize_localized (str "Icon") (((m.filter (fun kv => !(localizedMatches (str "Name") kv.1))).filter (fun kv => !(localizedMatches (str "GenericName") kv.1))).filter (fun kv => !(localizedMatches (str "Comment") kv.1)))).2 = ((((m.filter (fun kv => !(localizedMatches (str "Name") kv.1))).filter (fun kv => !(localizedMatches (str "GenericName") kv.1))).filter (fun kv => !(localizedMatches (str "Comment") kv.1))).filter (fun kv => !(localizedMatches (str "Icon") kv.1))) :=
    deserialize_localized_snd _ _
  have hfst5 : (deserialize_localized (str "Keywords") ((((m.filter (fun kv => !(localizedMatches (str "Name") kv.1))).filter (fun kv => !(localizedMatches (str "GenericName") kv.1))).filter (fun kv => !(localizedMatches (str "Comment") kv.1))).filter (fun kv => !(localizedMatches (str "Icon") kv.1)))).1 = e.keywords := by
    apply deserialize_localized_opt (by decide) (SMapSorted_filter _ (SMapSorted_filter _ (SMapSorted_filter _ (SMapSorted_filter _ hms)))) hkw
    intro q hq
    rw [lookupS_filter_notMatched (str "Icon") (((m.filter (fun kv => !(localizedMatches (str "Name") kv.1))).filter (fun kv => !(localizedMatches (str "GenericName") kv.1))).filter (fun kv => !(localizedMatches (str "Comment") kv.1))) q,
      if_neg (bfalse_not_true (not_matched_of_matched hq (by decide) (str "Icon") (by decide) (by decide)))]
    rw [lookupS_filter_notMatched (str "Comment") ((m.filter (fun kv => !(localizedMatches (str "Name") kv.1))).filter (fun kv => !(localizedMatches (str "GenericName") kv.1))) q,
      if_neg (bfalse_not_true (not_matched_of_matched hq (by decide) (str "Comment") (by decide) (by decide)))]
    rw [lookupS_filter_notMatched (str "GenericName") (m.filter (fun kv => !(localizedMatches (str "Name") kv.1))) q,
      if_neg (bfalse_not_true (not_matched_of_matched hq (by decide) (str "GenericName") (by decide) (by decide)))]
    rw [lookupS_filter_notMatched (str "Name") m q,
      if_neg (bfalse_not_true (not_matched_of_matched hq (by decide) (str "Name") (by decide) (by decide)))]
    rw [hchar q]
    simp only [mLook,
      if_neg (bfalse_not_true (not_matched_of_matched hq (by decide) (str "Name") (by decide) (by decide))),
      if_neg (bfalse_not_true (not_matched_of_matched hq (by decide) (str "GenericName") (by decide) (by decide))),
      if_neg (bfalse_not_true (not_matched_of_matched hq (by decide) (str "Comment") (by decide) (by decide))),
      if_neg (bfalse_not_true (not_matched_of_matched hq (by decide) (str "Icon") (by decide) (by decide))),
      if_pos hq]
  have hsnd5 : (deserialize_localized (str "Keywords") ((((m.filter (fun kv => !(localizedMatches (str "Name") kv.1))).filter (fun kv => !(localizedMatches (str "GenericName") kv.1))).filter (fun kv => !(localizedMatches (str "Comment") kv.1))).filter (fun kv => !(localizedMatches (str "Icon") kv.1)))).2 = (((((m.filter (fun kv => !(localizedMatches (str "Name") kv.1))).filter (fun kv => !(localizedMatches (str "GenericName") kv.1))).filter (fun kv => !(localizedMatches (str "Comment") kv.1))).filter (fun kv => !(localizedMatches (str "Icon") kv.1))).filter (fun kv => !(localizedMatches (str "Keywords") kv.1))) :=
    deserialize_localized_snd _ _
  have hk_Type : lookupS (((((m.filter (fun kv => !(localizedMatches (str "Name") kv.1))).filter (fun kv => !(localizedMatches (str "GenericName") kv.1))).filter (fun kv => !(localizedMatches (str "Comment") kv.1))).filter (fun kv => !(localizedMatches (str "Icon") kv.1))).filter (fun kv => !(localizedMatches (str "Keywords") kv.1))) (str "Type") = some e.entry_type := by
    rw [lookupS_filter_notMatched (str "Keywords") ((((m.filter (fun kv => !(localizedMatches (str "Name") kv.1))).filter (fun kv => !(localizedMatches (str "GenericName") kv.1))).filter (fun kv => !(localizedMatches (str "Comment") kv.1))).filter (fun kv => !(localizedMatches (str "Icon") kv.1))) (str "Type"),
      if_neg (show ¬ localizedMatches (str "Keywords") (str "Type") = true from by decide)]
    rw [lookupS_filter_notMatched (str "Icon") (((m.filter (fun kv => !(localizedMatches (str "Name") kv.1))).filter (fun kv => !(localizedMatches (str "GenericName") kv.1))).filter (fun kv => !(localizedMatches (str "Comment") kv.1))) (str "Type"),
      if_neg (show ¬ localizedMatches (str "Icon") (str "Type") = true from by decide)]
    rw [lookupS_filter_notMatched (str "Comment") ((m.filter (fun kv => !(localizedMatches (str "Name") kv.1))).filter (fun kv => !(localizedMatches (str "GenericName") kv.1))) (str "Type"),
      if_neg (show ¬ localizedMatches (str "Comment") (str "Type") = true from by decide)]
    rw [lookupS_filter_notMatched (str "GenericName") (m.filter (fun kv => !(localizedMatches (str "Name") kv.1))) (str "Type"),
      if_neg (show ¬ localizedMatches (str "GenericName") (str "Type") = true from by decide)]
    rw [lookupS_filter_notMatched (str "Name") m (str "Type"),
      if_neg (show ¬ localizedMatches (str "Name") (str "Type") = true from by decide)]
    rw [hchar (str "Type"), mLook_at_Type]
  have hk_Version : lookupS (((((m.filter (fun kv => !(localizedMatches (str "Name") kv.1))).filter (fun kv => !(localizedMatches (str "GenericName") kv.1))).filter (fun kv => !(localizedMatches (str "Comment") kv.1))).filter (fun kv => !(localizedMatches (str "Icon") kv.1))).filter (fun kv => !(localizedMatches (str "Keywords") kv.1))) (str "Version") = e.version := by
    rw [lookupS_filter_notMatched (str "Keywords") ((((m.filter (fun kv => !(localizedMatches (str "Name") kv.1))).filter (fun kv => !(localizedMatches (str "GenericName") kv.1))).filter (fun kv => !(localizedMatches (str "Comment") kv.1))).filter (fun kv => !(localizedMatches (str "Icon") kv.1))) (str "Version"),
      if_neg (show ¬ localizedMatches (str "Keywords") (str "Version") = true from by decide)]
    rw [lookupS_filter_notMatched (str "Icon") (((m.filter (fun kv => !(localizedMatches (str "Name") kv.1))).filter (fun kv => !(localizedMatches (str "GenericName") kv.1))).filter (fun kv => !(localizedMatches (str "Comment") kv.1))) (str "Version"),
      if_neg (show ¬ localizedMatches (str "Icon") (str "Version") = true from by decide)]
    rw [lookupS_filter_notMatched (str "Comment") ((m.filter (fun kv => !(localizedMatches (str "Name") kv.1))).filter (fun kv => !(localizedMatches (str "GenericName") kv.1))) (str "Version"),
      if_neg (show ¬ localizedMatches (str "Comment") (str "Version") = true from by decide)]
    rw [lookupS_filter_notMatched (str "GenericName") (m.filter (fun kv => !(localizedMatches (str "Name") kv.1))) (str "Version"),
      if_neg (show ¬ localizedMatches (str "GenericName") (str "Version") = true from by decide)]
    rw [lookupS_filter_notMatched (str "Name") m (str "Version"),
      if_neg (show ¬ localizedMatches (str "Name") (str "Version") = true from by decide)]
    rw [hchar (str "Version"), mLook_at_Version]
  have hk_NoDisplay : lookupS (((((m.filter (fun kv => !(localizedMatches (str "Name") kv.1))).filter (fun kv => !(localizedMatches (str "GenericName") kv.1))).filter (fun kv => !(localizedMatches (str "Comment") kv.1))).filter (fun kv => !(localizedMatches (str "Icon") kv.1))).filter (fun kv => !(localizedMatches (str "Keywords") kv.1))) (str "NoDisplay") = e.no_display.map boolStr := by
    rw [lookupS_filter_notMatched (str "Keywords") ((((m.filter (fun kv => !(localizedMatches (str "Name") kv.1))).filter (fun kv => !(localizedMatches (str "GenericName") kv.1))).filter (fun kv => !(localizedMatches (str "Comment") kv.1))).filter (fun kv => !(localizedMatches (str "Icon") kv.1))) (str "NoDisplay"),
      if_neg (show ¬ localizedMatches (str "Keywords") (str "NoDisplay") = true from by decide)]
    rw [lookupS_filter_notMatched (str "Icon") (((m.filter (fun kv => !(localizedMatches (str "Name") kv.1))).filter (fun kv => !(localizedMatches (str "GenericName") kv.1))).filter (fun kv => !(localizedMatches (str "Comment") kv.1))) (str "NoDisplay"),
      if_neg (show ¬ localizedMatches (str "Icon") (str "NoDisplay") = true from by decide)]
    rw [lookupS_filter_notMatched (str "Comment") ((m.filter (fun kv => !(localizedMatches (str "Name") kv.1))).filter (fun kv => !(localizedMatches (str "GenericName") kv.1))) (str "NoDisplay"),
      if_neg (show ¬ localizedMatches (str "Comment") (str "NoDisplay") = true from by decide)]
    rw [lookupS_filter_notMatched (str "GenericName") (m.filter (fun kv => !(localizedMatches (str "Name") kv.1))) (str "NoDisplay"),
      if_neg (show ¬ localizedMatches (str "GenericName") (str "NoDisplay") = true from by decide)]
    rw [lookupS_filter_notMatched (str "Name") m (str "NoDisplay"),
      if_neg (show ¬ localizedMatches (str "Name") (str "NoDisplay") = true from by decide)]
    rw [hchar (str "NoDisplay"), mLook_at_NoDisplay]
  have hb_NoDisplay : deserialize_opt_bool (lookupS (((((m.filter (fun kv => !(localizedMatches (str "Name") kv.1))).filter (fun kv => !(localizedMatches (str "GenericName") kv.1))).filter (fun kv => !(localizedMatches (str "Comment") kv.1))).filter (fun kv => !(localizedMatches (str "Icon") kv.1))).filter (fun kv => !(localizedMatches (str "Keywords") kv.1))) (str "NoDisplay"))
      = Except.ok e.no_display := by
    rw [hk_NoDisplay]
    exact deserialize_opt_bool_boolStr e.no_display
  have hk_Hidden : lookupS (((((m.filter (fun kv => !(localizedMatches (str "Name") kv.1))).filter (fun kv => !(localizedMatches (str "GenericName") kv.1))).filter (fun kv => !(localizedMatches (str "Comment") kv.1))).filter (fun kv => !(localizedMatches (str "Icon") kv.1))).filter (fun kv => !(localizedMatches (str "Keywords") kv.1))) (str "Hidden") = e.hidden.map boolStr := by
    rw [lookupS_filter_notMatched (str "Keywords") ((((m.filter (fun kv => !(localizedMatches (str "Name") kv.1))).filter (fun kv => !(localizedMatches (str "GenericName") kv.1))).filter (fun kv => !(localizedMatches (str "Comment") kv.1))).filter (fun kv => !(localizedMatches (str "Icon") kv.1))) (str "Hidden"),
      if_neg (show ¬ localizedMatches (str "Keywords") (str "Hidden") = true from by decide)]
    rw [lookupS_filter_notMatched (str "Icon") (((m.filter (fun kv => !(localizedMatches (str "Name") kv.1))).filter (fun kv => !(localizedMatches (str "GenericName") kv.1))).filter (fun kv => !(localizedMatches (str "Comment") kv.1))) (str "Hidden"),
      if_neg (show ¬ localizedMatches (str "Icon") (str "Hidden") = true from by decide)]
    rw [lookupS_filter_notMatched (str "Comment") ((m.filter (fun kv => !(localizedMatches (str "Name") kv.1))).filter (fun kv => !(localizedMatches (str "GenericName") kv.1))) (str "Hidden"),
      if_neg (show ¬ localizedMatches (str "Comment") (str "Hidden") = true from by decide)]
    rw [lookupS_filter_notMatched (str "GenericName") (m.filter (fun kv => !(localizedMatches (str "Name") kv.1))) (str "Hidden"),
      if_neg (show ¬ localizedMatches (str "GenericName") (str "Hidden") = true from by decide)]
    rw [lookupS_filter_notMatched (str "Name") m (str "Hidden"),
      if_neg (show ¬ localizedMatches (str "Name") (str "Hidden") = true from by decide)]
    rw [hchar (str "Hidden"), mLook_at_Hidden]
  have hb_Hidden : deserialize_opt_bool (lookupS (((((m.filter (fun kv => !(localizedMatches (str "Name") kv.1))).filter (fun kv => !(localizedMatches (str "GenericName") kv.1))).filter (fun kv => !(localizedMatches (str "Comment") kv.1))).filter (fun kv => !(localizedMatches (str "Icon") kv.1))).filter (fun kv => !(localizedMatches (str "Keywords") kv.1))) (str "Hidden"))
      = Except.ok e.hidden := by
    rw [hk_Hidden]
    exact deserialize_opt_bool_boolStr e.hidden
  have hk_OnlyShowIn : lookupS (((((m.filter (fun kv => !(localizedMatches (str "Name") kv.1))).filter (fun kv => !(localizedMatches (str "GenericName") kv.1))).filter (fun kv => !(localizedMatches (str "Comment") kv.1))).filter (fun kv => !(localizedMatches (str "Icon") kv.1))).filter (fun kv => !(localizedMatches (str "Keywords") kv.1))) (str "OnlyShowIn") = e.only_show_in.map listFieldText := by
    rw [lookupS_filter_notMatched (str "Keywords") ((((m.filter (fun kv => !(localizedMatches (str "Name") kv.1))).filter (fun kv => !(localizedMatches (str "GenericName") kv.1))).filter (fun kv => !(localizedMatches (str "Comment") kv.1))).filter (fun kv => !(localizedMatches (str "Icon") kv.1))) (str "OnlyShowIn"),
      if_neg (show ¬ localizedMatches (str "Keywords") (str "OnlyShowIn") = true from by decide)]
    rw [lookupS_filter_notMatched (str "Icon") (((m.filter (fun kv => !(localizedMatches (str "Name") kv.1))).filter (fun kv => !(localizedMatches (str "GenericName") kv.1))).filter (fun kv => !(localizedMatches (str "Comment") kv.1))) (str "OnlyShowIn"),
      if_neg (show ¬ localizedMatches (str "Icon") (str "OnlyShowIn") = true from by decide)]
    rw [lookupS_filter_notMatched (str "Comment") ((m.filter (fun kv => !(localizedMatches (str "Name") kv.1))).filter (fun kv => !(localizedMatches (str "GenericName") kv.1))) (str "OnlyShowIn"),
      if_neg (show ¬ localizedMatches (str "Comment") (str "OnlyShowIn") = true from by decide)]
    rw [lookupS_filter_notMatched (str "GenericName") (m.filter (fun kv => !(localizedMatches (str "Name") kv.1))) (str "OnlyShowIn"),
      if_neg (show ¬ localizedMatches (str "GenericName") (str "OnlyShowIn") = true from by decide)]
    rw [lookupS_filter_notMatched (str "Name") m (str "OnlyShowIn"),
      if_neg (show ¬ localizedMatches (str "Name") (str "OnlyShowIn") = true from by decide)]
    rw [hchar (str "OnlyShowIn"), mLook_at_OnlyShowIn]
  have hl_OnlyShowIn : deserialize_opt_semicolon_list (lookupS (((((m.filter (fun kv => !(localizedMatches (str "Name") kv.1))).filter (fun kv => !(localizedMatches (str "GenericName") kv.1))).filter (fun kv => !(localizedMatches (str "Comment") kv.1))).filter (fun kv => !(localizedMatches (str "Icon") kv.1))).filter (fun kv => !(localizedMatches (str "Keywords") kv.1))) (str "OnlyShowIn"))
      = e.only_show_in := by
    rw [hk_OnlyShowIn]
    exact deserialize_opt_semicolon_list_roundtrip (WFList_elems hosi)
  have hk_NotShowIn : lookupS (((((m.filter (fun kv => !(localizedMatches (str "Name") kv.1))).filter (fun kv => !(localizedMatches (str "GenericName") kv.1))).filter (fun kv => !(localizedMatches (str "Comment") kv.1))).filter (fun kv => !(localizedMatches (str "Icon") kv.1))).filter (fun kv => !(localizedMatches (str "Keywords") kv.1))) (str "NotShowIn") = e.not_show_in.map listFieldText := by
    rw [lookupS_filter_notMatched (str "Keywords") ((((m.filter (fun kv => !(localizedMatches (str "Name") kv.1))).filter (fun kv => !(localizedMatches (str "GenericName") kv.1))).filter (fun kv => !(localizedMatches (str "Comment") kv.1))).filter (fun kv => !(localizedMatches (str "Icon") kv.1))) (str "NotShowIn"),
      if_neg (show ¬ localizedMatches (str "Keywords") (str "NotShowIn") = true from by decide)]
    rw [lookupS_filter_notMatched (str "Icon") (((m.filter (fun kv => !(localizedMatches (str "Name") kv.1))).filter (fun kv => !(localizedMatches (str "GenericName") kv.1))).filter (fun kv => !(localizedMatches (str "Comment") kv.1))) (str "NotShowIn"),
      if_neg (show ¬ localizedMatches (str "Icon") (str "NotShowIn") = true from by decide)]
    rw [lookupS_filter_notMatched (str "Comment") ((m.filter (fun kv => !(localizedMatches (str "Name") kv.1))).filter (fun kv => !(localizedMatches (str "GenericName") kv.1))) (str "NotShowIn"),
      if_neg (show ¬ localizedMatches (str "Comment") (str "NotShowIn") = true from by decide)]
    rw [lookupS_filter_notMatched (str "GenericName") (m.filter (fun kv => !(localizedMatches (str "Name") kv.1))) (str "NotShowIn"),
      if_neg (show ¬ localizedMatches (str "GenericName") (str "NotShowIn") = true from by decide)]
    rw [lookupS_filter_notMatched (str "Name") m (str "NotShowIn"),
      if_neg (show ¬ localizedMatches (str "Name") (str "NotShowIn") = true from by decide)]
    rw [hchar (str "NotShowIn"), mLook_at_NotShowIn]
  have hl_NotShowIn : deserialize_opt_semicolon_list (lookupS (((((m.filter (fun kv => !(localizedMatches (str "Name") kv.1))).filter (fun kv => !(localizedMatches (str "GenericName") kv.1))).filter (fun kv => !(localizedMatches (str "Comment") kv.1))).filter (fun kv => !(localizedMatches (str "Icon") kv.1))).filter (fun kv => !(localizedMatches (str "Keywords") kv.1))) (str "NotShowIn"))
      = e.not_show_in := by
    rw [hk_NotShowIn]
    exact deserialize_opt_semicolon_list_roundtrip (WFList_elems hnsi)
  have hk_DBusActivatable : lookupS (((((m.filter (fun kv => !(localizedMatches (str "Name") kv.1))).filter (fun kv => !(localizedMatches (str "GenericName") kv.1))).filter (fun kv => !(localizedMatches (str "Comment") kv.1))).filter (fun kv => !(localizedMatches (str "Icon") kv.1))).filter (fun kv => !(localizedMatches (str "Keywords") kv.1))) (str "DBusActivatable") = e.dbus_activatable.map boolStr := by
    rw [lookupS_filter_notMatched (str "Keywords") ((((m.filter (fun kv => !(localizedMatches (str "Name") kv.1))).filter (fun kv => !(localizedMatches (str "GenericName") kv.1))).filter (fun kv => !(localizedMatches (str "Comment") kv.1))).filter (fun kv => !(localizedMatches (str "Icon") kv.1))) (str "DBusActivatable"),
      if_neg (show ¬ localizedMatches (str "Keywords") (str "DBusActivatable") = true from by decide)]
    rw [lookupS_filter_notMatched (str "Icon") (((m.filter (fun kv => !(localizedMatches (str "Name") kv.1))).filter (fun kv => !(localizedMatches (str "GenericName") kv.1))).filter (fun kv => !(localizedMatches (str "Comment") kv.1))) (str "DBusActivatable"),
      if_neg (show ¬ localizedMatches (str "Icon") (str "DBusActivatable") = true from by decide)]
    rw [lookupS_filter_notMatched (str "Comment") ((m.filter (fun kv => !(localizedMatches (str "Name") kv.1))).filter (fun kv => !(localizedMatches (str "GenericName") kv.1))) (str "DBusActivatable"),
      if_neg (show ¬ localizedMatches (str "Comment") (str "DBusActivatable") = true from by decide)]
    rw [lookupS_filter_notMatched (str "GenericName") (m.filter (fun kv => !(localizedMatches (str "Name") kv.1))) (str "DBusActivatable"),
      if_neg (show ¬ localizedMatches (str "GenericName") (str "DBusActivatable") = true from by decide)]
    rw [lookupS_filter_notMatched (str "Name") m (str "DBusActivatable"),
      if_neg (show ¬ localizedMatches (str "Name") (str "DBusActivatable") = true from by decide)]
    rw [hchar (str "DBusActivatable"), mLook_at_DBusActivatable]
  have hb_DBusActivatable : deserialize_opt_bool (lookupS (((((m.filter (fun kv => !(localizedMatches (str "Name") kv.1))).filter (fun kv => !(localizedMatches (str "GenericName") kv.1))).filter (fun kv => !(localizedMatches (str "Comment") kv.1))).filter (fun kv => !(localizedMatches (str "Icon") kv.1))).filter (fun kv => !(localizedMatches (str "Keywords") kv.1))) (str "DBusActivatable"))
      = Except.ok e.dbus_activatable := by
    rw [hk_DBusActivatable]
    exact deserialize_opt_bool_boolStr e.dbus_activatable
  have hk_TryExec : lookupS (((((m.filter (fun kv => !(localizedMatches (str "Name") kv.1))).filter (fun kv => !(localizedMatches (str "GenericName") kv.1))).filter (fun kv => !(localizedMatches (str "Comment") kv.1))).filter (fun kv => !(localizedMatches (str "Icon") kv.1))).filter (fun kv => !(localizedMatches (str "Keywords") kv.1))) (str "TryExec") = e.try_exec := by
    rw [lookupS_filter_notMatched (str "Keywords") ((((m.filter (fun kv => !(localizedMatches (str "Name") kv.1))).filter (fun kv => !(localizedMatches (str "GenericName") kv.1))).filter (fun kv => !(localizedMatches (str "Comment") kv.1))).filter (fun kv => !(localizedMatches (str "Icon") kv.1))) (str "TryExec"),
      if_neg (show ¬ localizedMatches (str "Keywords") (str "TryExec") = true from by decide)]
    rw [lookupS_filter_notMatched (str "Icon") (((m.filter (fun kv => !(localizedMatches (str "Name") kv.1))).filter (fun kv => !(localizedMatches (str "GenericName") kv.1))).filter (fun kv => !(localizedMatches (str "Comment") kv.1))) (str "TryExec"),
      if_neg (show ¬ localizedMatches (str "Icon") (str "TryExec") = true from by decide)]
    rw [lookupS_filter_notMatched (str "Comment") ((m.filter (fun kv => !(localizedMatches (str "Name") kv.1))).filter (fun kv => !(localizedMatches (str "GenericName") kv.1))) (str "TryExec"),
      if_neg (show ¬ localizedMatches (str "Comment") (str "TryExec") = true from by decide)]
    rw [lookupS_filter_notMatched (str "GenericName") (m.filter (fun kv => !(localizedMatches (str "Name") kv.1))) (str "TryExec"),
      if_neg (show ¬ localizedMatches (str "GenericName") (str "TryExec") = true from by decide)]
    rw [lookupS_filter_notMatched (str "Name") m (str "TryExec"),
      if_neg (show ¬ localizedMatches (str "Name") (str "TryExec") = true from by decide)]
    rw [hchar (str "TryExec"), mLook_at_TryExec]
  have hk_Exec : lookupS (((((m.filter (fun kv => !(localizedMatches (str "Name") kv.1))).filter (fun kv => !(localizedMatches (str "GenericName") kv.1))).filter (fun kv => !(localizedMatches (str "Comment") kv.1))).filter (fun kv => !(localizedMatches (str "Icon") kv.1))).filter (fun kv => !(localizedMatches (str "Keywords") kv.1))) (str "Exec") = e.exec := by
    rw [lookupS_filter_notMatched (str "Keywords") ((((m.filter (fun kv => !(localizedMatches (str "Name") kv.1))).filter (fun kv => !(localizedMatches (str "GenericName") kv.1))).filter (fun kv => !(localizedMatches (str "Comment") kv.1))).filter (fun kv => !(localizedMatches (str "Icon") kv.1))) (str "Exec"),
      if_neg (show ¬ localizedMatches (str "Keywords") (str "Exec") = true from by decide)]
    rw [lookupS_filter_notMatched (str "Icon") (((m.filter (fun kv => !(localizedMatches (str "Name") kv.1))).filter (fun kv => !(localizedMatches (str "GenericName") kv.1))).filter (fun kv => !(localizedMatches (str "Comment") kv.1))) (str "Exec"),
      if_neg (show ¬ localizedMatches (str "Icon") (str "Exec") = true from by decide)]
    rw [lookupS_filter_notMatched (str "Comment") ((m.filter (fun kv => !(localizedMatches (str "Name") kv.1))).filter (fun kv => !(localizedMatches (str "GenericName") kv.1))) (str "Exec"),
      if_neg (show ¬ localizedMatches (str "Comment") (str "Exec") = true from by decide)]
    rw [lookupS_filter_notMatched (str "GenericName") (m.filter (fun kv => !(localizedMatches (str "Name") kv.1))) (str "Exec"),
      if_neg (show ¬ localizedMatches (str "GenericName") (str "Exec") = true from by decide)]
    rw [lookupS_filter_notMatched (str "Name") m (str "Exec"),
      if_neg (show ¬ localizedMatches (str "Name") (str "Exec") = true from by decide)]
    rw [hchar (str "Exec"), mLook_at_Exec]
  have hk_Path : lookupS (((((m.filter (fun kv => !(localizedMatches (str "Name") kv.1))).filter (fun kv => !(localizedMatches (str "GenericName") kv.1))).filter (fun kv => !(localizedMatches (str "Comment") kv.1))).filter (fun kv => !(localizedMatches (str "Icon") kv.1))).filter (fun kv => !(localizedMatches (str "Keywords") kv.1))) (str "Path") = e.path := by
    rw [lookupS_filter_notMatched (str "Keywords") ((((m.filter (fun kv => !(localizedMatches (str "Name") kv.1))).filter (fun kv => !(localizedMatches (str "GenericName") kv.1))).filter (fun kv => !(localizedMatches (str "Comment") kv.1))).filter (fun kv => !(localizedMatches (str "Icon") kv.1))) (str "Path"),
      if_neg (show ¬ localizedMatches (str "Keywords") (str "Path") = true from by decide)]
    rw [lookupS_filter_notMatched (str "Icon") (((m.filter (fun kv => !(localizedMatches (str "Name") kv.1))).filter (fun kv => !(localizedMatches (str "GenericName") kv.1))).filter (fun kv => !(localizedMatches (str "Comment") kv.1))) (str "Path"),
      if_neg (show ¬ localizedMatches (str "Icon") (str "Path") = true from by decide)]
    rw [lookupS_filter_notMatched (str "Comment") ((m.filter (fun kv => !(localizedMatches (str "Name") kv.1))).filter (fun kv => !(localizedMatches (str "GenericName") kv.1))) (str "Path"),
      if_neg (show ¬ localizedMatches (str "Comment") (str "Path") = true from by decide)]
    rw [lookupS_filter_notMatched (str "GenericName") (m.filter (fun kv => !(localizedMatches (str "Name") kv.1))) (str "Path"),
      if_neg (show ¬ localizedMatches (str "GenericName") (str "Path") = true from by decide)]
    rw [lookupS_filter_notMatched (str "Name") m (str "Path"),
      if_neg (show ¬ localizedMatches (str "Name") (str "Path") = true from by decide)]
    rw [hchar (str "Path"), mLook_at_Path]
  have hk_Terminal : lookupS (((((m.filter (fun kv => !(localizedMatches (str "Name") kv.1))).filter (fun kv => !(localizedMatches (str "GenericName") kv.1))).filter (fun kv => !(localizedMatches (str "Comment") kv.1))).filter (fun kv => !(localizedMatches (str "Icon") kv.1))).filter (fun kv => !(localizedMatches (str "Keywords") kv.1))) (str "Terminal") = e.terminal.map boolStr := by
    rw [lookupS_filter_notMatched (str "Keywords") ((((m.filter (fun kv => !(localizedMatches (str "Name") kv.1))).filter (fun kv => !(localizedMatches (str "GenericName") kv.1))).filter (fun kv => !(localizedMatches (str "Comment") kv.1))).filter (fun kv => !(localizedMatches (str "Icon") kv.1))) (str "Terminal"),
      if_neg (show ¬ localizedMatches (str "Keywords") (str "Terminal") = true from by decide)]
    rw [lookupS_filter_notMatched (str "Icon") (((m.filter (fun kv => !(localizedMatches (str "Name") kv.1))).filter (fun kv => !(localizedMatches (str "GenericName") kv.1))).filter (fun kv => !(localizedMatches (str "Comment") kv.1))) (str "Terminal"),
      if_neg (show ¬ localizedMatches (str "Icon") (str "Terminal") = true from by decide)]
    rw [lookupS_filter_notMatched (str "Comment") ((m.filter (fun kv => !(localizedMatches (str "Name") kv.1))).filter (fun kv => !(localizedMatches (str "GenericName") kv.1))) (str "Terminal"),
      if_neg (show ¬ localizedMatches (str "Comment") (str "Terminal") = true from by decide)]
    rw [lookupS_filter_notMatched (str "GenericName") (m.filter (fun kv => !(localizedMatches (str "Name") kv.1))) (str "Terminal"),
      if_neg (show ¬ localizedMatches (str "GenericName") (str "Terminal") = true from by decide)]
    rw [lookupS_filter_notMatched (str "Name") m (str "Terminal"),
      if_neg (show ¬ localizedMatches (str "Name") (str "Terminal") = true from by decide)]
    rw [hchar (str "Terminal"), mLook_at_Terminal]
  have hb_Terminal : deserialize_opt_bool (lookupS (((((m.filter (fun kv => !(localizedMatches (str "Name") kv.1))).filter (fun kv => !(localizedMatches (str "GenericName") kv.1))).filter (fun kv => !(localizedMatches (str "Comment") kv.1))).filter (fun kv => !(localizedMatches (str "Icon") kv.1))).filter (fun kv => !(localizedMatches (str "Keywords") kv.1))) (str "Terminal"))
      = Except.ok e.terminal := by
    rw [hk_Terminal]
    exact deserialize_opt_bool_boolStr e.terminal
  have hk_Actions : lookupS (((((m.filter (fun kv => !(localizedMatches (str "Name") kv.1))).filter (fun kv => !(localizedMatches (str "GenericName") kv.1))).filter (fun kv => !(localizedMatches (str "Comment") kv.1))).filter (fun kv => !(localizedMatches (str "Icon") kv.1))).filter (fun kv => !(localizedMatches (str "Keywords") kv.1))) (str "Actions") = e.actions.map listFieldText := by
    rw [lookupS_filter_notMatched (str "Keywords") ((((m.filter (fun kv => !(localizedMatches (str "Name") kv.1))).filter (fun kv => !(localizedMatches (str "GenericName") kv.1))).filter (fun kv => !(localizedMatches (str "Comment") kv.1))).filter (fun kv => !(localizedMatches (str "Icon") kv.1))) (str "Actions"),
      if_neg (show ¬ localizedMatches (str "Keywords") (str "Actions") = true from by decide)]
    rw [lookupS_filter_notMatched (str "Icon") (((m.filter (fun kv => !(localizedMatches (str "Name") kv.1))).filter (fun kv => !(localizedMatches (str "GenericName") kv.1))).filter (fun kv => !(localizedMatches (str "Comment") kv.1))) (str "Actions"),
      if_neg (show ¬ localizedMatches (str "Icon") (str "Actions") = true from by decide)]
    rw [lookupS_filter_notMatched (str "Comment") ((m.filter (fun kv => !(localizedMatches (str "Name") kv.1))).filter (fun kv => !(localizedMatches (str "GenericName") kv.1))) (str "Actions"),
      if_neg (show ¬ localizedMatches (str "Comment") (str "Actions") = true from by decide)]
    rw [lookupS_filter_notMatched (str "GenericName") (m.filter (fun kv => !(localizedMatches (str "Name") kv.1))) (str "Actions"),
      if_neg (show ¬ localizedMatches (str "GenericName") (str "Actions") = true from by decide)]
    rw [lookupS_filter_notMatched (str "Name") m (str "Actions"),
      if_neg (show ¬ localizedMatches (str "Name") (str "Actions") = true from by decide)]
    rw [hchar (str "Actions"), mLook_at_Actions]
  have hl_Actions : deserialize_opt_semicolon_list (lookupS (((((m.filter (fun kv => !(localizedMatches (str "Name") kv.1))).filter (fun kv => !(localizedMatches (str "GenericName") kv.1))).filter (fun kv => !(localizedMatches (str "Comment") kv.1))).filter (fun kv => !(localizedMatches (str "Icon") kv.1))).filter (fun kv => !(localizedMatches (str "Keywords") kv.1))) (str "Actions"))
      = e.actions := by
    rw [hk_Actions]
    exact deserialize_opt_semicolon_list_roundtrip (WFList_elems hact)
  have hk_MimeType : lookupS (((((m.filter (fun kv => !(localizedMatches (str "Name") kv.1))).filter (fun kv => !(localizedMatches (str "GenericName") kv.1))).filter (fun kv => !(localizedMatches (str "Comment") kv.1))).filter (fun kv => !(localizedMatches (str "Icon") kv.1))).filter (fun kv => !(localizedMatches (str "Keywords") kv.1))) (str "MimeType") = e.mime_type.map listFieldText := by
    rw [lookupS_filter_notMatched (str "Keywords") ((((m.filter (fun kv => !(localizedMatches (str "Name") kv.1))).filter (fun kv => !(localizedMatches (str "GenericName") kv.1))).filter (fun kv => !(localizedMatches (str "Comment") kv.1))).filter (fun kv => !(localizedMatches (str "Icon") kv.1))) (str "MimeType"),
      if_neg (show ¬ localizedMatches (str "Keywords") (str "MimeType") = true from by decide)]
    rw [lookupS_filter_notMatched (str "Icon") (((m.filter (fun kv => !(localizedMatches (str "Name") kv.1))).filter (fun kv => !(localizedMatches (str "GenericName") kv.1))).filter (fun kv => !(localizedMatches (str "Comment") kv.1))) (str "MimeType"),
      if_neg (show ¬ localizedMatches (str "Icon") (str "MimeType") = true from by decide)]
    rw [lookupS_filter_notMatched (str "Comment") ((m.filter (fun kv => !(localizedMatches (str "Name") kv.1))).filter (fun kv => !(localizedMatches (str "GenericName") kv.1))) (str "MimeType"),
      if_neg (show ¬ localizedMatches (str "Comment") (str "MimeType") = true from by decide)]
    rw [lookupS_filter_notMatched (str "GenericName") (m.filter (fun kv => !(localizedMatches (str "Name") kv.1))) (str "MimeType"),
      if_neg (show ¬ localizedMatches (str "GenericName") (str "MimeType") = true from by decide)]
    rw [lookupS_filter_notMatched (str "Name") m (str "MimeType"),
      if_neg (show ¬ localizedMatches (str "Name") (str "MimeType") = true from by decide)]
    rw [hchar (str "MimeType"), mLook_at_MimeType]
  have hl_MimeType : deserialize_opt_semicolon_list (lookupS (((((m.filter (fun kv => !(localizedMatches (str "Name") kv.1))).filter (fun kv => !(localizedMatches (str "GenericName") kv.1))).filter (fun kv => !(localizedMatches (str "Comment") kv.1))).filter (fun kv => !(localizedMatches (str "Icon") kv.1))).filter (fun kv => !(localizedMatches (str "Keywords") kv.1))) (str "MimeType"))
      = e.mime_type := by
    rw [hk_MimeType]
    exact deserialize_opt_semicolon_list_roundtrip (WFList_elems hmt)
  have hk_Categories : lookupS (((((m.filter (fun kv => !(localizedMatches (str "Name") kv.1))).filter (fun kv => !(localizedMatches (str "GenericName") kv.1))).filter (fun kv => !(localizedMatches (str "Comment") kv.1))).filter (fun kv => !(localizedMatches (str "Icon") kv.1))).filter (fun kv => !(localizedMatches (str "Keywords") kv.1))) (str "Categories") = e.categories.map listFieldText := by
    rw [lookupS_filter_notMatched (str "Keywords") ((((m.filter (fun kv => !(localizedMatches (str "Name") kv.1))).filter (fun kv => !(localizedMatches (str "GenericName") kv.1))).filter (fun kv => !(localizedMatches (str "Comment") kv.1))).filter (fun kv => !(localizedMatches (str "Icon") kv.1))) (str "Categories"),
      if_neg (show ¬ localizedMatches (str "Keywords") (str "Categories") = true from by decide)]
    rw [lookupS_filter_notMatched (str "Icon") (((m.filter (fun kv => !(localizedMatches (str "Name") kv.1))).filter (fun kv => !(localizedMatches (str "GenericName") kv.1))).filter (fun kv => !(localizedMatches (str "Comment") kv.1))) (str "Categories"),
      if_neg (show ¬ localizedMatches (str "Icon") (str "Categories") = true from by decide)]
    rw [lookupS_filter_notMatched (str "Comment") ((m.filter (fun kv => !(localizedMatches (str "Name") kv.1))).filter (fun kv => !(localizedMatches (str "GenericName") kv.1))) (str "Categories"),
      if_neg (show ¬ localizedMatches (str "Comment") (str "Categories") = true from by decide)]
    rw [lookupS_filter_notMatched (str "GenericName") (m.filter (fun kv => !(localizedMatches (str "Name") kv.1))) (str "Categories"),
      if_neg (show ¬ localizedMatches (str "GenericName") (str "Categories") = true from by decide)]
    rw [lookupS_filter_notMatched (str "Name") m (str "Categories"),
      if_neg (show ¬ localizedMatches (str "Name") (str "Categories") = true from by decide)]
    rw [hchar (str "Categories"), mLook_at_Categories]
  have hl_Categories : deserialize_opt_semicolon_list (lookupS (((((m.filter (fun kv => !(localizedMatches (str "Name") kv.1))).filter (fun kv => !(localizedMatches (str "GenericName") kv.1))).filter (fun kv => !(localizedMatches (str "Comment") kv.1))).filter (fun kv => !(localizedMatches (str "Icon") kv.1))).filter (fun kv => !(localizedMatches (str "Keywords") kv.1))) (str "Categories"))
      = e.categories := by
    rw [hk_Categories]
    exact deserialize_opt_semicolon_list_roundtrip (WFList_elems hcat)
  have hk_Implements : lookupS (((((m.filter (fun kv => !(localizedMatches (str "Name") kv.1))).filter (fun kv => !(localizedMatches (str "GenericName") kv.1))).filter (fun kv => !(localizedMatches (str "Comment") kv.1))).filter (fun kv => !(localizedMatches (str "Icon") kv.1))).filter (fun kv => !(localizedMatches (str "Keywords") kv.1))) (str "Implements") = e.implements.map listFieldText := by
    rw [lookupS_filter_notMatched (str "Keywords") ((((m.filter (fun kv => !(localizedMatches (str "Name") kv.1))).filter (fun kv => !(localizedMatches (str "GenericName") kv.1))).filter (fun kv => !(localizedMatches (str "Comment") kv.1))).filter (fun kv => !(localizedMatches (str "Icon") kv.1))) (str "Implements"),
      if_neg (show ¬ localizedMatches (str "Keywords") (str "Implements") = true from by decide)]
    rw [lookupS_filter_notMatched (str "Icon") (((m.filter (fun kv => !(localizedMatches (str "Name") kv.1))).filter (fun kv => !(localizedMatches (str "GenericName") kv.1))).filter (fun kv => !(localizedMatches (str "Comment") kv.1))) (str "Implements"),
      if_neg (show ¬ localizedMatches (str "Icon") (str "Implements") = true from by decide)]
    rw [lookupS_filter_notMatched (str "Comment") ((m.filter (fun kv => !(localizedMatches (str "Name") kv.1))).filter (fun kv => !(localizedMatches (str "GenericName") kv.1))) (str "Implements"),
      if_neg (show ¬ localizedMatches (str "Comment") (str "Implements") = true from by decide)]
    rw [lookupS_filter_notMatched (str "GenericName") (m.filter (fun kv => !(localizedMatches (str "Name") kv.1))) (str "Implements"),
      if_neg (show ¬ localizedMatches (str "GenericName") (str "Implements") = true from by decide)]
    rw [lookupS_filter_notMatched (str "Name") m (str "Implements"),
      if_neg (show ¬ localizedMatches (str "Name") (str "Implements") = true from by decide)]
    rw [hchar (str "Implements"), mLook_at_Implements]
  have hl_Implements : deserialize_opt_semicolon_list (lookupS (((((m.filter (fun kv => !(localizedMatches (str "Name") kv.1))).filter (fun kv => !(localizedMatches (str "GenericName") kv.1))).filter (fun kv => !(localizedMatches (str "Comment") kv.1))).filter (fun kv => !(localizedMatches (str "Icon") kv.1))).filter (fun kv => !(localizedMatches (str "Keywords") kv.1))) (str "Implements"))
      = e.implements := by
    rw [hk_Implements]
    exact deserialize_opt_semicolon_list_roundtrip (WFList_elems himp)
  have hk_StartupNotify : lookupS (((((m.filter (fun kv => !(localizedMatches (str "Name") kv.1))).filter (fun kv => !(localizedMatches (str "GenericName") kv.1))).filter (fun kv => !(localizedMatches (str "Comment") kv.1))).filter (fun kv => !(localizedMatches (str "Icon") kv.1))).filter (fun kv => !(localizedMatches (str "Keywords") kv.1))) (str "StartupNotify") = e.startup_notify.map boolStr := by
    rw [lookupS_filter_notMatched (str "Keywords") ((((m.filter (fun kv => !(localizedMatches (str "Name") kv.1))).filter (fun kv => !(localizedMatches (str "GenericName") kv.1))).filter (fun kv => !(localizedMatches (str "Comment") kv.1))).filter (fun kv => !(localizedMatches (str "Icon") kv.1))) (str "StartupNotify"),
      if_neg (show ¬ localizedMatches (str "Keywords") (str "StartupNotify") = true from by decide)]
    rw [lookupS_filter_notMatched (str "Icon") (((m.filter (fun kv => !(localizedMatches (str "Name") kv.1))).filter (fun kv => !(localizedMatches (str "GenericName") kv.1))).filter (fun kv => !(localizedMatches (str "Comment") kv.1))) (str "StartupNotify"),
      if_neg (show ¬ localizedMatches (str "Icon") (str "StartupNotify") = true from by decide)]
    rw [lookupS_filter_notMatched (str "Comment") ((m.filter (fun kv => !(localizedMatches (str "Name") kv.1))).filter (fun kv => !(localizedMatches (str "GenericName") kv.1))) (str "StartupNotify"),
      if_neg (show ¬ localizedMatches (str "Comment") (str "StartupNotify") = true from by decide)]
    rw [lookupS_filter_notMatched (str "GenericName") (m.filter (fun kv => !(localizedMatches (str "Name") kv.1))) (str "StartupNotify"),
      if_neg (show ¬ localizedMatches (str "GenericName") (str "StartupNotify") = true from by decide)]
    rw [lookupS_filter_notMatched (str "Name") m (str "StartupNotify"),
      if_neg (show ¬ localizedMatches (str "Name") (str "StartupNotify") = true from by decide)]
    rw [hchar (str "StartupNotify"), mLook_at_StartupNotify]
  have hb_StartupNotify : deserialize_opt_bool (lookupS (((((m.filter (fun kv => !(localizedMatches (str "Name") kv.1))).filter (fun kv => !(localizedMatches (str "GenericName") kv.1))).filter (fun kv => !(localizedMatches (str "Comment") kv.1))).filter (fun kv => !(localizedMatches (str "Icon") kv.1))).filter (fun kv => !(localizedMatches (str "Keywords") kv.1))) (str "StartupNotify"))
      = Except.ok e.startup_notify := by
    rw [hk_StartupNotify]
    exact deserialize_opt_bool_boolStr e.startup_notify
  have hk_StartupWMClass : lookupS (((((m.filter (fun kv => !(localizedMatches (str "Name") kv.1))).filter (fun kv => !(localizedMatches (str "GenericName") kv.1))).filter (fun kv => !(localizedMatches (str "Comment") kv.1))).filter (fun kv => !(localizedMatches (str "Icon") kv.1))).filter (fun kv => !(localizedMatches (str "Keywords") kv.1))) (str "StartupWMClass") = e.startup_wm_class := by
    rw [lookupS_filter_notMatched (str "Keywords") ((((m.filter (fun kv => !(localizedMatches (str "Name") kv.1))).filter (fun kv => !(localizedMatches (str "GenericName") kv.1))).filter (fun kv => !(localizedMatches (str "Comment") kv.1))).filter (fun kv => !(localizedMatches (str "Icon") kv.1))) (str "StartupWMClass"),
      if_neg (show ¬ localizedMatches (str "Keywords") (str "StartupWMClass") = true from by decide)]
    rw [lookupS_filter_notMatched (str "Icon") (((m.filter (fun kv => !(localizedMatches (str "Name") kv.1))).filter (fun kv => !(localizedMatches (str "GenericName") kv.1))).filter (fun kv => !(localizedMatches (str "Comment") kv.1))) (str "StartupWMClass"),
      if_neg (show ¬ localizedMatches (str "Icon") (str "StartupWMClass") = true from by decide)]
    rw [lookupS_filter_notMatched (str "Comment") ((m.filter (fun kv => !(localizedMatches (str "Name") kv.1))).filter (fun kv => !(localizedMatches (str "GenericName") kv.1))) (str "StartupWMClass"),
      if_neg (show ¬ localizedMatches (str "Comment") (str "StartupWMClass") = true from by decide)]
    rw [lookupS_filter_notMatched (str "GenericName") (m.filter (fun kv => !(localizedMatches (str "Name") kv.1))) (str "StartupWMClass"),
      if_neg (show ¬ localizedMatches (str "GenericName") (str "StartupWMClass") = true from by decide)]
    rw [lookupS_filter_notMatched (str "Name") m (str "StartupWMClass"),
      if_neg (show ¬ localizedMatches (str "Name") (str "StartupWMClass") = true from by decide)]
    rw [hchar (str "StartupWMClass"), mLook_at_StartupWMClass]
  have hk_URL : lookupS (((((m.filter (fun kv => !(localizedMatches (str "Name") kv.1))).filter (fun kv => !(localizedMatches (str "GenericName") kv.1))).filter (fun kv => !(localizedMatches (str "Comment") kv.1))).filter (fun kv => !(localizedMatches (str "Icon") kv.1))).filter (fun kv => !(localizedMatches (str "Keywords") kv.1))) (str "URL") = e.url := by
    rw [lookupS_filter_notMatched (str "Keywords") ((((m.filter (fun kv => !(localizedMatches (str "Name") kv.1))).filter (fun kv => !(localizedMatches (str "GenericName") kv.1))).filter (fun kv => !(localizedMatches (str "Comment") kv.1))).filter (fun kv => !(localizedMatches (str "Icon") kv.1))) (str "URL"),
      if_neg (show ¬ localizedMatches (str "Keywords") (str "URL") = true from by decide)]
    rw [lookupS_filter_notMatched (str "Icon") (((m.filter (fun kv => !(localizedMatches (str "Name") kv.1))).filter (fun kv => !(localizedMatches (str "GenericName") kv.1))).filter (fun kv => !(localizedMatches (str "Comment") kv.1))) (str "URL"),
      if_neg (show ¬ localizedMatches (str "Icon") (str "URL") = true from by decide)]
    rw [lookupS_filter_notMatched (str "Comment") ((m.filter (fun kv => !(localizedMatches (str "Name") kv.1))).filter (fun kv => !(localizedMatches (str "GenericName") kv.1))) (str "URL"),
      if_neg (show ¬ localizedMatches (str "Comment") (str "URL") = true from by decide)]
    rw [lookupS_filter_notMatched (str "GenericName") (m.filter (fun kv => !(localizedMatches (str "Name") kv.1))) (str "URL"),
      if_neg (show ¬ localizedMatches (str "GenericName") (str "URL") = true from by decide)]
    rw [lookupS_filter_notMatched (str "Name") m (str "URL"),
      if_neg (show ¬ localizedMatches (str "Name") (str "URL") = true from by decide)]
    rw [hchar (str "URL"), mLook_at_URL]
  have hk_PrefersNonDefaultGPU : lookupS (((((m.filter (fun kv => !(localizedMatches (str "Name") kv.1))).filter (fun kv => !(localizedMatches (str "GenericName") kv.1))).filter (fun kv => !(localizedMatches (str "Comment") kv.1))).filter (fun kv => !(localizedMatches (str "Icon") kv.1))).filter (fun kv => !(localizedMatches (str "Keywords") kv.1))) (str "PrefersNonDefaultGPU") = e.prefers_non_default_gpu.map boolStr := by
    rw [lookupS_filter_notMatched (str "Keywords") ((((m.filter (fun kv => !(localizedMatches (str "Name") kv.1))).filter (fun kv => !(localizedMatches (str "GenericName") kv.1))).filter (fun kv => !(localizedMatches (str "Comment") kv.1))).filter (fun kv => !(localizedMatches (str "Icon") kv.1))) (str "PrefersNonDefaultGPU"),
      if_neg (show ¬ localizedMatches (str "Keywords") (str "PrefersNonDefaultGPU") = true from by decide)]
    rw [lookupS_filter_notMatched (str "Icon") (((m.filter (fun kv => !(localizedMatches (str "Name") kv.1))).filter (fun kv => !(localizedMatches (str "GenericName") kv.1))).filter (fun kv => !(localizedMatches (str "Comment") kv.1))) (str "PrefersNonDefaultGPU"),
      if_neg (show ¬ localizedMatches (str "Icon") (str "PrefersNonDefaultGPU") = true from by decide)]
    rw [lookupS_filter_notMatched (str "Comment") ((m.filter (fun kv => !(localizedMatches (str "Name") kv.1))).filter (fun kv => !(localizedMatches (str "GenericName") kv.1))) (str "PrefersNonDefaultGPU"),
      if_neg (show ¬ localizedMatches (str "Comment") (str "PrefersNonDefaultGPU") = true from by decide)]
    rw [lookupS_filter_notMatched (str "GenericName") (m.filter (fun kv => !(localizedMatches (str "Name") kv.1))) (str "PrefersNonDefaultGPU"),
      if_neg (show ¬ localizedMatches (str "GenericName") (str "PrefersNonDefaultGPU") = true from by decide)]
    rw [lookupS_filter_notMatched (str "Name") m (str "PrefersNonDefaultGPU"),
      if_neg (show ¬ localizedMatches (str "Name") (str "PrefersNonDefaultGPU") = true from by decide)]
    rw [hchar (str "PrefersNonDefaultGPU"), mLook_at_PrefersNonDefaultGPU]
  have hb_PrefersNonDefaultGPU : deserialize_opt_bool (lookupS (((((m.filter (fun kv => !(localizedMatches (str "Name") kv.1))).filter (fun kv => !(localizedMatches (str "GenericName") kv.1))).filter (fun kv => !(localizedMatches (str "Comment") kv.1))).filter (fun kv => !(localizedMatches (str "Icon") kv.1))).filter (fun kv => !(localizedMatches (str "Keywords") kv.1))) (str "PrefersNonDefaultGPU"))
      = Except.ok e.prefers_non_default_gpu := by
    rw [hk_PrefersNonDefaultGPU]
    exact deserialize_opt_bool_boolStr e.prefers_non_default_gpu
  have hother : declaredEntryKeys.foldl (fun m2 k => eraseKey k m2) (((((m.filter (fun kv => !(localizedMatches (str "Name") kv.1))).filter (fun kv => !(localizedMatches (str "GenericName") kv.1))).filter (fun kv => !(localizedMatches (str "Comment") kv.1))).filter (fun kv => !(localizedMatches (str "Icon") kv.1))).filter (fun kv => !(localizedMatches (str "Keywords") kv.1))) = e.other := by
    rw [foldl_eraseKey_filter]
    apply SMap_ext (SMapSorted_filter _ (SMapSorted_filter _ (SMapSorted_filter _ (SMapSorted_filter _ (SMapSorted_filter _ (SMapSorted_filter _ hms)))))) hothS
    intro q
    refine Eq.trans (lookupS_filter_key (fun k => decide (k ∉ declaredEntryKeys)) (((((m.filter (fun kv => !(localizedMatches (str "Name") kv.1))).filter (fun kv => !(localizedMatches (str "GenericName") kv.1))).filter (fun kv => !(localizedMatches (str "Comment") kv.1))).filter (fun kv => !(localizedMatches (str "Icon") kv.1))).filter (fun kv => !(localizedMatches (str "Keywords") kv.1))) q) ?_
    by_cases hdq : q ∈ declaredEntryKeys
    · rw [if_neg (by simp [hdq]), lookupS_none_of_all hothK (fun h => h.1 hdq)]
    · rw [if_pos (by simp [hdq])]
      rw [lookupS_filter_notMatched (str "Keywords") ((((m.filter (fun kv => !(localizedMatches (str "Name") kv.1))).filter (fun kv => !(localizedMatches (str "GenericName") kv.1))).filter (fun kv => !(localizedMatches (str "Comment") kv.1))).filter (fun kv => !(localizedMatches (str "Icon") kv.1))) q]
      by_cases hpm5 : localizedMatches (str "Keywords") q = true
      · rw [if_pos hpm5, lookupS_none_of_all hothK (fun h => bfalse_not_true h.2.2.2.2.2 hpm5)]
      rw [if_neg hpm5]
      rw [lookupS_filter_notMatched (str "Icon") (((m.filter (fun kv => !(localizedMatches (str "Name") kv.1))).filter (fun kv => !(localizedMatches (str "GenericName") kv.1))).filter (fun kv => !(localizedMatches (str "Comment") kv.1))) q]
      by_cases hpm4 : localizedMatches (str "Icon") q = true
      · rw [if_pos hpm4, lookupS_none_of_all hothK (fun h => bfalse_not_true h.2.2.2.2.1 hpm4)]
      rw [if_neg hpm4]
      rw [lookupS_filter_notMatched (str "Comment") ((m.filter (fun kv => !(localizedMatches (str "Name") kv.1))).filter (fun kv => !(localizedMatches (str "GenericName") kv.1))) q]
      by_cases hpm3 : localizedMatches (str "Comment") q = true
      · rw [if_pos hpm3, lookupS_none_of_all hothK (fun h => bfalse_not_true h.2.2.2.1 hpm3)]
      rw [if_neg hpm3]
      rw [lookupS_filter_notMatched (str "GenericName") (m.filter (fun kv => !(localizedMatches (str "Name") kv.1))) q]
      by_cases hpm2 : localizedMatches (str "GenericName") q = true
      · rw [if_pos hpm2, lookupS_none_of_all hothK (fun h => bfalse_not_true h.2.2.1 hpm2)]
      rw [if_neg hpm2]
      rw [lookupS_filter_notMatched (str "Name") m q]
      by_cases hpm1 : localizedMatches (str "Name") q = true
      · rw [if_pos hpm1, lookupS_none_of_all hothK (fun h => bfalse_not_true h.2.1 hpm1)]
      rw [if_neg hpm1]
      rw [hchar q]
      simp only [mLook, if_neg hpm1, if_neg hpm2, if_neg hpm3, if_neg hpm4, if_neg hpm5,
        if_neg (show ¬ q = str "Type" from fun hc => hdq (by rw [hc]; decide)),
        if_neg (show ¬ q = str "Version" from fun hc => hdq (by rw [hc]; decide)),
        if_neg (show ¬ q = str "NoDisplay" from fun hc => hdq (by rw [hc]; decide)),
        if_neg (show ¬ q = str "Hidden" from fun hc => hdq (by rw [hc]; decide)),
        if_neg (show ¬ q = str "OnlyShowIn" from fun hc => hdq (by rw [hc]; decide)),
        if_neg (show ¬ q = str "NotShowIn" from fun hc => hdq (by rw [hc]; decide)),
        if_neg (show ¬ q = str "DBusActivatable" from fun hc => hdq (by rw [hc]; decide)),
        if_neg (show ¬ q = str "TryExec" from fun hc => hdq (by rw [hc]; decide)),
        if_neg (show ¬ q = str "Exec" from fun hc => hdq (by rw [hc]; decide)),
        if_neg (show ¬ q = str "Path" from fun hc => hdq (by rw [hc]; decide)),
        if_neg (show ¬ q = str "Terminal" from fun hc => hdq (by rw [hc]; decide)),
        if_neg (show ¬ q = str "Actions" from fun hc => hdq (by rw [hc]; decide)),
        if_neg (show ¬ q = str "MimeType" from fun hc => hdq (by rw [hc]; decide)),
        if_neg (show ¬ q = str "Categories" from fun hc => hdq (by rw [hc]; decide)),
        if_neg (show ¬ q = str "Implements" from fun hc => hdq (by rw [hc]; decide)),
        if_neg (show ¬ q = str "StartupNotify" from fun hc => hdq (by rw [hc]; decide)),
        if_neg (show ¬ q = str "StartupWMClass" from fun hc => hdq (by rw [hc]; decide)),
        if_neg (show ¬ q = str "URL" from fun hc => hdq (by rw [hc]; decide)),
        if_neg (show ¬ q = str "PrefersNonDefaultGPU" from fun hc => hdq (by rw [hc]; decide))]
  simp only [deserialize_desktop_entry, hsnd1, hsnd2, hsnd3, hsnd4, hsnd5, hfst1, hfst2, hfst3, hfst4, hfst5, hk_Type, hk_Version, hb_NoDisplay, hb_Hidden, hl_OnlyShowIn, hl_NotShowIn, hb_DBusActivatable, hk_TryExec, hk_Exec, hk_Path, hb_Terminal, hl_Actions, hl_MimeType, hl_Categories, hl_Implements, hb_StartupNotify, hk_StartupWMClass, hk_URL, hb_PrefersNonDefaultGPU, hother]

/-- C1 entry layer: a well-formed entry record serializes to a map that
parses back to the same record. -/
theorem entry_roundtrip (e : DesktopEntry) (hWF : WFEntry e) :
    deserialize_desktop_entry (toMap (entryPairs e)) = Except.ok e := by
  refine deserialize_entry_of_char e hWF (SMapSorted_toMap _) ?_
  intro q
  rw [lookupS_toMap]
  exact lookupLast_entryPairs e hWF.1 (WFLm_sorted hWF.2.2.1)
    (WFLm_sorted hWF.2.2.2.1) (WFLm_sorted hWF.2.2.2.2.1)
    (WFLm_sorted hWF.2.2.2.2.2.1) hWF.2.2.2.2.2.2.2.2.2.2.2.2.1
    hWF.2.2.2.2.2.2.2.2.2.2.2.2.2 q

theorem lookupLast_actionPairs (a : DesktopAction)
    (hname : SMapSorted a.name)
    (hicn : ∀ lm, a.icon = some lm → SMapSorted lm)
    (hothS : SMapSorted a.other)
    (hothK : ∀ kv ∈ a.other, actionExtraKeyOk kv.1)
    (q : Str) :
    lookupLast (actionPairs a) q = mLookA a q := by
  simp only [actionPairs]
  simp only [lookupLast_append]
  rw [lookupLast_lmPairs (str "Name") (by decide) hname q,
    lookupLast_optLmPairs (str "Icon") (by decide) hicn q,
    lookupLast_sorted hothS q]
  simp only [lookupLast_optScalarPairs]
  simp only [mLookA]
  by_cases hm1 : localizedMatches (str "Name") q = true
  · simp only [if_pos hm1]
    simp only [if_neg (bfalse_not_true (not_matched_of_matched hm1
      (by decide) (str "Icon") (by decide) (by decide)))]
    simp only [if_neg (ne_of_matched hm1 (str "Exec") (by decide))]
    rw [lookupS_none_of_all hothK (fun h => bfalse_not_true h.2.2.1 hm1)]
    simp only [oOr_none_left, oOr_none_right]
  simp only [if_neg hm1]
  by_cases hm2 : localizedMatches (str "Icon") q = true
  · simp only [if_pos hm2]
    simp only [if_neg (ne_of_matched hm2 (str "Exec") (by decide))]
    rw [lookupS_none_of_all hothK (fun h => bfalse_not_true h.2.2.2 hm2)]
    simp only [oOr_none_left, oOr_none_right]
  simp only [if_neg hm2]
  by_cases hd1 : q = str "Exec"
  · simp only [if_pos hd1]
    rw [lookupS_none_of_all hothK (fun h => h.1 hd1)]
    simp only [oOr_none_left, oOr_none_right]
  simp only [if_neg hd1]
  simp only [oOr_none_left, oOr_none_right]

theorem mLookA_at_Exec (a : DesktopAction) : mLookA a (str "Exec") = a.exec := by
  simp only [mLookA,
    show (localizedMatches (str "Name") (str "Exec") = true) = False from
      eq_false (by decide),
    show (localizedMatches (str "Icon") (str "Exec") = true) = False from
      eq_false (by decide),
    show (str "Exec" = str "Exec") = True from eq_true rfl,
    if_false, if_true]

/-- C1 action layer: a well-formed action record serializes to a map that,
with the reader's ID sentinel injected, parses back to the same ID and
record. -/
theorem action_roundtrip (action_id : Str) (a : DesktopAction)
    (hWF : WFAction a) :
    deserialize_desktop_action
        (insertSorted actionIdKey action_id (toMap (actionPairs a)))
      = Except.ok (action_id, a) := by
  obtain ⟨hnS, hnNe, hic, hothS, hothK⟩ := hWF
  have hraw0S : SMapSorted (insertSorted actionIdKey action_id (toMap (actionPairs a))) :=
    SMapSorted_insertSorted (SMapSorted_toMap _) _ _
  have hAid : lookupS (insertSorted actionIdKey action_id (toMap (actionPairs a))) actionIdKey = some action_id := by
    rw [lookupS_insertSorted]
    simp
  have hM : ∀ q, lookupS (toMap (actionPairs a)) q = mLookA a q := by
    intro q
    rw [lookupS_toMap]
    exact lookupLast_actionPairs a hnS (WFLm_sorted hic) hothS hothK q
  have hAidNone : mLookA a actionIdKey = none := by
    simp only [mLookA,
      show (localizedMatches (str "Name") actionIdKey = true) = False from
        eq_false (by decide),
      show (localizedMatches (str "Icon") actionIdKey = true) = False from
        eq_false (by decide),
      show (actionIdKey = str "Exec") = False from eq_false (by decide),
      if_false]
    exact lookupS_none_of_all hothK (fun h => h.2.1 rfl)
  have hraw1 : ∀ q, lookupS (eraseKey actionIdKey (insertSorted actionIdKey action_id (toMap (actionPairs a)))) q = mLookA a q := by
    intro q
    rw [lookupS_eraseKey]
    by_cases hq : q = actionIdKey
    · rw [if_pos hq, hq, hAidNone]
    · rw [if_neg hq, lookupS_insertSorted, if_neg hq, hM q]
  have hraw1S : SMapSorted (eraseKey actionIdKey (insertSorted actionIdKey action_id (toMap (actionPairs a)))) := SMapSorted_filter _ hraw0S
  have hfstN : (deserialize_localized (str "Name") (eraseKey actionIdKey (insertSorted actionIdKey action_id (toMap (actionPairs a))))).1 = some a.name := by
    apply deserialize_localized_exact (by decide) hraw1S hnS hnNe
    intro q hq
    rw [hraw1 q]
    simp only [mLookA, if_pos hq]
  have hsndN : (deserialize_localized (str "Name") (eraseKey actionIdKey (insertSorted actionIdKey action_id (toMap (actionPairs a))))).2 = ((eraseKey actionIdKey (insertSorted actionIdKey action_id (toMap (actionPairs a)))).filter (fun kv => !(localizedMatches (str "Name") kv.1))) :=
    deserialize_localized_snd _ _
  have hfstI : (deserialize_localized (str "Icon") ((eraseKey actionIdKey (insertSorted actionIdKey action_id (toMap (actionPairs a)))).filter (fun kv => !(localizedMatches (str "Name") kv.1)))).1 = a.icon := by
    apply deserialize_localized_opt (by decide) (SMapSorted_filter _ hraw1S) hic
    intro q hq
    rw [lookupS_filter_notMatched (str "Name") (eraseKey actionIdKey (insertSorted actionIdKey action_id (toMap (actionPairs a)))) q,
      if_neg (bfalse_not_true (not_matched_of_matched hq (by decide)
        (str "Name") (by decide) (by decide)))]
    rw [hraw1 q]
    simp only [mLookA,
      if_neg (bfalse_not_true (not_matched_of_matched hq (by decide)
        (str "Name") (by decide) (by decide))),
      if_pos hq]
  have hsndI : (deserialize_localized (str "Icon") ((eraseKey actionIdKey (insertSorted actionIdKey action_id (toMap (actionPairs a)))).filter (fun kv => !(localizedMatches (str "Name") kv.1)))).2 = (((eraseKey actionIdKey (insertSorted actionIdKey action_id (toMap (actionPairs a)))).filter (fun kv => !(localizedMatches (str "Name") kv.1))).filter (fun kv => !(localizedMatches (str "Icon") kv.1))) :=
    deserialize_localized_snd _ _
  have hExec : lookupS (((eraseKey actionIdKey (insertSorted actionIdKey action_id (toMap (actionPairs a)))).filter (fun kv => !(localizedMatches (str "Name") kv.1))).filter (fun kv => !(localizedMatches (str "Icon") kv.1))) (str "Exec") = a.exec := by
    rw [lookupS_filter_notMatched (str "Icon") ((eraseKey actionIdKey (insertSorted actionIdKey action_id (toMap (actionPairs a)))).filter (fun kv => !(localizedMatches (str "Name") kv.1))) (str "Exec"),
      if_neg (show ¬ localizedMatches (str "Icon") (str "Exec") = true from
        by decide)]
    rw [lookupS_filter_notMatched (str "Name") (eraseKey actionIdKey (insertSorted actionIdKey action_id (toMap (actionPairs a)))) (str "Exec"),
      if_neg (show ¬ localizedMatches (str "Name") (str "Exec") = true from
        by decide)]
    rw [hraw1 (str "Exec"), mLookA_at_Exec]
  have hothEq : eraseKey (str "Exec") ((((eraseKey actionIdKey (insertSorted actionIdKey action_id (toMap (actionPairs a)))).filter (fun kv => !(localizedMatches (str "Name") kv.1)))).filter (fun kv => !(localizedMatches (str "Icon") kv.1))) = a.other := by
    have hX : ∀ q, lookupS (eraseKey (str "Exec") ((((eraseKey actionIdKey (insertSorted actionIdKey action_id (toMap (actionPairs a)))).filter (fun kv => !(localizedMatches (str "Name") kv.1)))).filter (fun kv => !(localizedMatches (str "Icon") kv.1)))) q
        = lookupS a.other q := by
      intro q
      rw [lookupS_eraseKey]
      by_cases hqe : q = str "Exec"
      · rw [if_pos hqe, lookupS_none_of_all hothK (fun h => h.1 hqe)]
      · rw [if_neg hqe]
        rw [lookupS_filter_notMatched (str "Icon") (((eraseKey actionIdKey (insertSorted actionIdKey action_id (toMap (actionPairs a)))).filter (fun kv => !(localizedMatches (str "Name") kv.1)))) q]
        by_cases hqi : localizedMatches (str "Icon") q = true
        · rw [if_pos hqi,
            lookupS_none_of_all hothK (fun h => bfalse_not_true h.2.2.2 hqi)]
        rw [if_neg hqi]
        rw [lookupS_filter_notMatched (str "Name") (eraseKey actionIdKey (insertSorted actionIdKey action_id (toMap (actionPairs a)))) q]
        by_cases hqn : localizedMatches (str "Name") q = true
        · rw [if_pos hqn,
            lookupS_none_of_all hothK (fun h => bfalse_not_true h.2.2.1 hqn)]
        rw [if_neg hqn]
        rw [hraw1 q]
        simp only [mLookA, if_neg hqn, if_neg hqi, if_neg hqe]
    exact SMap_ext (SMapSorted_filter _ (SMapSorted_filter _
      (SMapSorted_filter _ (SMapSorted_filter _ hraw0S)))) hothS hX
  simp only [deserialize_desktop_action, hAid, hsndN, hfstN, hsndI, hfstI,
    hExec, hothEq]

theorem parseSection_entry (raw : SMap Str) :
    parseSection (str "Desktop Entry") raw
      = (deserialize_desktop_entry raw).map Section.entry := by
  simp [parseSection]

theorem parseSection_action (action_id : Str) (raw : SMap Str) :
    parseSection (str "Desktop Action " ++ action_id) raw
      = (deserialize_desktop_action
          (insertSorted actionIdKey action_id raw)).map
          (fun p => Section.action p.1 p.2) := by
  have hne : ¬ (str "Desktop Action " ++ action_id = str "Desktop Entry") := by
    intro hc
    have h15 : (str "Desktop Action ").length = 15 := by decide
    have h13 : (str "Desktop Entry").length = 13 := by decide
    have hlen := congrArg List.length hc
    rw [List.length_append, h15, h13] at hlen
    omega
  simp only [parseSection]
  rw [if_neg hne,
    if_pos (isPrefixOf_append_self (str "Desktop Action ") action_id),
    List.drop_left]

theorem parseSection_other (n : Str) (raw : SMap Str)
    (h1 : ¬ n = str "Desktop Entry")
    (h2 : (str "Desktop Action ").isPrefixOf n = false) :
    parseSection n raw = Except.ok (Section.other raw) := by
  simp only [parseSection]
  rw [if_neg h1, if_neg (bfalse_not_true h2)]

theorem serializeSection_hdr {n : Str} {s : Section} (h : sectionOk n s) :
    ∃ m2, serializeSection n s = (n, m2) ∧ parseSection n m2 = Except.ok s := by
  cases s with
  | entry e =>
    obtain ⟨hn, hWF⟩ := h
    refine ⟨toMap (entryPairs e), ?_, ?_⟩
    · rw [hn]
      rfl
    · rw [hn, parseSection_entry, entry_roundtrip e hWF]
      rfl
  | action action_id a =>
    obtain ⟨hn, hWF⟩ := h
    refine ⟨toMap (actionPairs a), ?_, ?_⟩
    · rw [hn]
      rfl
    · rw [hn, parseSection_action, action_roundtrip action_id a hWF]
      rfl
  | other raw =>
    obtain ⟨hn1, hn2⟩ := h
    exact ⟨raw, rfl, parseSection_other n raw hn1 hn2⟩

theorem parse_document_aux_serialize :
    ∀ (rest : List (Str × Section)) (acc : Document),
      SMapSorted (acc ++ rest) →
      (∀ ns ∈ rest, sectionOk ns.1 ns.2) →
      parse_document_aux acc
          (rest.map (fun ns => serializeSection ns.1 ns.2))
        = Except.ok (acc ++ rest) := by
  intro rest
  induction rest with
  | nil =>
    intro acc _ _
    simp [parse_document_aux]
  | cons ns rest ih =>
    intro acc hs hok
    obtain ⟨n, sec⟩ := ns
    obtain ⟨m2, hser, hps⟩ := serializeSection_hdr
      (show sectionOk n sec from hok _ (List.mem_cons_self _ _))
    simp only [List.map_cons, parse_document_aux, hser]
    simp only [show ((n, m2) : Str × SMap Str).1 = n from rfl,
      show ((n, m2) : Str × SMap Str).2 = m2 from rfl, hps]
    have hlt : ∀ kv ∈ acc, strLt kv.1 n = true := by
      intro kv hkv
      exact (List.pairwise_append.mp hs).2.2 kv hkv _ (List.mem_cons_self _ _)
    rw [insertSorted_of_all_lt hlt sec]
    have hs2 : SMapSorted ((acc ++ [(n, sec)]) ++ rest) := by
      rw [List.append_assoc]
      exact hs
    rw [ih (acc ++ [(n, sec)]) hs2
      (fun ns2 hns2 => hok _ (List.mem_cons_of_mem _ hns2)),
      List.append_assoc]
    rfl

/-- C1 counterexample: a document that is a perfectly well-typed value —
one desktop entry whose `MimeType` list holds the single element "a;b" —
does NOT survive the cycle: the serializer joins list elements with ';',
so parsing splits the element in two. `parse_document ∘ serialize_document`
yields a DIFFERENT document, refuting the unconditional field-for-field
round-trip. -/
theorem c1_roundtrip_cex :
    parse_document (serialize_document
        [(str "Desktop Entry", Section.entry
          { baseEntry with mime_type := some [str "a;b"] })])
      = Except.ok [(str "Desktop Entry", Section.entry
          { baseEntry with mime_type := some [str "a", str "b"] })] ∧
    ({ baseEntry with mime_type := some [str "a;b"] } : DesktopEntry)
      ≠ { baseEntry with mime_type := some [str "a", str "b"] } := by
  constructor
  · decide
  · decide

/-- C1 amended: the round-trip holds for every well-formed document: a
sorted section map in which every entry/action section is well-formed
(localized maps sorted and nonempty when present, list elements nonempty,
semicolon-free and JSON-safe, catch-alls free of declared/matched keys)
and every section sits under its canonical header. Then
`parse_document (serialize_document d)` succeeds and reproduces `d`
field-for-field, catch-alls, opaque sections and orderings included. -/
theorem c1_roundtrip (d : Document) (hWF : WFDocument d) :
    parse_document (serialize_document d) = Except.ok d :=
  parse_document_aux_serialize d [] hWF.1 hWF.2

/-- Witness for C1's amended theorem: a concrete three-section document
(an action, the main entry with localized names, booleans, lists and a
catch-all key, and an opaque section) is well-formed and round-trips. -/
theorem c1_roundtrip_witness :
    WFDocument [(str "Desktop Action Gallery", Section.action (str "Gallery")
        { name := [([], str "Gallery")], icon := none,
          exec := some (str "app --gallery"), other := [] }),
      (str "Desktop Entry", Section.entry
        { baseEntry with
            name := [([], str "App"), (str "de", str "Anwendung")],
            generic_name := some [([], str "Viewer")],
            no_display := some true,
            only_show_in := some [str "GNOME"],
            exec := some (str "run %U"),
            terminal := some false,
            actions := some [str "Gallery"],
            other := [(str "X-Custom", str "1")] }),
      (str "X-Extra Section", Section.other [(str "k", str "v")])] ∧
    parse_document (serialize_document [(str "Desktop Action Gallery", Section.action (str "Gallery")
        { name := [([], str "Gallery")], icon := none,
          exec := some (str "app --gallery"), other := [] }),
      (str "Desktop Entry", Section.entry
        { baseEntry with
            name := [([], str "App"), (str "de", str "Anwendung")],
            generic_name := some [([], str "Viewer")],
            no_display := some true,
            only_show_in := some [str "GNOME"],
            exec := some (str "run %U"),
            terminal := some false,
            actions := some [str "Gallery"],
            other := [(str "X-Custom", str "1")] }),
      (str "X-Extra Section", Section.other [(str "k", str "v")])])
      = Except.ok [(str "Desktop Action Gallery", Section.action (str "Gallery")
        { name := [([], str "Gallery")], icon := none,
          exec := some (str "app --gallery"), other := [] }),
      (str "Desktop Entry", Section.entry
        { baseEntry with
            name := [([], str "App"), (str "de", str "Anwendung")],
            generic_name := some [([], str "Viewer")],
            no_display := some true,
            only_show_in := some [str "GNOME"],
            exec := some (str "run %U"),
            terminal := some false,
            actions := some [str "Gallery"],
            other := [(str "X-Custom", str "1")] }),
      (str "X-Extra Section", Section.other [(str "k", str "v")])] :=
  ⟨by decide, c1_roundtrip _ (by decide)⟩

/-! ### C4 support: per-locale lookups of the collected map -/

theorem foldl_oOr_single {α : Type} (f : Str → Option α) (k0 : Str) :
    ∀ (l : List Str), (∀ k ∈ l, k ≠ k0 → f k = none) →
      l.foldl (fun o k => oOr (f k) o) none
        = if k0 ∈ l then f k0 else none := by
  intro l
  induction l with
  | nil =>
    intro _
    simp
  | cons k l ih =>
    intro h
    simp only [List.foldl_cons]
    rw [foldl_oOr_shift, oOr_none_right,
      ih (fun q hq hqne => h q (List.mem_cons_of_mem _ hq) hqne)]
    by_cases hk : k = k0
    · subst k
      by_cases hmem : k0 ∈ l
      · rw [if_pos hmem, if_pos (List.mem_cons_of_mem _ hmem)]
        cases f k0 <;> rfl
      · rw [if_neg hmem, if_pos (List.mem_cons_self _ _)]
        rfl
    · rw [h k (List.mem_cons_self _ _) hk, oOr_none_right]
      by_cases hmem : k0 ∈ l
      · rw [if_pos hmem, if_pos (List.mem_cons_of_mem _ hmem)]
      · rw [if_neg hmem, if_neg (fun hc =>
          (List.mem_cons.mp hc).elim (fun h1 => hk h1.symm) hmem)]

theorem foldl_oOr_pair {α : Type} (f : Str → Option α) (kA kB : Str)
    (hAB : strLt kA kB = true) :
    ∀ {l : List Str}, List.Pairwise (fun a b => strLt a b = true) l →
      (∀ k ∈ l, k ≠ kA → k ≠ kB → f k = none) →
      l.foldl (fun o k => oOr (f k) o) none
        = oOr (if kB ∈ l then f kB else none)
            (if kA ∈ l then f kA else none) := by
  intro l
  induction l with
  | nil =>
    intro _ _
    rfl
  | cons k l ih =>
    intro hpw h
    rcases hpw with - | ⟨hall, hl⟩
    simp only [List.foldl_cons]
    rw [foldl_oOr_shift, oOr_none_right,
      ih hl (fun q hq h1 h2 => h q (List.mem_cons_of_mem _ hq) h1 h2)]
    have hABne : kA ≠ kB := strLt_ne hAB
    by_cases hkA : k = kA
    · subst k
      have hAnotin : kA ∉ l := fun hc => by
        have h2 := hall _ hc
        rw [strLt_irrefl] at h2
        exact Bool.false_ne_true h2
      rw [if_neg hAnotin, oOr_none_right,
        if_pos (List.mem_cons_self _ _)]
      by_cases hB : kB ∈ l
      · rw [if_pos hB, if_pos (List.mem_cons_of_mem _ hB)]
      · rw [if_neg hB, if_neg (fun hc =>
          (List.mem_cons.mp hc).elim (fun h1 => hABne h1.symm) hB)]
    · by_cases hkB : k = kB
      · subst k
        have hBnotin : kB ∉ l := fun hc => by
          have h2 := hall _ hc
          rw [strLt_irrefl] at h2
          exact Bool.false_ne_true h2
        have hAnotin : kA ∉ l := fun hc => by
          have h2 := hall _ hc
          rw [strLt_asymm hAB] at h2
          exact Bool.false_ne_true h2
        rw [if_neg hAnotin, if_neg hBnotin, oOr_none_right,
          if_pos (List.mem_cons_self _ _),
          if_neg (fun hc => (List.mem_cons.mp hc).elim
            (fun h1 => hABne h1) hAnotin),
          oOr_none_right]
        rfl
      · rw [h k (List.mem_cons_self _ _) hkA hkB, oOr_none_right]
        rw [show (if kB ∈ k :: l then f kB else none)
            = (if kB ∈ l then f kB else none) from by
          by_cases hB : kB ∈ l
          · rw [if_pos (List.mem_cons_of_mem _ hB), if_pos hB]
          · rw [if_neg (fun hc => (List.mem_cons.mp hc).elim
              (fun h1 => hkB h1.symm) hB), if_neg hB]]
        rw [show (if kA ∈ k :: l then f kA else none)
            = (if kA ∈ l then f kA else none) from by
          by_cases hA : kA ∈ l
          · rw [if_pos (List.mem_cons_of_mem _ hA), if_pos hA]
          · rw [if_neg (fun hc => (List.mem_cons.mp hc).elim
              (fun h1 => hkA h1.symm) hA), if_neg hA]]

theorem matched_bracket (pre loc : Str) :
    localizedMatches pre (pre ++ '[' :: (loc ++ [']'])) = true := by
  simp only [localizedMatches, Bool.or_eq_true, Bool.and_eq_true,
    decide_eq_true_eq]
  right
  constructor
  · rw [show pre ++ '[' :: (loc ++ [']'])
        = (pre ++ ['[']) ++ (loc ++ [']']) from by simp]
    exact isPrefixOf_append_self _ _
  · rw [show pre ++ '[' :: (loc ++ [']'])
        = (pre ++ '[' :: loc) ++ [']'] from by simp]
    rw [List.getLast?_concat]

theorem insVal_bracket_self (pre : Str) (hp : '[' ∉ pre) (m : SMap Str)
    (loc : Str) :
    insVal m pre loc (pre ++ '[' :: (loc ++ [']']))
      = lookupS m (pre ++ '[' :: (loc ++ [']'])) := by
  have hne : pre ++ '[' :: (loc ++ [']']) ≠ pre :=
    append_ne_self_of_ne_nil (by simp)
  cases hv : lookupS m (pre ++ '[' :: (loc ++ [']'])) with
  | none => simp [insVal, hv]
  | some v =>
    simp [insVal, hv, hne, afterBracket_append hp, List.dropLast_concat]

theorem insVal_pre_self (pre : Str) (m : SMap Str) :
    insVal m pre [] pre = lookupS m pre := by
  cases hv : lookupS m pre with
  | none => simp [insVal, hv]
  | some v => simp [insVal, hv]

/-- Per-locale content of the collected map, for the '['-free prefixes the
code uses: a non-empty locale holds the value of the bracketed key; the
default locale holds the value of `p ++ "[]"` when present, else of `p`. -/
theorem deserialize_localized_lookups {pre : Str} (hp : '[' ∉ pre)
    {m : SMap Str} (hms : SMapSorted m) {lm : SMap Str}
    (hsome : (deserialize_localized pre m).1 = some lm) :
    (∀ loc, loc ≠ [] →
      lookupS lm loc = lookupS m (pre ++ '[' :: (loc ++ [']']))) ∧
    lookupS lm [] = oOr (lookupS m (pre ++ str "[]")) (lookupS m pre) := by
  have htr : ¬ (((m.filter (fun kv => localizedMatches pre kv.1)).map Prod.fst) = []) := by
    intro hc
    have h0 : (deserialize_localized pre m).1 = none := by
      simp [deserialize_localized, hc]
    rw [h0] at hsome
    exact Option.noConfusion hsome
  have h3 : (deserialize_localized pre m).1 = some (((m.filter (fun kv => localizedMatches pre kv.1)).map Prod.fst).foldl (localizedStep pre) ([], m)).1 := by
    simp only [deserialize_localized, if_neg htr]
  rw [h3] at hsome
  injection hsome with h4
  subst h4
  have hnd : ((m.filter (fun kv => localizedMatches pre kv.1)).map Prod.fst).Nodup :=
    keys_nodup_of_sorted (SMapSorted_filter _ hms)
  have hPW : List.Pairwise (fun a b => strLt a b = true) ((m.filter (fun kv => localizedMatches pre kv.1)).map Prod.fst) :=
    List.pairwise_map.mpr (SMapSorted_filter _ hms)
  constructor
  · intro loc hloc
    rw [lookupS_foldl_localizedStep pre loc ((m.filter (fun kv => localizedMatches pre kv.1)).map Prod.fst) hnd [] m]
    rw [show lookupS ([] : SMap Str) loc = none from rfl, oOr_none_right]
    have hnone : ∀ k ∈ ((m.filter (fun kv => localizedMatches pre kv.1)).map Prod.fst),
        k ≠ pre ++ '[' :: (loc ++ [']']) → insVal m pre loc k = none := by
      intro k hk hkne
      have hmk := mem_removeList_matched hk
      rcases matched_decompose hp hmk with hkp | ⟨loc2, hkb⟩
      · subst k
        cases hv : lookupS m pre with
        | none => simp [insVal, hv]
        | some v => simp [insVal, hv, hloc]
      · subst k
        have hne2 : pre ++ '[' :: (loc2 ++ [']']) ≠ pre :=
          append_ne_self_of_ne_nil (by simp)
        have hll : ¬ (loc = loc2) := fun hc => hkne (by rw [hc])
        cases hv : lookupS m (pre ++ '[' :: (loc2 ++ [']'])) with
        | none => simp [insVal, hv]
        | some v =>
          simp [insVal, hv, hne2, afterBracket_append hp,
            List.dropLast_concat, hll]
    refine Eq.trans (foldl_oOr_single (fun k => insVal m pre loc k)
      (pre ++ '[' :: (loc ++ [']'])) ((m.filter (fun kv => localizedMatches pre kv.1)).map Prod.fst) hnone) ?_
    by_cases hmem : pre ++ '[' :: (loc ++ [']']) ∈ ((m.filter (fun kv => localizedMatches pre kv.1)).map Prod.fst)
    · rw [if_pos hmem]
      exact insVal_bracket_self pre hp m loc
    · rw [if_neg hmem]
      cases hv : lookupS m (pre ++ '[' :: (loc ++ [']'])) with
      | none => rfl
      | some v =>
        exact absurd (mem_removeList_of_lookup hv (matched_bracket pre loc))
          hmem
  · rw [lookupS_foldl_localizedStep pre [] ((m.filter (fun kv => localizedMatches pre kv.1)).map Prod.fst) hnd [] m]
    rw [show lookupS ([] : SMap Str) [] = none from rfl, oOr_none_right]
    have hsB : pre ++ str "[]" = pre ++ '[' :: (([] : Str) ++ [']']) := by
      rw [show (str "[]") = '[' :: (([] : Str) ++ [']']) from by decide]
    have hpair : ∀ k ∈ ((m.filter (fun kv => localizedMatches pre kv.1)).map Prod.fst),
        k ≠ pre → k ≠ pre ++ str "[]" → insVal m pre [] k = none := by
      intro k hk h1 h2
      exact insVal_empty_locale_none hp m (mem_removeList_matched hk) h1 h2
    refine Eq.trans (foldl_oOr_pair (fun k => insVal m pre [] k) pre
      (pre ++ str "[]") (strLt_append_right pre (by decide)) hPW hpair) ?_
    have hB : (if pre ++ str "[]" ∈ ((m.filter (fun kv => localizedMatches pre kv.1)).map Prod.fst)
          then insVal m pre [] (pre ++ str "[]") else none)
        = lookupS m (pre ++ str "[]") := by
      by_cases hmem : pre ++ str "[]" ∈ ((m.filter (fun kv => localizedMatches pre kv.1)).map Prod.fst)
      · rw [if_pos hmem, hsB]
        exact insVal_bracket_self pre hp m []
      · rw [if_neg hmem]
        cases hv : lookupS m (pre ++ str "[]") with
        | none => rfl
        | some v =>
          have hmB : localizedMatches pre (pre ++ str "[]") = true := by
            rw [hsB]
            exact matched_bracket pre []
          exact absurd (mem_removeList_of_lookup hv hmB) hmem
    have hA : (if pre ∈ ((m.filter (fun kv => localizedMatches pre kv.1)).map Prod.fst) then insVal m pre [] pre else none)
        = lookupS m pre := by
      by_cases hmem : pre ∈ ((m.filter (fun kv => localizedMatches pre kv.1)).map Prod.fst)
      · rw [if_pos hmem]
        exact insVal_pre_self pre m
      · rw [if_neg hmem]
        cases hv : lookupS m pre with
        | none => rfl
        | some v =>
          exact absurd (mem_removeList_of_lookup hv
            (by simp [localizedMatches])) hmem
    rw [hB, hA]

/-- C4 amended: for every prefix and raw map, the extractor removes exactly
the matching keys — those equal to the prefix or of the form
`prefix ++ "[" ++ locale ++ "]"` for ANY locale, the empty locale included —
leaves every other key untouched, and returns "no value" iff no key matched;
and for every prefix free of '[' (all prefixes the code uses) on a sorted
raw map, the collected map stores, under each non-empty locale, the value
of the bracketed key `prefix ++ "[" ++ locale ++ "]"`, and, under the
default locale "", the value of `prefix ++ "[]"` when that key is present,
else the value of the bare key `prefix`; the claim's concrete example
behaves as stated. -/
theorem c4_locale_extract :
    (∀ (pre : Str) (m : SMap Str),
      (deserialize_localized pre m).2
        = m.filter (fun kv => !(localizedMatches pre kv.1)) ∧
      ((deserialize_localized pre m).1 = none ↔
        ∀ kv ∈ m, localizedMatches pre kv.1 = false)) ∧
    (∀ (pre : Str), '[' ∉ pre → ∀ (m : SMap Str), SMapSorted m →
      ∀ lm, (deserialize_localized pre m).1 = some lm →
        (∀ loc, loc ≠ [] →
          lookupS lm loc = lookupS m (pre ++ '[' :: (loc ++ [']']))) ∧
        lookupS lm [] = oOr (lookupS m (pre ++ str "[]")) (lookupS m pre)) ∧
    deserialize_localized (str "Name")
        [(str "Icon", str "x"), (str "Name", str "Foo Viewer"),
          (str "Name[de]", str "Foo Betrachter")]
      = (some [(str "", str "Foo Viewer"), (str "de", str "Foo Betrachter")],
          [(str "Icon", str "x")]) := by
  refine ⟨?_, ?_, by decide⟩
  · intro pre m
    refine ⟨deserialize_localized_snd pre m, ?_⟩
    simp only [deserialize_localized]
    split
    · rename_i h
      have hf : m.filter (fun kv => localizedMatches pre kv.1) = [] :=
        List.map_eq_nil.mp h
      constructor
      · intro _ kv hkv
        have := List.filter_eq_nil.mp hf kv hkv
        simpa using this
      · intro _
        rfl
    · rename_i h
      constructor
      · intro hc
        exact absurd hc (by simp)
      · intro hall
        exfalso
        apply h
        have hf : m.filter (fun kv => localizedMatches pre kv.1) = [] :=
          List.filter_eq_nil.mpr (fun kv hkv => by simp [hall kv hkv])
        rw [hf]
        rfl
  · intro pre hp m hms lm hsome
    exact deserialize_localized_lookups hp hms hsome

/-- Witness for C4's amended theorem: the none-iff clause at the empty map,
and the storage clauses at the claim's own example, locale "de" and the
default locale. -/
theorem c4_locale_extract_witness :
    (deserialize_localized (str "Name") []).1 = none ∧
    lookupS [(str "", str "Foo Viewer"), (str "de", str "Foo Betrachter")]
        (str "de")
      = lookupS [(str "Icon", str "x"), (str "Name", str "Foo Viewer"),
          (str "Name[de]", str "Foo Betrachter")]
          (str "Name" ++ '[' :: (str "de" ++ [']'])) ∧
    lookupS [(str "", str "Foo Viewer"), (str "de", str "Foo Betrachter")] []
      = oOr (lookupS [(str "Icon", str "x"), (str "Name", str "Foo Viewer"),
            (str "Name[de]", str "Foo Betrachter")] (str "Name" ++ str "[]"))
          (lookupS [(str "Icon", str "x"), (str "Name", str "Foo Viewer"),
            (str "Name[de]", str "Foo Betrachter")] (str "Name")) :=
  ⟨(c4_locale_extract.1 (str "Name") []).2.mpr
    (fun kv hkv => absurd hkv (by simp)),
   (c4_locale_extract.2.1 (str "Name") (by decide) _ (by decide) _
     (by decide)).1 (str "de") (by decide),
   (c4_locale_extract.2.1 (str "Name") (by decide) _ (by decide) _
     (by decide)).2⟩

end RMenu
